import Mathlib

/-!
GStreamer input selector (`gstreamer/plugins/elements/gstinputselector.c`).

A shallow embedding of the N-to-1 input selector element and the properties
of its block/switch protocol, its buffer path (`gst_selector_pad_chain`) with
the cache and its pruner, its event path (`gst_selector_pad_event`), its
allocation and latency-query handlers and its `active-pad` property.

Modelling conventions.

* Every 64-bit quantity (`gint64`, `guint64`, `GstClockTime`) is an `Int`
  holding the two's-complement *signed* reading of the machine word, so
  `GST_CLOCK_TIME_NONE` is `-1`.  Comparisons that C performs on unsigned
  operands go through `u64`.  Signed arithmetic is not wrapped (signed
  overflow is undefined in C); the unsigned sum the element computes wraps
  (`s64`).
* A `gdouble` is held as the exact fraction `num / den` of its value; its
  operations round to binary64 (to nearest, ties to even), and the conversion
  of a `gdouble` to `gint64` truncates toward zero, as in C.
* Pads are named by a `PadId`; the selector carries the per-pad records
  (`GstSelectorPad`) in `pads` and the element's pad list in `sinkpads`.
* The element is multi-threaded around one mutex and one condition variable.
  The embedding is sequential: an entry point runs atomically, and a thread
  that would sleep on the condition variable ends its call with the outcome
  `parked` (state and trace are those at the moment it goes to sleep).
* What an entry point does to the outside is recorded as a list of `Action`s
  in program order.
* The functions of `gstsegment.c` and `gsttaglist.c` the element calls are not
  among the sources; they are taken as the parameter `L : GstLib`.
-/

namespace InputSelector

/-! ## Framework types -/

/-- The stream formats of `GstFormat`. -/
inductive GstFormat
  | UNDEFINED | DEFAULT | BYTES | TIME | BUFFERS | PERCENT
  deriving DecidableEq, Repr

/-- The flow returns of `GstFlowReturn` the element produces or relays
(`WRONG_STATE` is the flushing status). -/
inductive GstFlowReturn
  | OK | NOT_LINKED | WRONG_STATE | UNEXPECTED | NOT_NEGOTIATED | ERROR | NOT_SUPPORTED
  deriving DecidableEq, Repr

/-- The two values of `GstInputSelectorSyncMode`. -/
inductive GstInputSelectorSyncMode
  | ACTIVE_SEGMENT | CLOCK
  deriving DecidableEq, Repr

/-- A `gdouble`, held as the exact fraction `num / den` of its value.  The operations below
round their exact result to binary64, as the arithmetic of the C code does.  A value with
`den = 0` is not finite: an infinity with the sign of `num`, or a NaN when `num = 0`. -/
structure gdouble where
  num : Int
  den : Nat
  deriving DecidableEq, Repr

/-- The position of the leading binary digit of `n`, searched with the given fuel. -/
def ilog2_aux : Nat → Nat → Nat
  | 0, _ => 0
  | fuel + 1, n => if n < 2 then 0 else ilog2_aux fuel (n / 2) + 1

/-- The integer part of the binary logarithm of `n` (0 for `n < 2`). -/
def ilog2 (n : Nat) : Nat := ilog2_aux n n

/-- The binary exponent of the positive fraction `a / d`: the integer `e` with
`2 ^ e ≤ a / d < 2 ^ (e + 1)`. -/
def gdouble.exponent (a d : Nat) : Int :=
  if d ≤ a then (ilog2 (a / d) : Int) else -((ilog2 ((d + a - 1) / a - 1) : Int) + 1)

/-- Rounding to binary64, to nearest with ties to even: the exact fraction `num / den` becomes
the nearest value `m * 2 ^ p` with `m ≤ 2 ^ 53` and `p ≥ -1074` (`p` is the exponent of the
last place of the 53-digit significand), or an infinity from `2 ^ 1024` on.  A value that is
not finite stays as it is. -/
def gdouble.round (x : gdouble) : gdouble :=
  if x.den = 0 then x
  else if x.num = 0 then ⟨0, 1⟩
  else
    let a := x.num.natAbs
    let p : Int := max (gdouble.exponent a x.den) (-1022) - 52
    let n := a * 2 ^ (-p).toNat
    let d := x.den * 2 ^ p.toNat
    let m0 := n / d
    let r := n % d
    let m := if 2 * r < d then m0 else if d < 2 * r then m0 + 1 else m0 + m0 % 2
    if 971 < p ∨ (p = 971 ∧ 2 ^ 53 ≤ m) then ⟨x.num.sign, 0⟩
    else ⟨x.num.sign * ((m * 2 ^ p.toNat : Nat) : Int), 2 ^ (-p).toNat⟩

/-- The `gdouble` image of a `gint64` (the usual arithmetic conversion, which rounds). -/
def gdouble.of_gint64 (x : Int) : gdouble := gdouble.round ⟨x, 1⟩

/-- Product of two `gdouble`s, rounded. -/
def gdouble.mul (a b : gdouble) : gdouble :=
  if a.den = 0 ∨ b.den = 0 then ⟨a.num.sign * b.num.sign, 0⟩
  else gdouble.round ⟨a.num * b.num, a.den * b.den⟩

/-- Sum of two `gdouble`s, rounded. -/
def gdouble.add (a b : gdouble) : gdouble :=
  if a.den = 0 ∧ b.den = 0 then (if a.num.sign = b.num.sign then a else ⟨0, 0⟩)
  else if a.den = 0 then a
  else if b.den = 0 then b
  else gdouble.round ⟨a.num * (b.den : Int) + b.num * (a.den : Int), a.den * b.den⟩

/-- Conversion of a `gdouble` to `gint64`: truncation toward zero.  For a value that is not
finite or whose integer part is not a `gint64` the C conversion is undefined; the result
here is the one of the x86-64 conversion instruction, the most negative `gint64`. -/
def gdouble.to_gint64 (a : gdouble) : Int :=
  if a.den = 0 then -2 ^ 63
  else if -2 ^ 63 ≤ Int.tdiv a.num (a.den : Int) ∧ Int.tdiv a.num (a.den : Int) < 2 ^ 63 then
    Int.tdiv a.num (a.den : Int)
  else -2 ^ 63

/-- The constant `1.0`. -/
def gdouble.one : gdouble := ⟨1, 1⟩

/-- The value `GST_CLOCK_TIME_NONE`, read as a signed word. -/
def GST_CLOCK_TIME_NONE : Int := -1

/-- The macro `GST_CLOCK_TIME_IS_VALID`. -/
def GST_CLOCK_TIME_IS_VALID (t : Int) : Bool := t != GST_CLOCK_TIME_NONE

/-- The unsigned reading of a 64-bit word. -/
def u64 (x : Int) : Int := x % 18446744073709551616

/-- The signed reading of the low 64 bits of an integer: what a `guint64` sum holds when it
is passed on as a `gint64`. -/
def s64 (x : Int) : Int := (x + 9223372036854775808) % 18446744073709551616 - 9223372036854775808

/-- A pad is named by a number. -/
abbrev PadId := Nat

/-- A `GstBuffer`, through the accessors the element uses: an identity for
the payload, `GST_BUFFER_TIMESTAMP`, `GST_BUFFER_DURATION`, the flag
`GST_BUFFER_FLAG_DISCONT` and `GST_BUFFER_CAPS`. -/
structure GstBuffer where
  id : Nat
  timestamp : Int
  duration : Int
  discont : Bool
  caps : Option Nat
  deriving DecidableEq, Repr

/-- A `GstSegment`, with the fields the element reads or writes. -/
structure GstSegment where
  rate : gdouble
  abs_rate : gdouble
  applied_rate : gdouble
  format : GstFormat
  start : Int
  stop : Int
  time : Int
  accum : Int
  last_stop : Int
  deriving DecidableEq, Repr

/-- A tag list: pairs of tag and value. -/
abbrev GstTagList := List (Nat × Nat)

/-- A `GstEvent`, by `GST_EVENT_TYPE`; `OTHER` stands for every type the
element has no case for. -/
inductive GstEvent
  | FLUSH_START
  | FLUSH_STOP
  | NEWSEGMENT (update : Bool) (rate : gdouble) (applied_rate : gdouble) (format : GstFormat)
      (start : Int) (stop : Int) (time : Int)
  | TAG (tags : GstTagList)
  | EOS
  | OTHER (id : Nat)
  deriving DecidableEq, Repr

/-- The constructor `gst_event_new_new_segment_full`. -/
def gst_event_new_new_segment_full (update : Bool) (rate applied_rate : gdouble)
    (format : GstFormat) (start stop time : Int) : GstEvent :=
  GstEvent.NEWSEGMENT update rate applied_rate format start stop time

/-- The library functions the element calls on segments and tag lists
(`gstsegment.c`, `gsttaglist.c`), as a parameter of the embedding. -/
structure GstLib where
  gst_segment_init : GstFormat → GstSegment
  gst_segment_set_newsegment_full :
    GstSegment → Bool → gdouble → gdouble → GstFormat → Int → Int → Int → GstSegment
  gst_segment_to_running_time : GstSegment → GstFormat → Int → Int
  gst_segment_set_last_stop : GstSegment → GstFormat → Int → GstSegment
  gst_tag_list_merge : Option GstTagList → GstTagList → GstTagList

/-- What the surroundings answer during one call: the element clock
(`none` when the element has no clock) with the base time, the flow return
of `gst_pad_push` and the result of `gst_pad_push_event` on the source pad. -/
structure Env where
  clock : Option Int
  base_time : Int
  push_result : GstFlowReturn
  event_result : Bool
  deriving DecidableEq, Repr

/-! ## The element's own types -/

/-- The struct `_GstSelectorPadCachedBuffer`. -/
structure GstSelectorPadCachedBuffer where
  buffer : GstBuffer
  segment : GstSegment
  segment_update : Bool
  deriving DecidableEq, Repr

/-- The struct `_GstSelectorPad`; `cached_buffers` is `none` for the `NULL`
queue. -/
structure GstSelectorPad where
  active : Bool
  pushed : Bool
  eos : Bool
  eos_sent : Bool
  discont : Bool
  flushing : Bool
  always_ok : Bool
  segment_update : Bool
  segment : GstSegment
  tags : Option GstTagList
  sending_cached_buffers : Bool
  cached_buffers : Option (List GstSelectorPadCachedBuffer)
  segment_pending : Bool
  deriving DecidableEq, Repr

/-- The struct `GstInputSelector`, with the caps of its source pad. -/
structure GstInputSelector where
  active_sinkpad : Option PadId
  n_pads : Nat
  padcount : Nat
  segment : GstSegment
  pending_close : Bool
  blocked : Bool
  flushing : Bool
  sync_streams : Bool
  sync_mode : GstInputSelectorSyncMode
  cache_buffers : Bool
  sinkpads : List PadId
  pads : PadId → GstSelectorPad
  srcpad_caps : Option Nat

/-- What a call does to the outside: an event or a buffer pushed on the
source pad, or a property notification. -/
inductive Action
  | push_event (e : GstEvent)
  | push_buffer (b : GstBuffer)
  | notify_active_pad
  | notify_tags (pad : PadId)
  deriving DecidableEq, Repr

/-- Whether an action is a push on the source pad. -/
def Action.is_push : Action → Bool
  | Action.push_event _ => true
  | Action.push_buffer _ => true
  | _ => false

/-- The items pushed downstream in a trace, in order. -/
def downstream (tr : List Action) : List Action := tr.filter Action.is_push

/-- The buffers pushed downstream in a trace, in order. -/
def pushed_buffers : List Action → List GstBuffer
  | [] => []
  | Action.push_buffer b :: tr => b :: pushed_buffers tr
  | _ :: tr => pushed_buffers tr

/-- The number of end-of-stream events pushed downstream in a trace. -/
def eos_pushed : List Action → Nat
  | [] => 0
  | Action.push_event GstEvent.EOS :: tr => eos_pushed tr + 1
  | _ :: tr => eos_pushed tr

/-- Replace the record of pad `p`. -/
def GstInputSelector.set_pad (sel : GstInputSelector) (p : PadId) (v : GstSelectorPad) :
    GstInputSelector :=
  { sel with pads := fun q => if q = p then v else sel.pads q }

/-- Rewrite the record of pad `p`. -/
def GstInputSelector.modify_pad (sel : GstInputSelector) (p : PadId)
    (f : GstSelectorPad → GstSelectorPad) : GstInputSelector :=
  sel.set_pad p (f (sel.pads p))

/-! ## Segment arithmetic (lines 1562-1596) -/

/-- Source `gst_segment_get_timestamp`: solve the running-time equation for the
timestamp. -/
def gst_segment_get_timestamp (segment : GstSegment) (running_time : Int) : Int :=
  if running_time ≤ segment.accum then segment.start
  else
    gdouble.to_gint64
      (gdouble.add
        (gdouble.mul (gdouble.of_gint64 (running_time - segment.accum)) segment.abs_rate)
        (gdouble.of_gint64 segment.start))

/-- Source `gst_segment_set_stop`. -/
def gst_segment_set_stop (segment : GstSegment) (running_time : Int) : GstSegment :=
  { segment with stop := gst_segment_get_timestamp segment running_time, last_stop := -1 }

/-- Source `gst_segment_set_start`. -/
def gst_segment_set_start (segment : GstSegment) (running_time : Int) : GstSegment :=
  let new_start := gst_segment_get_timestamp segment running_time
  let duration := new_start - segment.start
  { segment with
    accum := segment.accum + duration
    time := segment.time + duration
    start := segment.start + duration }

/-! ## Pad helpers -/

/-- Source `gst_selector_pad_get_running_time`. -/
def gst_selector_pad_get_running_time (L : GstLib) (pad : GstSelectorPad) : Int :=
  if pad.active then
    if pad.segment.last_stop ≥ 0 then
      L.gst_segment_to_running_time pad.segment GstFormat.TIME pad.segment.last_stop
    else 0
  else 0

/-- Source `gst_selector_pad_reset` (with `gst_selector_pad_free_cached_buffers`,
which leaves the queue `NULL`). -/
def gst_selector_pad_reset (L : GstLib) (pad : GstSelectorPad) : GstSelectorPad :=
  { pad with
    active := false
    pushed := false
    eos := false
    eos_sent := false
    segment_pending := false
    discont := false
    flushing := false
    segment := L.gst_segment_init GstFormat.UNDEFINED
    segment_update := false
    sending_cached_buffers := false
    cached_buffers := none }

/-- Source `gst_selector_pad_init`: `always_ok` gets `DEFAULT_PAD_ALWAYS_OK`, the
rest is reset; a new object has no tags. -/
def gst_selector_pad_init (L : GstLib) : GstSelectorPad :=
  gst_selector_pad_reset L
    { active := false, pushed := false, eos := false, eos_sent := false, discont := false,
      flushing := false, always_ok := true, segment_update := false,
      segment := L.gst_segment_init GstFormat.UNDEFINED, tags := none,
      sending_cached_buffers := false, cached_buffers := none, segment_pending := false }

/-- Source `gst_selector_pad_new_cached_buffer`. -/
def gst_selector_pad_new_cached_buffer (selpad : GstSelectorPad) (buffer : GstBuffer) :
    GstSelectorPadCachedBuffer :=
  { buffer := buffer, segment := selpad.segment, segment_update := selpad.segment_update }

/-- Source `gst_selector_pad_cache_buffer`. -/
def gst_selector_pad_cache_buffer (selpad : GstSelectorPad) (buffer : GstBuffer) :
    GstSelectorPad :=
  if selpad.segment.format ≠ GstFormat.TIME then selpad
  else
    { selpad with
      cached_buffers :=
        some ((selpad.cached_buffers.getD []) ++
          [gst_selector_pad_new_cached_buffer selpad buffer]) }

/-- Source `gst_input_selector_activate_sinkpad`: mark the pad as seen, make it
the active pad when there is none, and return the active pad. -/
def gst_input_selector_activate_sinkpad (sel : GstInputSelector) (pad : PadId) :
    GstInputSelector × PadId :=
  let sel1 := sel.modify_pad pad (fun p => { p with active := true })
  match sel1.active_sinkpad with
  | none => ({ sel1 with active_sinkpad := some pad }, pad)
  | some a => (sel1, a)

/-! ## Block and switch (lines 1598-1657, 2082-2128) -/

/-- Source `gst_input_selector_set_active_pad`; the Boolean tells whether the
active pad changed. -/
def gst_input_selector_set_active_pad (L : GstLib) (self : GstInputSelector)
    (pad : Option PadId) (stop_time start_time : Int) : GstInputSelector × Bool :=
  if pad = self.active_sinkpad then (self, false)
  else
    let old := self.active_sinkpad
    let times : Int × Int :=
      match old with
      | some o =>
        if ¬ GST_CLOCK_TIME_IS_VALID stop_time then
          (gst_selector_pad_get_running_time L (self.pads o),
           gst_selector_pad_get_running_time L (self.pads o))
        else (stop_time, start_time)
      | none => (stop_time, start_time)
    let stop_time := times.1
    let start_time := times.2
    let self1 : GstInputSelector :=
      match old with
      | some o =>
        if (self.pads o).active ∧ ¬ self.pending_close ∧ stop_time ≥ 0 then
          { self with
            segment := gst_segment_set_stop (self.pads o).segment stop_time
            pending_close := true }
        else self
      | none => self
    let self2 : GstInputSelector :=
      match old with
      | some o => self1.modify_pad o (fun p => { p with pushed := false })
      | none => self1
    let self3 : GstInputSelector :=
      match pad with
      | some n =>
        if (self2.pads n).active ∧ start_time ≥ 0 then
          let start_time :=
            if self2.sync_streams ∧ self2.cache_buffers then
              gst_selector_pad_get_running_time L (self2.pads n)
            else start_time
          self2.modify_pad n (fun p =>
            { p with
              segment := gst_segment_set_start p.segment start_time
              segment_pending := true })
        else self2
      | none => self2
    let self4 : GstInputSelector :=
      match pad with
      | some n => self3.modify_pad n (fun p => { p with pushed := false })
      | none => self3
    ({ self4 with active_sinkpad := pad }, true)

/-- Source `gst_input_selector_block`: the new state and the returned running
time. -/
def gst_input_selector_block (L : GstLib) (self : GstInputSelector) : GstInputSelector × Int :=
  let self1 := { self with blocked := true }
  match self1.active_sinkpad with
  | some spad => (self1, gst_selector_pad_get_running_time L (self1.pads spad))
  | none => (self1, 0)

/-- Source `gst_input_selector_switch`: the new state and the notifications.
When the selector is not blocked, `g_return_if_fail` leaves at once. -/
def gst_input_selector_switch (L : GstLib) (self : GstInputSelector) (pad : Option PadId)
    (stop_time start_time : Int) : GstInputSelector × List Action :=
  if self.blocked ≠ true then (self, [])
  else
    let r := gst_input_selector_set_active_pad L self pad stop_time start_time
    let self1 := { r.1 with blocked := false }
    (self1, if r.2 then [Action.notify_active_pad] else [])

/-! ## Waiting (lines 715-843) -/

/-- How a call ends: it returns a value, it goes to sleep on the selector's
condition variable, or the replay loop outlives the fuel it was given. -/
inductive Outcome (α : Type)
  | returned (a : α)
  | parked
  | diverged
  deriving DecidableEq, Repr

/-- Source `gst_input_selector_wait`: `none` when the caller sleeps (the
selector is blocked and neither it nor the pad is flushing), else the returned
`self->flushing`. -/
def gst_input_selector_wait (self : GstInputSelector) (pad : GstSelectorPad) : Option Bool :=
  if self.blocked ∧ ¬ self.flushing ∧ ¬ pad.flushing then none
  else some self.flushing

/-- The running time at the end of a buffer, as computed in lines 772-784
and again in lines 950-962: timestamp, plus the duration when valid (a `guint64` sum, which
wraps), clamped to a valid `seg->stop` (an unsigned comparison), then converted by the
segment. -/
def buffer_end_running_time (L : GstLib) (seg : GstSegment) (buf : GstBuffer) : Int :=
  let running_time := buf.timestamp
  let running_time :=
    if GST_CLOCK_TIME_IS_VALID buf.duration then s64 (running_time + buf.duration)
    else running_time
  let running_time :=
    if GST_CLOCK_TIME_IS_VALID seg.stop then
      if u64 running_time > u64 seg.stop then seg.stop else running_time
    else running_time
  L.gst_segment_to_running_time seg GstFormat.TIME running_time

/-- The clock reference of lines 792-803 and 888-899: clock time minus base
time, zero when the base time is ahead, `GST_CLOCK_TIME_NONE` without a clock. -/
def clock_running_time (env : Env) : Int :=
  match env.clock with
  | some t => if u64 env.base_time ≤ u64 t then t - env.base_time else 0
  | none => GST_CLOCK_TIME_NONE

/-- Source `gst_input_selector_wait_running_time`, one pass of its loop: `none`
when the caller sleeps, else the returned flushing flag. -/
def gst_input_selector_wait_running_time (L : GstLib) (env : Env) (sel : GstInputSelector)
    (selpad : PadId) (buf : GstBuffer) : GstInputSelector × Option Bool :=
  if ¬ GST_CLOCK_TIME_IS_VALID buf.timestamp then (sel, some false)
  else
    let r := gst_input_selector_activate_sinkpad sel selpad
    let sel1 := r.1
    let active_selpad := r.2
    let seg := (sel1.pads selpad).segment
    if seg.format ≠ GstFormat.TIME then (sel1, some false)
    else
      let running_time := buffer_end_running_time L seg buf
      if running_time = -1 then (sel1, some false)
      else
        let cur : Option Int :=
          if sel1.sync_mode = GstInputSelectorSyncMode.CLOCK then some (clock_running_time env)
          else
            let active_seg := (sel1.pads active_selpad).segment
            if active_seg.format ≠ GstFormat.TIME ∧ active_seg.format ≠ GstFormat.UNDEFINED then
              none
            else if active_seg.format = GstFormat.TIME then
              some (L.gst_segment_to_running_time active_seg GstFormat.TIME active_seg.last_stop)
            else some GST_CLOCK_TIME_NONE
        match cur with
        | none => (sel1, some false)
        | some cur_running_time =>
          if selpad ≠ active_selpad ∧ ¬ sel1.flushing ∧ ¬ (sel1.pads selpad).flushing ∧
              (sel1.cache_buffers ∨ (sel1.pads active_selpad).pushed) ∧
              (sel1.blocked ∨ cur_running_time = -1 ∨
                u64 running_time ≥ u64 cur_running_time) then
            (sel1, none)
          else (sel1, some (sel1.flushing || (sel1.pads selpad).flushing))

/-! ## The cache pruner (lines 878-1001) -/

/-- The inner loop of `gst_input_selector_cleanup_old_cached_buffers` on one
queue.  The first argument is `maybe_remove`, the entries without a timestamp
met since the last removal (they are the head of the queue, and
`queue_position` is their number); the second is the queue from
`queue_position` on.  The result is the queue the loop leaves. -/
def cleanup_queue (L : GstLib) (seg : GstSegment) (cur_running_time : Int) :
    List GstSelectorPadCachedBuffer → List GstSelectorPadCachedBuffer →
      List GstSelectorPadCachedBuffer
  | maybe_remove, [] => maybe_remove
  | maybe_remove, cached_buffer :: rest =>
    if ¬ GST_CLOCK_TIME_IS_VALID cached_buffer.buffer.timestamp then
      cleanup_queue L seg cur_running_time (maybe_remove ++ [cached_buffer]) rest
    else if u64 (buffer_end_running_time L seg cached_buffer.buffer) ≥ u64 cur_running_time then
      maybe_remove ++ cached_buffer :: rest
    else cleanup_queue L seg cur_running_time [] rest

/-- The body of the pad loop of the pruner: prune one pad's queue against the
pad's current segment and free the queue when it is left empty. -/
def cleanup_pad (L : GstLib) (cur_running_time : Int) (selpad : GstSelectorPad) :
    GstSelectorPad :=
  match selpad.cached_buffers with
  | none => selpad
  | some q =>
    let q1 := cleanup_queue L selpad.segment cur_running_time [] q
    { selpad with cached_buffers := if q1.isEmpty then none else some q1 }

/-- Source `gst_input_selector_cleanup_old_cached_buffers`. -/
def gst_input_selector_cleanup_old_cached_buffers (L : GstLib) (env : Env)
    (sel : GstInputSelector) (pad : PadId) : GstInputSelector :=
  let r : GstInputSelector × Int :=
    if sel.sync_mode = GstInputSelectorSyncMode.CLOCK then (sel, clock_running_time env)
    else
      let a := gst_input_selector_activate_sinkpad sel pad
      let active_seg := (a.1.pads a.2).segment
      if active_seg.format = GstFormat.TIME then
        (a.1, L.gst_segment_to_running_time active_seg GstFormat.TIME active_seg.last_stop)
      else (a.1, GST_CLOCK_TIME_NONE)
  if ¬ GST_CLOCK_TIME_IS_VALID r.2 then r.1
  else r.1.sinkpads.foldl (fun s p => s.modify_pad p (cleanup_pad L r.2)) r.1

/-! ## The buffer path (lines 1003-1244) -/

/-- What a chain call leaves: the state, the actions in program order and how
the call ended. -/
structure ChainResult where
  sel : GstInputSelector
  trace : List Action
  outcome : Outcome GstFlowReturn

/-- The replay loop of lines 1053-1070, with the nested chain call as a
parameter.  `returned ()` is the normal end of the loop. -/
def replay_cached_buffers (chain : GstInputSelector → PadId → GstBuffer → ChainResult)
    (pad : PadId) : Nat → GstInputSelector → GstInputSelector × List Action × Outcome Unit
  | 0, sel => (sel, [], Outcome.diverged)
  | fuel + 1, sel =>
    if sel.flushing ∨ (sel.pads pad).flushing then (sel, [], Outcome.returned ())
    else
      match (sel.pads pad).cached_buffers with
      | none => (sel, [], Outcome.returned ())
      | some [] => (sel, [], Outcome.returned ())
      | some (cached_buffer :: rest) =>
        let sel1 := sel.modify_pad pad (fun p =>
          { p with
            cached_buffers := some rest
            segment := cached_buffer.segment
            segment_update := cached_buffer.segment_update
            segment_pending := true })
        let r := chain sel1 pad cached_buffer.buffer
        match r.outcome with
        | Outcome.returned _ =>
          if (r.sel.pads pad).cached_buffers = none then (r.sel, r.trace, Outcome.returned ())
          else
            let r2 := replay_cached_buffers chain pad fuel r.sel
            (r2.1, r.trace ++ r2.2.1, r2.2.2)
        | Outcome.parked => (r.sel, r.trace, Outcome.parked)
        | Outcome.diverged => (r.sel, r.trace, Outcome.diverged)

/-- Lines 1041-1081 of `gst_selector_pad_chain`: the replay of the pad's cache,
entered when the pad is not the active one or has not pushed yet, has a queue
and is not replaying already.  It yields the active pad as it is afterwards. -/
def chain_replay (chain : GstInputSelector → PadId → GstBuffer → ChainResult) (fuel : Nat)
    (sel : GstInputSelector) (pad : PadId) (active_sinkpad : PadId) :
    GstInputSelector × List Action × Outcome PadId :=
  if (active_sinkpad ≠ pad ∨ ¬ (sel.pads pad).pushed) ∧
      (sel.pads pad).cached_buffers.isSome ∧ ¬ (sel.pads pad).sending_cached_buffers then
    let saved_segment := (sel.pads pad).segment
    let saved_segment_update := (sel.pads pad).segment_update
    let sel1 := sel.modify_pad pad (fun p => { p with sending_cached_buffers := true })
    let lp := replay_cached_buffers chain pad fuel sel1
    match lp.2.2 with
    | Outcome.returned _ =>
      let sel2 := lp.1.modify_pad pad (fun p =>
        { p with
          sending_cached_buffers := false
          segment := saved_segment
          segment_update := saved_segment_update
          segment_pending := true })
      let a := gst_input_selector_activate_sinkpad sel2 pad
      (a.1, lp.2.1, Outcome.returned a.2)
    | Outcome.parked => (lp.1, lp.2.1, Outcome.parked)
    | Outcome.diverged => (lp.1, lp.2.1, Outcome.diverged)
  else (sel, [], Outcome.returned active_sinkpad)

/-- Lines 1038-1092 of `gst_selector_pad_chain`: the sync-streams branch.  It
yields the active pad to go on with, or `none` for `goto flushing`. -/
def chain_sync (L : GstLib) (env : Env)
    (chain : GstInputSelector → PadId → GstBuffer → ChainResult) (fuel : Nat)
    (sel : GstInputSelector) (pad : PadId) (buf : GstBuffer) (active_sinkpad : PadId) :
    GstInputSelector × List Action × Outcome (Option PadId) :=
  if ¬ sel.sync_streams then (sel, [], Outcome.returned (some active_sinkpad))
  else
    let rp := chain_replay chain fuel sel pad active_sinkpad
    match rp.2.2 with
    | Outcome.parked => (rp.1, rp.2.1, Outcome.parked)
    | Outcome.diverged => (rp.1, rp.2.1, Outcome.diverged)
    | Outcome.returned active1 =>
      let w : GstInputSelector × Option Bool :=
        if active1 ≠ pad then gst_input_selector_wait_running_time L env rp.1 pad buf
        else (rp.1, some false)
      match w.2 with
      | none => (w.1, rp.2.1, Outcome.parked)
      | some true => (w.1, rp.2.1, Outcome.returned none)
      | some false =>
        let a := gst_input_selector_activate_sinkpad w.1 pad
        (a.1, rp.2.1, Outcome.returned (some a.2))

/-- Lines 1112-1210 of `gst_selector_pad_chain`: what the active pad does with
its buffer.  `notify` is the test of line 1162. -/
def chain_forward (L : GstLib) (env : Env) (sel : GstInputSelector) (pad : PadId)
    (buf : GstBuffer) (notify : Bool) : GstInputSelector × List Action :=
  let cseg := sel.segment
  let close_event : List Action :=
    if sel.pending_close then
      [Action.push_event (gst_event_new_new_segment_full true cseg.rate cseg.applied_rate
        cseg.format cseg.start cseg.stop cseg.time)]
    else []
  let sel1 := { sel with pending_close := false }
  let selpad := sel1.pads pad
  let seg := selpad.segment
  let start_event : List Action :=
    if selpad.segment_pending ∧ seg.format ≠ GstFormat.UNDEFINED then
      let update : Bool :=
        if sel1.sync_streams ∧ sel1.cache_buffers then
          (if selpad.pushed then selpad.segment_update else false)
        else false
      [Action.push_event (gst_event_new_new_segment_full update seg.rate seg.applied_rate
        seg.format seg.start seg.stop seg.time)]
    else []
  let sel2 :=
    if selpad.segment_pending ∧ seg.format ≠ GstFormat.UNDEFINED then
      sel1.modify_pad pad (fun p => { p with segment_pending := false })
    else sel1
  let notification : List Action := if notify then [Action.notify_active_pad] else []
  let buf1 : GstBuffer := if (sel2.pads pad).discont then { buf with discont := true } else buf
  let sel3 := sel2.modify_pad pad (fun p => { p with discont := false })
  let sel4 : GstInputSelector :=
    match buf1.caps with
    | some caps => if sel3.srcpad_caps ≠ some caps then { sel3 with srcpad_caps := some caps }
                   else sel3
    | none => sel3
  let sel5 : GstInputSelector :=
    if sel4.sync_streams ∧ sel4.cache_buffers then
      let a := gst_input_selector_activate_sinkpad sel4 pad
      let s1 := if a.2 = pad then a.1.modify_pad pad (fun p => { p with pushed := true }) else a.1
      let s2 := s1.modify_pad pad (fun p => gst_selector_pad_cache_buffer p buf1)
      gst_input_selector_cleanup_old_cached_buffers L env s2 pad
    else sel4.modify_pad pad (fun p => { p with pushed := true })
  (sel5, notification ++ close_event ++ start_event ++ [Action.push_buffer buf1])

/-- Lines 1217-1236 of `gst_selector_pad_chain`, the label `ignore`. -/
def chain_ignore (sel : GstInputSelector) (pad : PadId) (active_sinkpad : PadId) :
    GstInputSelector × GstFlowReturn :=
  let active_pad_pushed := (sel.pads active_sinkpad).pushed
  let sel1 := sel.modify_pad pad (fun p => { p with discont := true })
  (sel1, if (sel1.pads pad).always_ok ∨ ¬ active_pad_pushed then GstFlowReturn.OK
         else GstFlowReturn.NOT_LINKED)

/-- The body of `gst_selector_pad_chain`, with the nested call of the replay
loop as a parameter. -/
def chain_body (L : GstLib) (env : Env)
    (chain : GstInputSelector → PadId → GstBuffer → ChainResult) (fuel : Nat)
    (sel : GstInputSelector) (pad : PadId) (buf : GstBuffer) : ChainResult :=
  match gst_input_selector_wait sel (sel.pads pad) with
  | none => ⟨sel, [], Outcome.parked⟩
  | some true => ⟨sel, [], Outcome.returned GstFlowReturn.WRONG_STATE⟩
  | some false =>
    let prev_active_sinkpad := sel.active_sinkpad
    let a := gst_input_selector_activate_sinkpad sel pad
    let sy := chain_sync L env chain fuel a.1 pad buf a.2
    match sy.2.2 with
    | Outcome.parked => ⟨sy.1, sy.2.1, Outcome.parked⟩
    | Outcome.diverged => ⟨sy.1, sy.2.1, Outcome.diverged⟩
    | Outcome.returned none => ⟨sy.1, sy.2.1, Outcome.returned GstFlowReturn.WRONG_STATE⟩
    | Outcome.returned (some active_sinkpad) =>
      let start_time := buf.timestamp
      let sel1 : GstInputSelector :=
        if GST_CLOCK_TIME_IS_VALID start_time then
          sy.1.modify_pad pad (fun p =>
            { p with segment := L.gst_segment_set_last_stop p.segment p.segment.format start_time })
        else sy.1
      if pad ≠ active_sinkpad then
        let ig := chain_ignore sel1 pad active_sinkpad
        ⟨ig.1, sy.2.1, Outcome.returned ig.2⟩
      else
        let fw := chain_forward L env sel1 pad buf
          (decide (prev_active_sinkpad ≠ some active_sinkpad ∧ pad = active_sinkpad))
        ⟨fw.1, sy.2.1 ++ fw.2, Outcome.returned env.push_result⟩

/-- Source `gst_selector_pad_chain`.  The fuel bounds the nesting of the
recursive call and the iterations of the replay loop. -/
def gst_selector_pad_chain (L : GstLib) (env : Env) :
    Nat → GstInputSelector → PadId → GstBuffer → ChainResult
  | 0 => fun sel _ _ => ⟨sel, [], Outcome.diverged⟩
  | fuel + 1 => chain_body L env (gst_selector_pad_chain L env fuel) fuel

/-! ## The event path (lines 482-612) -/

/-- The `switch` on the event type in `gst_selector_pad_event` (lines 518-599),
run on the state `sel` with the active pad and the `forward` computed before
it: the new state, whether the event is forwarded, and `new_tags`. -/
def event_switch (L : GstLib) (sel : GstInputSelector) (pad : PadId) (active_sinkpad : PadId)
    (forward : Bool) (event : GstEvent) : GstInputSelector × Bool × Bool :=
  match event with
  | GstEvent.FLUSH_START =>
    (sel.modify_pad pad (fun p => { p with flushing := true }), forward, false)
  | GstEvent.FLUSH_STOP =>
    ({ sel.modify_pad pad (gst_selector_pad_reset L) with pending_close := false },
      forward, false)
  | GstEvent.NEWSEGMENT update rate arate format start stop time =>
    let s1 := sel.modify_pad pad (fun p =>
      { p with
        segment := L.gst_segment_set_newsegment_full p.segment update rate arate format
          start stop time
        segment_update := update })
    let s2 := if ¬ forward then s1.modify_pad pad (fun p => { p with segment_pending := true })
              else s1
    (s2, forward, false)
  | GstEvent.TAG tags =>
    (sel.modify_pad pad (fun p => { p with tags := some (L.gst_tag_list_merge p.tags tags) }),
      forward, true)
  | GstEvent.EOS =>
    let s1 := sel.modify_pad pad (fun p => { p with eos := true })
    if forward then (s1.modify_pad pad (fun p => { p with eos_sent := true }), forward, false)
    else
      let active_selpad := s1.pads active_sinkpad
      let fwd : Bool := active_selpad.eos && !active_selpad.eos_sent
      (s1.modify_pad active_sinkpad (fun p => { p with eos_sent := true }), fwd, false)
  | GstEvent.OTHER _ => (sel, forward, false)

/-- Source `gst_selector_pad_event`: the new state, the actions and the
returned `res`. -/
def gst_selector_pad_event (L : GstLib) (env : Env) (sel : GstInputSelector) (pad : PadId)
    (event : GstEvent) : GstInputSelector × List Action × Bool :=
  let prev_active_sinkpad := sel.active_sinkpad
  let a := gst_input_selector_activate_sinkpad sel pad
  let notification : List Action :=
    if prev_active_sinkpad ≠ some a.2 ∧ pad = a.2 then [Action.notify_active_pad] else []
  let b := gst_input_selector_activate_sinkpad a.1 pad
  let active_sinkpad := b.2
  let forward : Bool := decide (pad = active_sinkpad)
  let r := event_switch L b.1 pad active_sinkpad forward event
  let tag_notification : List Action := if r.2.2 then [Action.notify_tags pad] else []
  if r.2.1 then
    (r.1, notification ++ tag_notification ++ [Action.push_event event], env.event_result)
  else (r.1, notification ++ tag_notification, true)

/-! ## Construction and sequences of operations -/

/-- Source `gst_input_selector_init` (the object is zero-filled before it
runs); every pad record starts as `gst_selector_pad_init` leaves it. -/
def gst_input_selector_init (L : GstLib) : GstInputSelector :=
  { active_sinkpad := none, n_pads := 0, padcount := 0,
    segment := L.gst_segment_init GstFormat.UNDEFINED, pending_close := false,
    blocked := false, flushing := false, sync_streams := false,
    sync_mode := GstInputSelectorSyncMode.ACTIVE_SEGMENT, cache_buffers := false,
    sinkpads := [], pads := fun _ => gst_selector_pad_init L, srcpad_caps := none }

/-- Source `gst_input_selector_request_new_pad`: the new state and the new
pad, named after `padcount`; the pad starts as `gst_selector_pad_init` leaves
it and joins the element's list of sink pads. -/
def gst_input_selector_request_new_pad (L : GstLib) (sel : GstInputSelector) :
    GstInputSelector × PadId :=
  let sinkpad := sel.padcount
  ({ (sel.set_pad sinkpad (gst_selector_pad_init L)) with
      padcount := sel.padcount + 1
      n_pads := sel.n_pads + 1
      sinkpads := sel.sinkpads ++ [sinkpad] }, sinkpad)

/-- One operation on the selector: an event or a buffer arriving on a pad, or
the controller's block or switch. -/
inductive Op
  | event (pad : PadId) (e : GstEvent)
  | chain (pad : PadId) (buf : GstBuffer)
  | block
  | switch (pad : Option PadId) (stop_time : Int) (start_time : Int)
  deriving DecidableEq, Repr

/-- Apply one operation: the new state and the actions. -/
def step (L : GstLib) (env : Env) (fuel : Nat) (sel : GstInputSelector) :
    Op → GstInputSelector × List Action
  | Op.event pad e =>
    let r := gst_selector_pad_event L env sel pad e
    (r.1, r.2.1)
  | Op.chain pad buf =>
    let r := gst_selector_pad_chain L env fuel sel pad buf
    (r.sel, r.trace)
  | Op.block => ((gst_input_selector_block L sel).1, [])
  | Op.switch pad stop_time start_time => gst_input_selector_switch L sel pad stop_time start_time

/-- Apply a sequence of operations, one after the other.  A chain call that
goes to sleep stays asleep: the operations after it run on the state it left. -/
def run (L : GstLib) (env : Env) (fuel : Nat) :
    GstInputSelector → List Op → GstInputSelector × List Action
  | sel, [] => (sel, [])
  | sel, op :: ops =>
    let r := step L env fuel sel op
    let rs := run L env fuel r.1 ops
    (rs.1, r.2 ++ rs.2)

/-! ## The library, modelled -/

/-- Quotient of a `gint64` by a `gdouble`, converted back to `gint64`. -/
def gdouble.div_gint64 (x : Int) (r : gdouble) : Int := Int.tdiv (x * (r.den : Int)) r.num

/-- Absolute value of a `gdouble`. -/
def gdouble.abs (r : gdouble) : gdouble := ⟨|r.num|, r.den⟩

/-- Modelled from the spec: `gst_segment_to_running_time` of `gstsegment.c`,
which is not among the sources.  The result is "outside" (`-1`) when the
segment's format is not `TIME` or the position is before `start`, else
`(t - start) / abs_rate + accum`. -/
def spec_segment_to_running_time (segment : GstSegment) (_format : GstFormat) (t : Int) : Int :=
  if segment.format ≠ GstFormat.TIME ∨ t < segment.start then -1
  else gdouble.div_gint64 (t - segment.start) segment.abs_rate + segment.accum

/-- Modelled from the spec: `gst_segment_init` of `gstsegment.c`, which is not
among the sources.  A fresh segment of the given format: rate 1, start 0, stop
unknown, no accumulated running time and no observed position. -/
def spec_segment_init (format : GstFormat) : GstSegment :=
  { rate := gdouble.one, abs_rate := gdouble.one, applied_rate := gdouble.one, format := format,
    start := 0, stop := -1, time := 0, accum := 0, last_stop := -1 }

/-- Modelled from the spec: `gst_segment_set_newsegment_full` of `gstsegment.c`,
which is not among the sources.  The segment is updated in place with what the
event carries; `abs_rate` is the derived magnitude of `rate`. -/
def spec_segment_set_newsegment_full (segment : GstSegment) (_update : Bool)
    (rate applied_rate : gdouble) (format : GstFormat) (start stop time : Int) : GstSegment :=
  { segment with
    rate := rate, abs_rate := gdouble.abs rate, applied_rate := applied_rate, format := format,
    start := start, stop := stop, time := time }

/-- Modelled from the spec: `gst_segment_set_last_stop` of `gstsegment.c`, which
is not among the sources.  `last_stop` becomes the given position. -/
def spec_segment_set_last_stop (segment : GstSegment) (_format : GstFormat) (position : Int) :
    GstSegment :=
  { segment with last_stop := position }

/-- Modelled from the spec: `gst_tag_list_merge` of `gsttaglist.c`, which is not
among the sources, in replace mode: on a conflict the new value replaces the
old one. -/
def spec_tag_list_merge (oldtags : Option GstTagList) (tags : GstTagList) : GstTagList :=
  tags ++ (oldtags.getD []).filter (fun kv => ! tags.any (fun n => n.1 == kv.1))

/-- The library as the specification describes it. -/
def spec_lib : GstLib :=
  { gst_segment_init := spec_segment_init
    gst_segment_set_newsegment_full := spec_segment_set_newsegment_full
    gst_segment_to_running_time := spec_segment_to_running_time
    gst_segment_set_last_stop := spec_segment_set_last_stop
    gst_tag_list_merge := spec_tag_list_merge }

/-! ## Vocabulary of the statements -/

/-- The effective stop time of a switch, in the words of the specification
(section 4.4, step 2): the old active input's current running time when the
given stop time is unknown and there is an old active input, else the given
stop time. -/
def effective_stop_time (L : GstLib) (self : GstInputSelector) (stop_time : Int) : Int :=
  match self.active_sinkpad with
  | some o =>
    if stop_time = -1 then gst_selector_pad_get_running_time L (self.pads o) else stop_time
  | none => stop_time

/-- The effective start time of a switch, in the words of the specification
(section 4.4, step 2): the old active input's current running time when the
given stop time is unknown and there is an old active input, else the given
start time. -/
def effective_start_time (L : GstLib) (self : GstInputSelector) (stop_time start_time : Int) :
    Int :=
  match self.active_sinkpad with
  | some o =>
    if stop_time = -1 then gst_selector_pad_get_running_time L (self.pads o) else start_time
  | none => start_time

/-- The closing segment update of section 4.4: the fields `rate`, `applied_rate`,
`format`, `start`, `stop`, `time` of the selector-wide segment, with `update`
set. -/
def close_segment_update (cseg : GstSegment) : GstEvent :=
  GstEvent.NEWSEGMENT true cseg.rate cseg.applied_rate cseg.format cseg.start cseg.stop cseg.time

/-- The opening segment of section 4.4: a segment event with the fields of the
input's segment and the given `update` flag. -/
def open_segment (update : Bool) (seg : GstSegment) : GstEvent :=
  GstEvent.NEWSEGMENT update seg.rate seg.applied_rate seg.format seg.start seg.stop seg.time

/-- A buffer with the flag `DISCONT` set when `discont` holds, else as it is. -/
def stamp_discont (discont : Bool) (buf : GstBuffer) : GstBuffer :=
  if discont then { buf with discont := true } else buf

/-- The number of end-of-stream events arriving in a sequence of operations. -/
def eos_received : List Op → Nat
  | [] => 0
  | Op.event _ GstEvent.EOS :: ops => eos_received ops + 1
  | _ :: ops => eos_received ops

/-! ## Scenarios -/

/-- Surroundings without a clock in which every push succeeds. -/
def quiet_env : Env :=
  { clock := none, base_time := 0, push_result := GstFlowReturn.OK, event_result := true }

/-- Surroundings with a clock that reads `t`, base time 0, every push
succeeding. -/
def clock_env (t : Int) : Env :=
  { clock := some t, base_time := 0, push_result := GstFlowReturn.OK, event_result := true }

/-- A buffer `B(ts, dur)` without flags or caps. -/
def plain_buffer (id : Nat) (ts dur : Int) : GstBuffer :=
  { id := id, timestamp := ts, duration := dur, discont := false, caps := none }

/-- A fresh selector with two requested pads: pad 0 is A, pad 1 is B. -/
def two_pad_selector : GstInputSelector :=
  (gst_input_selector_request_new_pad spec_lib
    (gst_input_selector_request_new_pad spec_lib (gst_input_selector_init spec_lib)).1).1

/-- The segment event `[start 0, stop unknown, time 0]`, rate 1, format `TIME`. -/
def segment_0 : GstEvent :=
  GstEvent.NEWSEGMENT false gdouble.one gdouble.one GstFormat.TIME 0 (-1) 0

/-- Scenario S2, first part: both inputs get their segment, A gets `B(0,40)` and
`B(40,40)`. -/
def s2_feed_A : List Op :=
  [Op.event 0 segment_0, Op.event 1 segment_0, Op.chain 0 (plain_buffer 0 0 40),
    Op.chain 0 (plain_buffer 1 40 40)]

/-- Scenario S2: the state in which the controller calls `block()`. -/
def s2_before_block : GstInputSelector := (run spec_lib quiet_env 2 two_pad_selector s2_feed_A).1

/-- Scenario S2, second part, from the blocked state: `switch(B, -1, -1)`, then B
gets `B(80,40)` and `B(120,40)`. -/
def s2_feed_B : List Op :=
  [Op.switch (some 1) (-1) (-1), Op.chain 1 (plain_buffer 2 80 40),
    Op.chain 1 (plain_buffer 3 120 40)]

/-- Scenario S2: what the second part does, run from the state `block()` leaves. -/
def s2_after_block : GstInputSelector × List Action :=
  run spec_lib quiet_env 2 (gst_input_selector_block spec_lib s2_before_block).1 s2_feed_B

/-- Scenario S3, with A active by first touch: A gets EOS, the controller blocks
and switches to B, B gets EOS. -/
def s3_ops : List Op :=
  [Op.event 0 GstEvent.EOS, Op.block, Op.switch (some 1) (-1) (-1), Op.event 1 GstEvent.EOS]

/-- A blocked selector in which A is active at running time 40 and B, not
active, has seen a buffer at running time 20 (which was dropped). -/
def behind_state : GstInputSelector :=
  (run spec_lib quiet_env 2 two_pad_selector
    [Op.event 0 segment_0, Op.event 1 segment_0, Op.chain 0 (plain_buffer 0 0 40),
      Op.chain 0 (plain_buffer 1 40 40), Op.chain 1 (plain_buffer 2 20 40), Op.block]).1

/-- A selector whose active pad A got its segment and then a flush-start (and no
flush-stop yet). -/
def flushing_pad_state : GstInputSelector :=
  (run spec_lib quiet_env 2 two_pad_selector
    [Op.event 0 segment_0, Op.event 0 GstEvent.FLUSH_START]).1

/-- A selector in sync-streams mode with caching, synchronising on the clock:
A forwarded and cached `B(0,40)` at clock time 0, then the controller switched to
B and back to A. -/
def replay_state : GstInputSelector :=
  (run spec_lib (clock_env 0) 2
    { two_pad_selector with
      sync_streams := true, cache_buffers := true,
      sync_mode := GstInputSelectorSyncMode.CLOCK }
    [Op.event 0 segment_0, Op.chain 0 (plain_buffer 0 0 40), Op.block,
      Op.switch (some 1) (-1) (-1), Op.block, Op.switch (some 0) (-1) (-1)]).1

/-! ## Allocation, queries and properties (lines 313-329, 651-713, 1659-1707, 1802-1883) -/

/-- Source `gst_selector_pad_set_property`, the property `always-ok`. -/
def gst_selector_pad_set_property (sel : GstInputSelector) (pad : PadId) (value : Bool) :
    GstInputSelector :=
  sel.modify_pad pad (fun p => { p with always_ok := value })

/-- Source `gst_selector_pad_bufferalloc`: the new state, the notifications, the
flow return and what `*buf` holds afterwards, `none` being `NULL`.  `alloc` is
what `gst_pad_alloc_buffer` on the source pad answers (status and buffer), and
`buf` is what `*buf` held before the call. -/
def gst_selector_pad_bufferalloc (sel : GstInputSelector) (pad : PadId)
    (alloc : GstFlowReturn × Option GstBuffer) (buf : Option GstBuffer) :
    GstInputSelector × List Action × GstFlowReturn × Option GstBuffer :=
  let prev_active_sinkpad := sel.active_sinkpad
  let a := gst_input_selector_activate_sinkpad sel pad
  let active_sinkpad := a.2
  if pad ≠ active_sinkpad then
    let active_pad_pushed := (a.1.pads active_sinkpad).pushed
    if (a.1.pads pad).always_ok ∨ ¬ active_pad_pushed ∨ a.1.cache_buffers then
      (a.1, [], GstFlowReturn.OK, none)
    else (a.1, [], GstFlowReturn.NOT_LINKED, buf)
  else
    let notification : List Action :=
      if prev_active_sinkpad ≠ some active_sinkpad ∧ pad = active_sinkpad then
        [Action.notify_active_pad]
      else []
    (a.1, notification, alloc.1, alloc.2)

/-- The content of a latency query: `live`, `min` and `max`, as
`gst_query_parse_latency` reads them and `gst_query_set_latency` writes them. -/
structure GstLatency where
  live : Bool
  min : Int
  max : Int
  deriving DecidableEq, Repr

/-- The locals `res`, `reslive`, `resmin`, `resmax` of the latency case of
`gst_input_selector_query`. -/
structure LatencyState where
  res : Bool
  reslive : Bool
  resmin : Int
  resmax : Int
  deriving DecidableEq, Repr

/-- The body of the loop over the sink pads in the latency case (lines
1834-1859).  `peer_query` is the answer of the pad's peer, `none` when the
query fails; the comparisons are those of `GstClockTime`, unsigned. -/
def latency_step (peer_query : PadId → Option GstLatency) (st : LatencyState)
    (sinkpad : PadId) : LatencyState :=
  match peer_query sinkpad with
  | none => st
  | some r =>
    let st1 := { st with res := true }
    if r.live then
      let resmin := if u64 r.min > u64 st1.resmin then r.min else st1.resmin
      let resmax :=
        if st1.resmax = -1 then r.max
        else if u64 r.max < u64 st1.resmax then r.max else st1.resmax
      let reslive := if st1.reslive = false then r.live else st1.reslive
      { st1 with resmin := resmin, resmax := resmax, reslive := reslive }
    else st1

/-- Source `gst_input_selector_query`, the case `GST_QUERY_LATENCY`: the returned
`res` and the content of the query afterwards (`query` is its content before;
it is written only when `res` holds). -/
def gst_input_selector_query_latency (sel : GstInputSelector)
    (peer_query : PadId → Option GstLatency) (query : GstLatency) : Bool × GstLatency :=
  let st := sel.sinkpads.foldl (latency_step peer_query)
    { res := false, reslive := false, resmin := 0, resmax := -1 }
  if st.res then (true, { live := st.reslive, min := st.resmin, max := st.resmax })
  else (false, query)

/-- The writable properties of the element with the value to set; `OTHER` is any
other property id. -/
inductive GstInputSelectorProperty
  | ACTIVE_PAD (pad : Option PadId)
  | SYNC_STREAMS (value : Bool)
  | SYNC_MODE (value : GstInputSelectorSyncMode)
  | CACHE_BUFFERS (value : Bool)
  | OTHER
  deriving DecidableEq, Repr

/-- Source `gst_input_selector_set_property`. -/
def gst_input_selector_set_property (L : GstLib) (sel : GstInputSelector) :
    GstInputSelectorProperty → GstInputSelector
  | GstInputSelectorProperty.ACTIVE_PAD pad =>
    (gst_input_selector_set_active_pad L sel pad GST_CLOCK_TIME_NONE GST_CLOCK_TIME_NONE).1
  | GstInputSelectorProperty.SYNC_STREAMS value => { sel with sync_streams := value }
  | GstInputSelectorProperty.SYNC_MODE value => { sel with sync_mode := value }
  | GstInputSelectorProperty.CACHE_BUFFERS value => { sel with cache_buffers := value }
  | GstInputSelectorProperty.OTHER => sel

/-! ## Vocabulary of the statements, continued -/

/-- The reference running time of sections 4.2 and 4.3, from the sync mode and the
active input's segment: in `CLOCK` mode the clock's time minus the base time,
clamped at zero; in `ACTIVE_SEGMENT` mode the running time at the segment's
`last_stop`.  Unknown is `-1`: no clock, or the segment is not in `TIME` format. -/
def segment_reference (L : GstLib) (env : Env) (sync_mode : GstInputSelectorSyncMode)
    (active_seg : GstSegment) : Int :=
  if sync_mode = GstInputSelectorSyncMode.CLOCK then clock_running_time env
  else if active_seg.format = GstFormat.TIME then
    L.gst_segment_to_running_time active_seg GstFormat.TIME active_seg.last_stop
  else GST_CLOCK_TIME_NONE

/-- The reference running time of a selector state whose active input is `a`. -/
def reference_running_time (L : GstLib) (env : Env) (sel : GstInputSelector) (a : PadId) : Int :=
  segment_reference L env sel.sync_mode (sel.pads a).segment

/-- Whether a cache entry has a valid timestamp. -/
def GstSelectorPadCachedBuffer.has_timestamp (e : GstSelectorPadCachedBuffer) : Bool :=
  GST_CLOCK_TIME_IS_VALID e.buffer.timestamp

/-- A cache entry is not behind the reference `cur`: its running time at
timestamp + duration, clamped to the stop of the segment `seg`, is at least `cur`
as an unsigned number. -/
def not_behind (L : GstLib) (seg : GstSegment) (cur : Int) (e : GstSelectorPadCachedBuffer) :
    Prop :=
  u64 (buffer_end_running_time L seg e.buffer) ≥ u64 cur

instance (L : GstLib) (seg : GstSegment) (cur : Int) (e : GstSelectorPadCachedBuffer) :
    Decidable (not_behind L seg cur e) := by
  unfold not_behind; infer_instance

/-- The fields of a pad record that no chain call writes. -/
def chain_fixed (p : GstSelectorPad) : Bool × Bool × Bool × Bool × Option GstTagList :=
  (p.flushing, p.always_ok, p.eos, p.eos_sent, p.tags)

/-- A cache entry that the pruner keeps right after the entry was forwarded again
from the active input in `ACTIVE_SEGMENT` mode: its segment is in `TIME` format,
it has a timestamp, and with the reference at its own timestamp it is not
behind (or the reference is unknown). -/
def replays_forever (e : GstSelectorPadCachedBuffer) : Prop :=
  e.segment.format = GstFormat.TIME ∧ e.buffer.timestamp ≠ -1 ∧
  (spec_segment_to_running_time e.segment GstFormat.TIME e.buffer.timestamp = -1 ∨
    not_behind spec_lib e.segment
      (spec_segment_to_running_time e.segment GstFormat.TIME e.buffer.timestamp) e)

instance (e : GstSelectorPadCachedBuffer) : Decidable (replays_forever e) := by
  unfold replays_forever; infer_instance

/-- The cache of a pad record is in time order: of two entries with a timestamp, the later
in the queue does not end before the earlier, by the running time at timestamp + duration
(clamped to the stop of the pad's segment), compared unsigned. -/
def time_ordered (L : GstLib) (p : GstSelectorPad) : Prop :=
  ∀ q, p.cached_buffers = some q →
    q.Pairwise (fun x y => x.has_timestamp = true → y.has_timestamp = true →
      u64 (buffer_end_running_time L p.segment x.buffer) ≤
        u64 (buffer_end_running_time L p.segment y.buffer))

/-- What the pruner establishes on a pad record: the first entry with a timestamp is not
behind the reference, and so is every entry with a timestamp when the cache was in time
order. -/
def pruned_against (L : GstLib) (cur : Int) (ordered : Prop) (x : GstSelectorPad) : Prop :=
  ∀ q, x.cached_buffers = some q →
    (∀ e, q.find? (fun y => y.has_timestamp) = some e → not_behind L x.segment cur e) ∧
    (ordered → ∀ e ∈ q, e.has_timestamp = true → not_behind L x.segment cur e)

/-- A pad record whose segment is `seg` and whose queue ends with the entry `x`, the rest
being drawn from `q0`. -/
def ends_with (seg : GstSegment) (x : GstSelectorPadCachedBuffer)
    (q0 : List GstSelectorPadCachedBuffer) (p : GstSelectorPad) : Prop :=
  p.segment = seg ∧ ∃ q1, p.cached_buffers = some (q1 ++ [x]) ∧ q1.Sublist q0

/-- The segment of a pad record once a chain call has noted the buffer's timestamp in it
(lines 1095-1106). -/
def chained_segment (L : GstLib) (p : GstSelectorPad) (buf : GstBuffer) : GstSegment :=
  if GST_CLOCK_TIME_IS_VALID buf.timestamp = true then
    L.gst_segment_set_last_stop p.segment p.segment.format buf.timestamp
  else p.segment

/-- The cache entry a forwarding chain call makes for its buffer: the buffer as pushed, with
the pad's segment and `segment_update` at that moment. -/
def chained_entry (L : GstLib) (p : GstSelectorPad) (buf : GstBuffer) :
    GstSelectorPadCachedBuffer :=
  ⟨stamp_discont p.discont buf, chained_segment L p buf, p.segment_update⟩

/-- What a chain call on `pad` keeps while another pad `a` is the active one: the active
pad, the selector's flushing flag, the fields of `pad` no chain call writes, and whether `a`
has pushed. -/
def inactive_frame (pad a : PadId) (s s1 : GstInputSelector) : Prop :=
  s1.active_sinkpad = some a ∧ s1.flushing = s.flushing ∧
  chain_fixed (s1.pads pad) = chain_fixed (s.pads pad) ∧
  (s1.pads a).pushed = (s.pads a).pushed

/-- What `ignore` answers upstream on `pad` while `a` is the active pad. -/
def ignore_verdict (s : GstInputSelector) (pad a : PadId) : GstFlowReturn :=
  if (s.pads pad).always_ok = true ∨ (s.pads a).pushed = false then GstFlowReturn.OK
  else GstFlowReturn.NOT_LINKED

/-- The state of a replay loop that cannot end: pad `p` is the active one and is replaying
(`sending_cached_buffers`), in `ACTIVE_SEGMENT` mode with sync-streams and caching on, nothing
is flushing or blocked, and its queue is not empty and holds only entries the pruner keeps
after forwarding them again. -/
def replay_stuck (p : PadId) (s : GstInputSelector) : Prop :=
  s.flushing = false ∧ (s.pads p).flushing = false ∧ s.blocked = false ∧
  s.sync_streams = true ∧ s.cache_buffers = true ∧
  s.sync_mode = GstInputSelectorSyncMode.ACTIVE_SEGMENT ∧ s.active_sinkpad = some p ∧
  (s.pads p).sending_cached_buffers = true ∧
  ∃ q, (s.pads p).cached_buffers = some q ∧ q ≠ [] ∧ ∀ e ∈ q, replays_forever e

/-- What the loop of the latency case has established after the pads `l`. -/
def latency_inv (peer_query : PadId → Option GstLatency) (l : List PadId) (st : LatencyState) :
    Prop :=
  (st.res = true ↔ ∃ p ∈ l, (peer_query p).isSome = true) ∧
  (st.reslive = true ↔ ∃ p ∈ l, ∃ x, peer_query p = some x ∧ x.live = true) ∧
  (∀ p ∈ l, ∀ x, peer_query p = some x → x.live = true →
    u64 x.min ≤ u64 st.resmin ∧ u64 st.resmax ≤ u64 x.max) ∧
  (st.resmin = 0 ∨ ∃ p ∈ l, ∃ x, peer_query p = some x ∧ x.live = true ∧ st.resmin = x.min) ∧
  (st.resmax = -1 ∨ ∃ p ∈ l, ∃ x, peer_query p = some x ∧ x.live = true ∧ st.resmax = x.max)

/-! ## Scenarios, continued -/

/-- A fresh selector with two pads in sync-streams mode (`ACTIVE_SEGMENT`), without
caching. -/
def sync_selector : GstInputSelector := { two_pad_selector with sync_streams := true }

/-- A fresh selector with two pads in sync-streams mode (`ACTIVE_SEGMENT`) with
caching. -/
def cache_selector : GstInputSelector :=
  { two_pad_selector with sync_streams := true, cache_buffers := true }

/-- Sync-streams mode: A, active, has forwarded `B(0,40)`, `B(40,40)` and `B(80,40)`; B has
its segment. -/
def sync_state : GstInputSelector :=
  (run spec_lib quiet_env 2 sync_selector
    [Op.event 0 segment_0, Op.event 1 segment_0, Op.chain 0 (plain_buffer 0 0 40),
      Op.chain 0 (plain_buffer 1 40 40), Op.chain 0 (plain_buffer 2 80 40)]).1

/-- Sync-streams mode: A became active by an event other than a segment and has
forwarded a buffer, so its segment is still `UNDEFINED`; B has its segment. -/
def no_reference_state : GstInputSelector :=
  (run spec_lib quiet_env 2 sync_selector
    [Op.event 0 (GstEvent.OTHER 0), Op.chain 0 (plain_buffer 0 0 40), Op.event 1 segment_0]).1

/-- Sync-streams mode with caching: A, active, has forwarded `B(100,40)`, `B(0,40)` and
`B(50,40)`, in this order. -/
def unordered_cache_state : GstInputSelector :=
  (run spec_lib quiet_env 2 cache_selector
    [Op.event 0 segment_0, Op.chain 0 (plain_buffer 0 100 40), Op.chain 0 (plain_buffer 1 0 40),
      Op.chain 0 (plain_buffer 2 50 40)]).1

/-- Sync-streams mode with caching: A, active, got a segment in `BYTES` format. -/
def bytes_state : GstInputSelector :=
  (run spec_lib quiet_env 2 cache_selector
    [Op.event 0 (GstEvent.NEWSEGMENT false gdouble.one gdouble.one GstFormat.BYTES 0 (-1) 0)]).1

/-- The segment `[start 0, stop unknown, time 0]` at rate 1 in `TIME` format, with the
given `last_stop`. -/
def segment_0_at (last_stop : Int) : GstSegment :=
  { rate := gdouble.one, abs_rate := gdouble.one, applied_rate := gdouble.one,
    format := GstFormat.TIME, start := 0, stop := -1, time := 0, accum := 0,
    last_stop := last_stop }

/-- Scenario S5, first part: sync-streams with caching (`ACTIVE_SEGMENT`), both inputs have
their segment and A has forwarded `B(0,40)`, `B(40,40)`, `B(80,40)`. -/
def s5_fed : GstInputSelector :=
  (run spec_lib quiet_env 2 cache_selector
    [Op.event 0 segment_0, Op.event 1 segment_0, Op.chain 0 (plain_buffer 0 0 40),
      Op.chain 0 (plain_buffer 1 40 40), Op.chain 0 (plain_buffer 2 80 40)]).1

/-- Scenario S5 up to the switch back: from the first part, `block()`,
`switch(B, 120, 120)`, `block()`, `switch(A, -1, -1)`. -/
def s5_state : GstInputSelector :=
  (run spec_lib quiet_env 2 s5_fed
    [Op.block, Op.switch (some 1) 120 120, Op.block, Op.switch (some 0) (-1) (-1)]).1

/-- Sync-streams with caching: A is active and has its segment, nothing was forwarded. -/
def cache_ready_state : GstInputSelector :=
  (run spec_lib quiet_env 2 cache_selector [Op.event 0 segment_0]).1

/-- Scenario S2 after `block()`. -/
def s2_blocked : GstInputSelector := (gst_input_selector_block spec_lib s2_before_block).1

/-- Upstream latency answers: the peer of A is not live and answers 10 to 20, the peer of B
does not answer. -/
def not_live_peers : PadId → Option GstLatency
  | 0 => some { live := false, min := 10, max := 20 }
  | _ => none

/-- Upstream latency answers: the peer of A is live and answers 10 to 50, the peer of B is
live and answers 30 to 40. -/
def live_peers : PadId → Option GstLatency
  | 0 => some { live := true, min := 10, max := 50 }
  | 1 => some { live := true, min := 30, max := 40 }
  | _ => none

/-! ## Vocabulary of the statements, buffers and segments downstream -/

/-- The buffers a sequence of operations forwards downstream from input `p`: those pushed
by the chain calls on `p`, in order. -/
def forwarded_from (L : GstLib) (env : Env) (fuel : Nat) (p : PadId) :
    GstInputSelector → List Op → List GstBuffer
  | _, [] => []
  | sel, op :: ops =>
    (match op with
      | Op.chain q _ => if q = p then pushed_buffers (step L env fuel sel op).2 else []
      | _ => []) ++
    forwarded_from L env fuel p (step L env fuel sel op).1 ops

/-- The buffers input `p` receives in a sequence of operations, in order. -/
def received_on (p : PadId) : List Op → List GstBuffer
  | [] => []
  | Op.chain q buf :: ops => if q = p then buf :: received_on p ops else received_on p ops
  | _ :: ops => received_on p ops

/-- A buffer without its `DISCONT` flag, which the selector may set on the way. -/
def GstBuffer.payload (b : GstBuffer) : Nat × Int × Int × Option Nat :=
  (b.id, b.timestamp, b.duration, b.caps)

/-- No chain call on this selector can replay a cache: sync-streams mode is off, or caching
is off and no input holds a cache. -/
def never_replays (sel : GstInputSelector) : Prop :=
  sel.sync_streams = false ∨
    (sel.cache_buffers = false ∧ ∀ q, (sel.pads q).cached_buffers = none)

/-- What a call keeps when it neither caches nor prunes: the two modes, every input's cache,
and the reading `g` of every pad record. -/
def pad_frame {α : Type} (g : GstSelectorPad → α) (s s1 : GstInputSelector) : Prop :=
  s1.sync_streams = s.sync_streams ∧ s1.cache_buffers = s.cache_buffers ∧
    ∀ q, (s1.pads q).cached_buffers = (s.pads q).cached_buffers ∧ g (s1.pads q) = g (s.pads q)

/-- The reading `g` of a pad record does not see what a chain call without replay writes: the
marks `active`, `pushed`, `discont` and `segment_pending`, and the position noted in the
segment by `gst_segment_set_last_stop`. -/
def chain_blind {α : Type} (L : GstLib) (g : GstSelectorPad → α) : Prop :=
  (∀ x b, g { x with active := b } = g x) ∧ (∀ x b, g { x with pushed := b } = g x) ∧
  (∀ x b, g { x with discont := b } = g x) ∧ (∀ x b, g { x with segment_pending := b } = g x) ∧
  (∀ x f t, g { x with segment := L.gst_segment_set_last_stop x.segment f t } = g x)

/-- The index at which the pruner stops in a queue, in the words of claim C30: that of
the first entry that has a timestamp and is not behind the reference, or the length of the
queue if there is none. -/
def first_kept (L : GstLib) (seg : GstSegment) (cur : Int)
    (q : List GstSelectorPadCachedBuffer) : Nat :=
  q.findIdx (fun e => e.has_timestamp && decide (not_behind L seg cur e))

/-- The maximal run of entries without a timestamp at the end of a list. -/
def trailing_invalid (l : List GstSelectorPadCachedBuffer) : List GstSelectorPadCachedBuffer :=
  (l.reverse.takeWhile (fun e => !e.has_timestamp)).reverse

/-- The queue the pruner is to leave, in the words of claim C30: the maximal run of entries
without a timestamp right before the index `first_kept`, followed by all entries from that
index on. -/
def pruned_cache (L : GstLib) (seg : GstSegment) (cur : Int)
    (q : List GstSelectorPadCachedBuffer) : List GstSelectorPadCachedBuffer :=
  trailing_invalid (q.take (first_kept L seg cur q)) ++ q.drop (first_kept L seg cur q)

/-! ## Scenarios, switching back -/

/-- A has its segment, forwards `B(0,40)`; switch to B, which forwards `B(40,40)`; switch
back to A, which forwards `B(80,40)`; then `block()`.  B was active and has pushed its
open segment. -/
def switched_back_state : GstInputSelector :=
  (run spec_lib quiet_env 2 two_pad_selector
    [Op.event 0 segment_0, Op.event 1 segment_0, Op.chain 0 (plain_buffer 0 0 40), Op.block,
      Op.switch (some 1) (-1) (-1), Op.chain 1 (plain_buffer 1 40 40), Op.block,
      Op.switch (some 0) (-1) (-1), Op.chain 0 (plain_buffer 2 80 40), Op.block]).1

/-- Scenario S2 right after `switch(B, -1, -1)`: B is the active input and its segment is
pending. -/
def s2_switched : GstInputSelector :=
  (gst_input_selector_switch spec_lib s2_blocked (some 1) (-1) (-1)).1

/-- State `s5_fed` with the synchronisation on the clock: A holds `B(40,40)` and
`B(80,40)` in its cache. -/
def s5_fed_clock : GstInputSelector :=
  { s5_fed with sync_mode := GstInputSelectorSyncMode.CLOCK }

/-- A segment update event `[start 0, stop unknown, time 0]` in `TIME` format. -/
def segment_0_update : GstEvent :=
  GstEvent.NEWSEGMENT true gdouble.one gdouble.one GstFormat.TIME 0 (-1) 0

/-- The operations that lead to `replay_state`, in `CLOCK` mode with the clock at 0: A
forwards and caches `B(0,40)`, then the controller switches to B and back to A. -/
def replay_ops : List Op :=
  [Op.event 0 segment_0, Op.chain 0 (plain_buffer 0 0 40), Op.block,
    Op.switch (some 1) (-1) (-1), Op.block, Op.switch (some 0) (-1) (-1)]

/-- A selector in sync-streams mode with caching, synchronising on the clock. -/
def clock_cache_selector : GstInputSelector :=
  { two_pad_selector with
    sync_streams := true, cache_buffers := true, sync_mode := GstInputSelectorSyncMode.CLOCK }

/-! ## State changes (lines 2014-2080) -/

/-- The transitions `gst_input_selector_change_state` tells apart. -/
inductive GstStateChange
  | READY_TO_PAUSED | PAUSED_TO_READY | OTHER
  deriving DecidableEq, Repr

/-- Source `gst_input_selector_reset`. -/
def gst_input_selector_reset (L : GstLib) (sel : GstInputSelector) : GstInputSelector :=
  let sel1 : GstInputSelector :=
    { sel with
      active_sinkpad := none
      segment := L.gst_segment_init GstFormat.UNDEFINED
      pending_close := false }
  sel1.sinkpads.foldl
    (fun s p => s.modify_pad p (fun selpad => { gst_selector_pad_reset L selpad with tags := none }))
    sel1

/-- Source `gst_input_selector_change_state`.  The state change of the parent class, called
between the two `switch` statements, does not write the selector's fields. -/
def gst_input_selector_change_state (L : GstLib) (self : GstInputSelector)
    (transition : GstStateChange) : GstInputSelector :=
  match transition with
  | GstStateChange.READY_TO_PAUSED => { self with blocked := false, flushing := false }
  | GstStateChange.PAUSED_TO_READY =>
    gst_input_selector_reset L { self with blocked := false, flushing := true }
  | GstStateChange.OTHER => self

/-! ## Vocabulary of the statements, double arithmetic -/

/-- The `gdouble` has the integer value `n`. -/
def gdouble.is_int (x : gdouble) (n : Int) : Prop := x.den ≠ 0 ∧ x.num = n * (x.den : Int)

instance (x : gdouble) (n : Int) : Decidable (x.is_int n) := by
  unfold gdouble.is_int; infer_instance

/-- The integer is below `2 ^ 53` in magnitude, so that it is a binary64 value. -/
def below_2_53 (n : Int) : Prop := -2 ^ 53 < n ∧ n < 2 ^ 53

instance (n : Int) : Decidable (below_2_53 n) := by
  unfold below_2_53; infer_instance

/-- The double arithmetic of `gst_segment_get_timestamp` is exact at running time `rt`: the
segment's `abs_rate` is the integer `r`, and the difference `rt - accum`, its product with the
rate, `start` and the sum of the two are below `2 ^ 53` in magnitude. -/
def exact_in_double (segment : GstSegment) (rt r : Int) : Prop :=
  segment.abs_rate.is_int r ∧ below_2_53 (rt - segment.accum) ∧
  below_2_53 ((rt - segment.accum) * r) ∧ below_2_53 segment.start ∧
  below_2_53 ((rt - segment.accum) * r + segment.start)

instance (segment : GstSegment) (rt r : Int) : Decidable (exact_in_double segment rt r) := by
  unfold exact_in_double; infer_instance

/-- The running time at which a switch to `target` starts the new segment (lines 1616-1641):
the effective start time, or, when sync-streams and caching are both on, the running time of
`target` itself. -/
def switch_start_time (L : GstLib) (self : GstInputSelector) (target : PadId)
    (stop_time start_time : Int) : Int :=
  if self.sync_streams = true ∧ self.cache_buffers = true then
    gst_selector_pad_get_running_time L (self.pads target)
  else effective_start_time L self stop_time start_time

/-! ## Scenarios, double arithmetic -/

/-- The binary64 value nearest to 0.7, which is 6305039478318694 / 2 ^ 53. -/
def rate_0_7 : gdouble := gdouble.round ⟨7, 10⟩

/-- The segment `[start 0, stop unknown, time 0]` in `TIME` format with nothing accumulated,
at the given rate. -/
def segment_0_rate (r : gdouble) : GstSegment :=
  { rate := r, abs_rate := r, applied_rate := gdouble.one, format := GstFormat.TIME,
    start := 0, stop := -1, time := 0, accum := 0, last_stop := -1 }

/-- A blocked selector in which A is active at running time 40 and B, seen but not active,
has a segment that starts at 1700000000000000001, which is not a binary64 value. -/
def far_start_state : GstInputSelector :=
  (run spec_lib quiet_env 2 two_pad_selector
    [Op.event 0 segment_0,
      Op.event 1 (GstEvent.NEWSEGMENT false gdouble.one gdouble.one GstFormat.TIME
        1700000000000000001 (-1) 0),
      Op.chain 0 (plain_buffer 0 0 40), Op.chain 0 (plain_buffer 1 40 40), Op.block]).1

/-- Scenario: clock mode with the cache on.  A gets a segment, a segment update and the buffer
(0, 40), which is forwarded and cached; the selector switches to B and back to A.  A is then
active, has not pushed since, has its segment pending and holds the buffer in its cache. -/
def replay_update_state : GstInputSelector :=
  (run spec_lib (clock_env 0) 2 clock_cache_selector
    [Op.event 0 segment_0, Op.event 0 segment_0_update, Op.chain 0 (plain_buffer 0 0 40),
      Op.block, Op.switch (some 1) (-1) (-1), Op.block, Op.switch (some 0) (-1) (-1)]).1

/-! ## Lemmas -/

/-! ### Pad records and activation -/

@[simp]
theorem modify_pad_segment (sel : GstInputSelector) (p : PadId)
    (f : GstSelectorPad → GstSelectorPad) : (sel.modify_pad p f).segment = sel.segment := rfl
@[simp]
theorem modify_pad_pending_close (sel : GstInputSelector) (p : PadId)
    (f : GstSelectorPad → GstSelectorPad) :
    (sel.modify_pad p f).pending_close = sel.pending_close := rfl
@[simp]
theorem modify_pad_blocked (sel : GstInputSelector) (p : PadId)
    (f : GstSelectorPad → GstSelectorPad) : (sel.modify_pad p f).blocked = sel.blocked := rfl
@[simp]
theorem modify_pad_flushing (sel : GstInputSelector) (p : PadId)
    (f : GstSelectorPad → GstSelectorPad) : (sel.modify_pad p f).flushing = sel.flushing := rfl
@[simp]
theorem modify_pad_sync_streams (sel : GstInputSelector) (p : PadId)
    (f : GstSelectorPad → GstSelectorPad) :
    (sel.modify_pad p f).sync_streams = sel.sync_streams := rfl
@[simp]
theorem modify_pad_cache_buffers (sel : GstInputSelector) (p : PadId)
    (f : GstSelectorPad → GstSelectorPad) :
    (sel.modify_pad p f).cache_buffers = sel.cache_buffers := rfl
@[simp]
theorem modify_pad_sync_mode (sel : GstInputSelector) (p : PadId)
    (f : GstSelectorPad → GstSelectorPad) : (sel.modify_pad p f).sync_mode = sel.sync_mode := rfl
@[simp]
theorem modify_pad_active_sinkpad (sel : GstInputSelector) (p : PadId)
    (f : GstSelectorPad → GstSelectorPad) :
    (sel.modify_pad p f).active_sinkpad = sel.active_sinkpad := rfl
@[simp]
theorem modify_pad_sinkpads (sel : GstInputSelector) (p : PadId)
    (f : GstSelectorPad → GstSelectorPad) : (sel.modify_pad p f).sinkpads = sel.sinkpads := rfl
@[simp]
theorem modify_pad_srcpad_caps (sel : GstInputSelector) (p : PadId)
    (f : GstSelectorPad → GstSelectorPad) :
    (sel.modify_pad p f).srcpad_caps = sel.srcpad_caps := rfl
theorem modify_pad_pads (sel : GstInputSelector) (p q : PadId)
    (f : GstSelectorPad → GstSelectorPad) :
    (sel.modify_pad p f).pads q = if q = p then f (sel.pads p) else sel.pads q := rfl
@[simp]
theorem modify_pad_pads_same (sel : GstInputSelector) (p : PadId)
    (f : GstSelectorPad → GstSelectorPad) : (sel.modify_pad p f).pads p = f (sel.pads p) := by
  simp [modify_pad_pads]
@[simp]
theorem modify_pad_pads_ne (sel : GstInputSelector) (p q : PadId)
    (f : GstSelectorPad → GstSelectorPad) (h : q ≠ p) :
    (sel.modify_pad p f).pads q = sel.pads q := by
  simp [modify_pad_pads, h]

theorem activate_fst (sel : GstInputSelector) (pad : PadId) :
    (gst_input_selector_activate_sinkpad sel pad).1 =
      { sel.modify_pad pad (fun p => { p with active := true }) with
        active_sinkpad := some (sel.active_sinkpad.getD pad) } := by
  unfold gst_input_selector_activate_sinkpad
  cases h : sel.active_sinkpad <;> simp [h]
  rename_i a
  show _ = { sel.modify_pad pad _ with active_sinkpad := some a }
  have : (sel.modify_pad pad fun p => { p with active := true }).active_sinkpad = some a := h
  rw [← this]

theorem activate_snd (sel : GstInputSelector) (pad : PadId) :
    (gst_input_selector_activate_sinkpad sel pad).2 = sel.active_sinkpad.getD pad := by
  unfold gst_input_selector_activate_sinkpad
  cases h : sel.active_sinkpad <;> simp [h]

@[simp]
theorem activate_pending_close (sel : GstInputSelector) (pad : PadId) :
    (gst_input_selector_activate_sinkpad sel pad).1.pending_close = sel.pending_close := by
  simp [activate_fst]
@[simp]
theorem activate_segment (sel : GstInputSelector) (pad : PadId) :
    (gst_input_selector_activate_sinkpad sel pad).1.segment = sel.segment := by
  simp [activate_fst]
@[simp]
theorem activate_blocked (sel : GstInputSelector) (pad : PadId) :
    (gst_input_selector_activate_sinkpad sel pad).1.blocked = sel.blocked := by
  simp [activate_fst]
@[simp]
theorem activate_flushing (sel : GstInputSelector) (pad : PadId) :
    (gst_input_selector_activate_sinkpad sel pad).1.flushing = sel.flushing := by
  simp [activate_fst]
@[simp]
theorem activate_sync_streams (sel : GstInputSelector) (pad : PadId) :
    (gst_input_selector_activate_sinkpad sel pad).1.sync_streams = sel.sync_streams := by
  simp [activate_fst]
@[simp]
theorem activate_cache_buffers (sel : GstInputSelector) (pad : PadId) :
    (gst_input_selector_activate_sinkpad sel pad).1.cache_buffers = sel.cache_buffers := by
  simp [activate_fst]
@[simp]
theorem activate_sync_mode (sel : GstInputSelector) (pad : PadId) :
    (gst_input_selector_activate_sinkpad sel pad).1.sync_mode = sel.sync_mode := by
  simp [activate_fst]
@[simp]
theorem activate_sinkpads (sel : GstInputSelector) (pad : PadId) :
    (gst_input_selector_activate_sinkpad sel pad).1.sinkpads = sel.sinkpads := by
  simp [activate_fst]
@[simp]
theorem activate_srcpad_caps (sel : GstInputSelector) (pad : PadId) :
    (gst_input_selector_activate_sinkpad sel pad).1.srcpad_caps = sel.srcpad_caps := by
  simp [activate_fst]
@[simp]
theorem activate_active_sinkpad (sel : GstInputSelector) (pad : PadId) :
    (gst_input_selector_activate_sinkpad sel pad).1.active_sinkpad =
      some (sel.active_sinkpad.getD pad) := by
  simp [activate_fst]
theorem activate_pads (sel : GstInputSelector) (pad q : PadId) :
    (gst_input_selector_activate_sinkpad sel pad).1.pads q =
      if q = pad then { sel.pads pad with active := true } else sel.pads q := by
  rw [activate_fst]; rfl
@[simp]
theorem activate_pads_same (sel : GstInputSelector) (pad : PadId) :
    (gst_input_selector_activate_sinkpad sel pad).1.pads pad =
      { sel.pads pad with active := true } := by
  simp [activate_pads]
@[simp]
theorem activate_pads_ne (sel : GstInputSelector) (pad q : PadId) (h : q ≠ pad) :
    (gst_input_selector_activate_sinkpad sel pad).1.pads q = sel.pads q := by
  simp [activate_pads, h]

/-! ### The switch -/

/-- The selector-wide segment and `pending_close` after a change of the active pad. -/
theorem set_active_pad_close (L : GstLib) (self : GstInputSelector) (pad : Option PadId)
    (stop_time start_time : Int) (hne : pad ≠ self.active_sinkpad) :
    (gst_input_selector_set_active_pad L self pad stop_time start_time).1.segment =
      (match self.active_sinkpad with
       | some o =>
         if (self.pads o).active = true ∧ self.pending_close = false ∧
             0 ≤ effective_stop_time L self stop_time then
           gst_segment_set_stop (self.pads o).segment (effective_stop_time L self stop_time)
         else self.segment
       | none => self.segment) ∧
    (gst_input_selector_set_active_pad L self pad stop_time start_time).1.pending_close =
      (match self.active_sinkpad with
       | some o =>
         if (self.pads o).active = true ∧ self.pending_close = false ∧
             0 ≤ effective_stop_time L self stop_time then true
         else self.pending_close
       | none => self.pending_close) := by
  have hv : GST_CLOCK_TIME_IS_VALID stop_time = true ↔ ¬ stop_time = -1 := by
    simp [GST_CLOCK_TIME_IS_VALID, GST_CLOCK_TIME_NONE]
  unfold gst_input_selector_set_active_pad effective_stop_time
  rw [if_neg hne]
  cases ha : self.active_sinkpad <;> cases pad <;> dsimp only <;>
    simp only [hv, not_not, ge_iff_le, Bool.not_eq_true] <;>
    constructor <;> (try split_ifs) <;> trivial

/-- The segment and `segment_pending` of the new pad after a change of the active pad. -/
theorem set_active_pad_target (L : GstLib) (self : GstInputSelector) (t : PadId)
    (stop_time start_time : Int) (hne : some t ≠ self.active_sinkpad) :
    ((gst_input_selector_set_active_pad L self (some t) stop_time start_time).1.pads t).segment =
      (if (self.pads t).active = true ∧ 0 ≤ effective_start_time L self stop_time start_time then
        gst_segment_set_start (self.pads t).segment
          (if self.sync_streams = true ∧ self.cache_buffers = true then
            gst_selector_pad_get_running_time L (self.pads t)
           else effective_start_time L self stop_time start_time)
       else (self.pads t).segment) ∧
    ((gst_input_selector_set_active_pad L self (some t) stop_time start_time).1.pads
        t).segment_pending =
      (if (self.pads t).active = true ∧ 0 ≤ effective_start_time L self stop_time start_time then
        true
       else (self.pads t).segment_pending) := by
  have hv : GST_CLOCK_TIME_IS_VALID stop_time = true ↔ ¬ stop_time = -1 := by
    simp [GST_CLOCK_TIME_IS_VALID, GST_CLOCK_TIME_NONE]
  unfold gst_input_selector_set_active_pad effective_start_time
  rw [if_neg hne]
  cases ha : self.active_sinkpad with
  | none =>
    dsimp only
    simp only [ge_iff_le, modify_pad_sync_streams, modify_pad_cache_buffers]
    constructor <;> split_ifs <;> simp
  | some o =>
    have hto : t ≠ o := by
      intro h
      apply hne
      rw [ha, h]
    dsimp only
    simp only [hv, not_not, ge_iff_le, modify_pad_sync_streams, modify_pad_cache_buffers,
      modify_pad_pads_ne _ _ _ _ hto]
    constructor <;> split_ifs <;> simp_all

theorem switch_state (L : GstLib) (self : GstInputSelector) (pad : Option PadId)
    (stop_time start_time : Int) (hb : self.blocked = true) :
    (gst_input_selector_switch L self pad stop_time start_time).1 =
      { (gst_input_selector_set_active_pad L self pad stop_time start_time).1 with
        blocked := false } := by
  unfold gst_input_selector_switch
  simp [hb]

/-! ### Traces of the buffer path -/

theorem replay_trace_ind (P : List Action → Prop) (h0 : P [])
    (happ : ∀ a b, P a → P b → P (a ++ b))
    (chain : GstInputSelector → PadId → GstBuffer → ChainResult)
    (hc : ∀ s p b, P (chain s p b).trace) (pad : PadId) :
    ∀ fuel sel, P (replay_cached_buffers chain pad fuel sel).2.1 := by
  intro fuel
  induction fuel with
  | zero => intro sel; exact h0
  | succ n ih =>
    intro sel
    unfold replay_cached_buffers
    split_ifs with h1
    · exact h0
    · split
      · exact h0
      · exact h0
      · dsimp only
        split
        · split_ifs
          · exact hc _ _ _
          · exact happ _ _ (hc _ _ _) (ih _)
        · exact hc _ _ _
        · exact hc _ _ _

theorem chain_replay_trace (chain : GstInputSelector → PadId → GstBuffer → ChainResult)
    (fuel : Nat) (sel : GstInputSelector) (pad a : PadId) :
    (chain_replay chain fuel sel pad a).2.1 = [] ∨
      ∃ s, (chain_replay chain fuel sel pad a).2.1 = (replay_cached_buffers chain pad fuel s).2.1 := by
  unfold chain_replay
  split_ifs with h
  · right
    dsimp only
    split <;> exact ⟨_, rfl⟩
  · left; rfl

theorem chain_sync_trace (L : GstLib) (env : Env)
    (chain : GstInputSelector → PadId → GstBuffer → ChainResult) (fuel : Nat)
    (sel : GstInputSelector) (pad : PadId) (buf : GstBuffer) (a : PadId) :
    (chain_sync L env chain fuel sel pad buf a).2.1 = [] ∨
      (chain_sync L env chain fuel sel pad buf a).2.1 = (chain_replay chain fuel sel pad a).2.1 := by
  unfold chain_sync
  split_ifs with h
  · right
    dsimp only
    split
    · rfl
    · rfl
    · split <;> rfl
  · left; rfl

theorem chain_sync_trace_ind (L : GstLib) (env : Env) (P : List Action → Prop) (h0 : P [])
    (happ : ∀ a b, P a → P b → P (a ++ b))
    (chain : GstInputSelector → PadId → GstBuffer → ChainResult)
    (hc : ∀ s p b, P (chain s p b).trace) (fuel : Nat) (sel : GstInputSelector) (pad : PadId)
    (buf : GstBuffer) (a : PadId) :
    P (chain_sync L env chain fuel sel pad buf a).2.1 := by
  rcases chain_sync_trace L env chain fuel sel pad buf a with h | h
  · rw [h]; exact h0
  · rw [h]
    rcases chain_replay_trace chain fuel sel pad a with h2 | ⟨s, h2⟩
    · rw [h2]; exact h0
    · rw [h2]; exact replay_trace_ind P h0 happ chain hc pad fuel s

theorem chain_body_trace_ind (L : GstLib) (env : Env) (P : List Action → Prop) (h0 : P [])
    (happ : ∀ a b, P a → P b → P (a ++ b))
    (hfw : ∀ s p b n, P (chain_forward L env s p b n).2)
    (chain : GstInputSelector → PadId → GstBuffer → ChainResult)
    (hc : ∀ s p b, P (chain s p b).trace) (fuel : Nat) (sel : GstInputSelector) (pad : PadId)
    (buf : GstBuffer) :
    P (chain_body L env chain fuel sel pad buf).trace := by
  have hs := fun s a => chain_sync_trace_ind L env P h0 happ chain hc fuel s pad buf a
  unfold chain_body
  split
  · exact h0
  · exact h0
  · dsimp only
    split
    · exact hs _ _
    · exact hs _ _
    · exact hs _ _
    · split_ifs <;> first | exact hs _ _ | exact happ _ _ (hs _ _) (hfw _ _ _ _)

theorem chain_trace_ind (L : GstLib) (env : Env) (P : List Action → Prop) (h0 : P [])
    (happ : ∀ a b, P a → P b → P (a ++ b))
    (hfw : ∀ s p b n, P (chain_forward L env s p b n).2) :
    ∀ fuel sel pad buf, P (gst_selector_pad_chain L env fuel sel pad buf).trace := by
  intro fuel
  induction fuel with
  | zero => intro sel pad buf; exact h0
  | succ n ih =>
    intro sel pad buf
    exact chain_body_trace_ind L env P h0 happ hfw _ ih n sel pad buf

theorem downstream_append (a b : List Action) : downstream (a ++ b) = downstream a ++ downstream b := by
  simp [downstream]

theorem chain_forward_downstream (L : GstLib) (env : Env) (s : GstInputSelector) (pad : PadId)
    (buf : GstBuffer) (n : Bool) :
    downstream (chain_forward L env s pad buf n).2 =
      (if s.pending_close = true then [Action.push_event (close_segment_update s.segment)] else []) ++
      (if (s.pads pad).segment_pending = true ∧ (s.pads pad).segment.format ≠ GstFormat.UNDEFINED
        then [Action.push_event (open_segment
          (s.sync_streams && s.cache_buffers && (s.pads pad).pushed && (s.pads pad).segment_update)
          (s.pads pad).segment)]
        else []) ++
      [Action.push_buffer (stamp_discont (s.pads pad).discont buf)] := by
  unfold chain_forward
  simp only [downstream_append]
  have h1 : ∀ e, downstream [Action.push_event e] = [Action.push_event e] := fun e => rfl
  have h2 : ∀ b, downstream [Action.push_buffer b] = [Action.push_buffer b] := fun b => rfl
  have h3 : downstream [Action.notify_active_pad] = [] := rfl
  have h4 : downstream [] = [] := rfl
  have e1 : downstream (if n = true then [Action.notify_active_pad] else []) = [] := by
    split_ifs <;> rfl
  rw [e1]
  congr 1
  · congr 1
    · split_ifs <;> rfl
    · by_cases hp : (s.pads pad).segment_pending = true ∧
          (s.pads pad).segment.format ≠ GstFormat.UNDEFINED
      · simp only [hp, and_self, if_true, ne_eq, not_false_eq_true, h1]
        unfold open_segment gst_event_new_new_segment_full
        cases s.sync_streams <;> cases s.cache_buffers <;> cases (s.pads pad).pushed <;> simp
      · simp only [hp, if_false, h4]
  · rw [h2]
    unfold stamp_discont
    by_cases hp : (s.pads pad).segment_pending = true ∧
        (s.pads pad).segment.format ≠ GstFormat.UNDEFINED
    · simp only [hp, and_self, if_true, ne_eq, not_false_eq_true, modify_pad_pads_same]
    · simp only [hp, if_false]

/-! ### The pruner touches the caches only -/

theorem foldl_modify_pad_frame (f : GstSelectorPad → GstSelectorPad) :
    ∀ (l : List PadId) (s : GstInputSelector),
      (l.foldl (fun s p => s.modify_pad p f) s).pending_close = s.pending_close ∧
      (l.foldl (fun s p => s.modify_pad p f) s).segment = s.segment ∧
      (l.foldl (fun s p => s.modify_pad p f) s).active_sinkpad = s.active_sinkpad ∧
      (l.foldl (fun s p => s.modify_pad p f) s).blocked = s.blocked ∧
      (l.foldl (fun s p => s.modify_pad p f) s).flushing = s.flushing ∧
      (l.foldl (fun s p => s.modify_pad p f) s).sync_streams = s.sync_streams ∧
      (l.foldl (fun s p => s.modify_pad p f) s).cache_buffers = s.cache_buffers := by
  intro l
  induction l with
  | nil => intro s; simp
  | cons a l ih =>
    intro s
    simp only [List.foldl_cons]
    have := ih (s.modify_pad a f)
    simpa using this

theorem cleanup_pending_close (L : GstLib) (env : Env) (s : GstInputSelector) (pad : PadId) :
    (gst_input_selector_cleanup_old_cached_buffers L env s pad).pending_close =
      s.pending_close := by
  unfold gst_input_selector_cleanup_old_cached_buffers
  dsimp only
  split_ifs <;> simp [(foldl_modify_pad_frame _ _ _).1]

theorem chain_forward_pending_close (L : GstLib) (env : Env) (s : GstInputSelector)
    (pad : PadId) (buf : GstBuffer) (n : Bool) :
    (chain_forward L env s pad buf n).1.pending_close = false := by
  unfold chain_forward
  dsimp only
  split_ifs <;> (try split) <;> (try split_ifs) <;>
    simp [cleanup_pending_close]

theorem chain_replay_skip (chain : GstInputSelector → PadId → GstBuffer → ChainResult)
    (fuel : Nat) (s : GstInputSelector) (pad : PadId)
    (hr : (s.pads pad).pushed = true ∨ (s.pads pad).cached_buffers = none ∨
      (s.pads pad).sending_cached_buffers = true) :
    chain_replay chain fuel s pad pad = (s, [], Outcome.returned pad) := by
  unfold chain_replay
  have hc : ¬ ((pad ≠ pad ∨ ¬ (s.pads pad).pushed = true) ∧
      (s.pads pad).cached_buffers.isSome = true ∧
      ¬ (s.pads pad).sending_cached_buffers = true) := by
    rintro ⟨h1, h2, h3⟩
    rcases hr with h | h | h
    · rcases h1 with h1 | h1
      · exact h1 rfl
      · exact h1 h
    · rw [h] at h2; cases h2
    · exact h3 h
  rw [if_neg hc]

theorem chain_sync_no_replay (L : GstLib) (env : Env)
    (chain : GstInputSelector → PadId → GstBuffer → ChainResult) (fuel : Nat)
    (s : GstInputSelector) (pad : PadId) (buf : GstBuffer)
    (ha : s.active_sinkpad = some pad)
    (hr : s.sync_streams = false ∨ (s.pads pad).pushed = true ∨
      (s.pads pad).cached_buffers = none ∨ (s.pads pad).sending_cached_buffers = true) :
    chain_sync L env chain fuel s pad buf pad = (s, [], Outcome.returned (some pad)) ∨
    chain_sync L env chain fuel s pad buf pad =
      ((gst_input_selector_activate_sinkpad s pad).1, [], Outcome.returned (some pad)) := by
  unfold chain_sync
  by_cases hs : s.sync_streams = true
  · right
    have hr2 : (s.pads pad).pushed = true ∨ (s.pads pad).cached_buffers = none ∨
        (s.pads pad).sending_cached_buffers = true := by
      rcases hr with h | h
      · rw [hs] at h; cases h
      · exact h
    simp only [hs, not_true_eq_false, if_false, chain_replay_skip chain fuel s pad hr2,
      ne_eq, activate_snd, ha, Option.getD_some]
  · left
    rw [if_pos hs]

theorem wait_not_blocked (s : GstInputSelector) (p : GstSelectorPad)
    (hf : s.flushing = false) (hb : s.blocked = false ∨ p.flushing = true) :
    gst_input_selector_wait s p = some false := by
  unfold gst_input_selector_wait
  rcases hb with hb | hb <;> simp [hf, hb]

/-- A chain call on the active pad that does not replay is the forwarding block run on the
state after activation and the update of `last_stop`. -/
theorem chain_no_replay (L : GstLib) (env : Env) (fuel : Nat) (sel : GstInputSelector)
    (pad : PadId) (buf : GstBuffer)
    (hf : sel.flushing = false)
    (hb : sel.blocked = false ∨ (sel.pads pad).flushing = true)
    (ha : sel.active_sinkpad = some pad ∨ sel.active_sinkpad = none)
    (hr : sel.sync_streams = false ∨ (sel.pads pad).pushed = true ∨
      (sel.pads pad).cached_buffers = none ∨ (sel.pads pad).sending_cached_buffers = true) :
    ∃ s1 n, gst_selector_pad_chain L env (fuel + 1) sel pad buf =
        ⟨(chain_forward L env s1 pad buf n).1, (chain_forward L env s1 pad buf n).2,
          Outcome.returned env.push_result⟩ ∧
      s1.pending_close = sel.pending_close ∧ s1.segment = sel.segment ∧
      s1.sync_streams = sel.sync_streams ∧ s1.cache_buffers = sel.cache_buffers ∧
      s1.pads pad =
        { sel.pads pad with
          active := true
          segment :=
            if GST_CLOCK_TIME_IS_VALID buf.timestamp = true then
              L.gst_segment_set_last_stop (sel.pads pad).segment (sel.pads pad).segment.format
                buf.timestamp
            else (sel.pads pad).segment } := by
  have hgd : sel.active_sinkpad.getD pad = pad := by
    rcases ha with h | h <;> simp [h]
  have ha1 : (gst_input_selector_activate_sinkpad sel pad).1.active_sinkpad = some pad := by
    rw [activate_active_sinkpad, hgd]
  have hr1 : (gst_input_selector_activate_sinkpad sel pad).1.sync_streams = false ∨
      ((gst_input_selector_activate_sinkpad sel pad).1.pads pad).pushed = true ∨
      ((gst_input_selector_activate_sinkpad sel pad).1.pads pad).cached_buffers = none ∨
      ((gst_input_selector_activate_sinkpad sel pad).1.pads pad).sending_cached_buffers =
        true := by
    simpa using hr
  have hsy := chain_sync_no_replay L env (gst_selector_pad_chain L env fuel) fuel
    (gst_input_selector_activate_sinkpad sel pad).1 pad buf ha1 hr1
  have hbody : gst_selector_pad_chain L env (fuel + 1) sel pad buf =
      chain_body L env (gst_selector_pad_chain L env fuel) fuel sel pad buf := rfl
  rw [hbody]
  unfold chain_body
  rw [wait_not_blocked sel _ hf hb]
  dsimp only
  rw [activate_snd, hgd]
  rcases hsy with hsy | hsy <;> rw [hsy] <;> dsimp only <;>
    simp only [ne_eq, not_true_eq_false, if_false, List.nil_append] <;>
    refine ⟨_, _, rfl, ?_⟩ <;>
    by_cases hv : GST_CLOCK_TIME_IS_VALID buf.timestamp = true <;>
    simp [hv]

/-! ### End-of-stream events -/

theorem eos_pushed_append (a b : List Action) :
    eos_pushed (a ++ b) = eos_pushed a + eos_pushed b := by
  induction a with
  | nil => simp [eos_pushed]
  | cons x a ih =>
    cases x with
    | push_event e =>
      cases e <;> simp [eos_pushed, ih]
      omega
    | push_buffer b => simp [eos_pushed, ih]
    | notify_active_pad => simp [eos_pushed, ih]
    | notify_tags p => simp [eos_pushed, ih]

theorem chain_forward_no_eos (L : GstLib) (env : Env) (s : GstInputSelector) (pad : PadId)
    (buf : GstBuffer) (n : Bool) : eos_pushed (chain_forward L env s pad buf n).2 = 0 := by
  unfold chain_forward
  simp only [eos_pushed_append]
  have h1 : eos_pushed (if n = true then [Action.notify_active_pad] else []) = 0 := by
    split_ifs <;> rfl
  rw [h1]
  split_ifs <;> rfl

theorem chain_no_eos (L : GstLib) (env : Env) (fuel : Nat) (sel : GstInputSelector)
    (pad : PadId) (buf : GstBuffer) :
    eos_pushed (gst_selector_pad_chain L env fuel sel pad buf).trace = 0 := by
  apply chain_trace_ind L env (fun tr => eos_pushed tr = 0) rfl
  · intro a b ha hb
    rw [eos_pushed_append, ha, hb]
  · exact chain_forward_no_eos L env

theorem event_eos_pushed (L : GstLib) (env : Env) (sel : GstInputSelector) (pad : PadId)
    (e : GstEvent) :
    eos_pushed (gst_selector_pad_event L env sel pad e).2.1 ≤ (if e = GstEvent.EOS then 1 else 0) := by
  unfold gst_selector_pad_event
  dsimp only
  have h1 : ∀ c : Prop, ∀ _ : Decidable c,
      eos_pushed (if c then [Action.notify_active_pad] else []) = 0 := by
    intro c _; split_ifs <;> rfl
  have h2 : ∀ c : Bool, eos_pushed (if c = true then [Action.notify_tags pad] else []) = 0 := by
    intro c; split_ifs <;> rfl
  split
  · simp only [eos_pushed_append, h1, h2]
    cases e <;> simp [eos_pushed]
  · simp only [eos_pushed_append, h1, h2]
    simp

theorem step_eos_pushed (L : GstLib) (env : Env) (fuel : Nat) (sel : GstInputSelector) (op : Op) :
    eos_pushed (step L env fuel sel op).2 ≤ eos_received [op] := by
  cases op with
  | event pad e =>
    have h := event_eos_pushed L env sel pad e
    cases e <;> simpa [step, eos_received] using h
  | chain pad buf => simp [step, chain_no_eos, eos_received]
  | block => simp [step, eos_pushed, eos_received]
  | switch pad a b =>
    simp only [step, eos_received]
    unfold gst_input_selector_switch
    split_ifs <;> (try dsimp only) <;> (try split_ifs) <;> simp [eos_pushed]

theorem eos_received_cons (op : Op) (ops : List Op) :
    eos_received (op :: ops) = eos_received [op] + eos_received ops := by
  cases op with
  | event pad e => cases e <;> simp [eos_received]; omega
  | chain pad buf => simp [eos_received]
  | block => simp [eos_received]
  | switch pad a b => simp [eos_received]

/-! ### What a call does to pad records -/

theorem foldl_modify_pad_pads {α : Type} (g : GstSelectorPad → α)
    (f : GstSelectorPad → GstSelectorPad) (hf : ∀ x, g (f x) = g x) (q : PadId) :
    ∀ (l : List PadId) (s : GstInputSelector),
      g ((l.foldl (fun s p => s.modify_pad p f) s).pads q) = g (s.pads q) := by
  intro l
  induction l with
  | nil => intro s; rfl
  | cons a l ih =>
    intro s
    simp only [List.foldl_cons]
    rw [ih (s.modify_pad a f), modify_pad_pads]
    split_ifs with h
    · rw [hf, h]
    · rfl

theorem cleanup_pad_keeps {α : Type} (g : GstSelectorPad → α)
    (hg : ∀ x c, g { x with cached_buffers := c } = g x) (L : GstLib) (cur : Int)
    (x : GstSelectorPad) : g (cleanup_pad L cur x) = g x := by
  unfold cleanup_pad
  split
  · rfl
  · exact hg _ _

/-- The pruner changes a pad record in its `active` mark and its queue only. -/
theorem cleanup_keeps {α : Type} (g : GstSelectorPad → α)
    (hg : ∀ x c, g { x with cached_buffers := c } = g x)
    (ha : ∀ x, g { x with active := true } = g x)
    (L : GstLib) (env : Env) (s : GstInputSelector) (pad q : PadId) :
    g ((gst_input_selector_cleanup_old_cached_buffers L env s pad).pads q) = g (s.pads q) := by
  have hact : g ((gst_input_selector_activate_sinkpad s pad).1.pads q) = g (s.pads q) := by
    rw [activate_pads]
    split_ifs with h
    · rw [ha, h]
    · rfl
  unfold gst_input_selector_cleanup_old_cached_buffers
  dsimp only
  split_ifs
  all_goals first
    | rfl
    | exact hact
    | (rw [foldl_modify_pad_pads g _ (cleanup_pad_keeps g hg L _)] <;> first | rfl | exact hact)

theorem cleanup_active_sinkpad (L : GstLib) (env : Env) (s : GstInputSelector) (pad a : PadId)
    (h : s.active_sinkpad = some a) :
    (gst_input_selector_cleanup_old_cached_buffers L env s pad).active_sinkpad = some a := by
  unfold gst_input_selector_cleanup_old_cached_buffers
  dsimp only
  split_ifs <;> simp [h, (foldl_modify_pad_frame _ _ _).2.2.1]

theorem chain_forward_active_sinkpad (L : GstLib) (env : Env) (s : GstInputSelector)
    (pad a : PadId) (buf : GstBuffer) (n : Bool) (h : s.active_sinkpad = some a) :
    (chain_forward L env s pad buf n).1.active_sinkpad = some a := by
  unfold chain_forward
  dsimp only
  have hc : ∀ s1 : GstInputSelector, s1.active_sinkpad = some a →
      (gst_input_selector_cleanup_old_cached_buffers L env s1 pad).active_sinkpad = some a :=
    fun s1 h1 => cleanup_active_sinkpad L env s1 pad a h1
  split_ifs <;> (try split) <;> (try split_ifs) <;>
    first
    | (apply hc; simp [h])
    | simp [h]

/-- After the forwarding block the pad's `discont` mark is clear. -/
theorem chain_forward_discont (L : GstLib) (env : Env) (s : GstInputSelector)
    (pad : PadId) (buf : GstBuffer) (n : Bool) :
    ((chain_forward L env s pad buf n).1.pads pad).discont = false := by
  unfold chain_forward
  dsimp only
  have hc : ∀ s1 : GstInputSelector,
      ((gst_input_selector_cleanup_old_cached_buffers L env s1 pad).pads pad).discont =
        (s1.pads pad).discont :=
    fun s1 => cleanup_keeps (fun x => x.discont) (fun _ _ => rfl) (fun _ => rfl) L env s1 pad pad
  have hcb : ∀ (x : GstSelectorPad) (b : GstBuffer),
      (gst_selector_pad_cache_buffer x b).discont = x.discont := by
    intro x b
    unfold gst_selector_pad_cache_buffer
    split_ifs <;> rfl
  split_ifs <;> (try split) <;> (try split_ifs) <;>
    first
    | (rw [hc]; simp [hcb])
    | simp

theorem replay_keeps_other {α : Type} (g : GstSelectorPad → α)
    (chain : GstInputSelector → PadId → GstBuffer → ChainResult) (pad p : PadId) (hp : p ≠ pad)
    (hc : ∀ s b, g ((chain s pad b).sel.pads p) = g (s.pads p)) :
    ∀ fuel s, g ((replay_cached_buffers chain pad fuel s).1.pads p) = g (s.pads p) := by
  intro fuel
  induction fuel with
  | zero => intro s; rfl
  | succ n ih =>
    intro s
    unfold replay_cached_buffers
    split_ifs with h1
    · rfl
    · split
      · rfl
      · rfl
      · dsimp only
        split
        · split_ifs
          · rw [hc, modify_pad_pads_ne _ _ _ _ hp]
          · rw [ih, hc, modify_pad_pads_ne _ _ _ _ hp]
        · rw [hc, modify_pad_pads_ne _ _ _ _ hp]
        · rw [hc, modify_pad_pads_ne _ _ _ _ hp]

theorem chain_replay_keeps_other {α : Type} (g : GstSelectorPad → α)
    (chain : GstInputSelector → PadId → GstBuffer → ChainResult) (pad p : PadId) (hp : p ≠ pad)
    (hc : ∀ s b, g ((chain s pad b).sel.pads p) = g (s.pads p)) (fuel : Nat)
    (s : GstInputSelector) (a : PadId) :
    g ((chain_replay chain fuel s pad a).1.pads p) = g (s.pads p) := by
  have hr := replay_keeps_other g chain pad p hp hc fuel
  unfold chain_replay
  split_ifs with h
  · dsimp only
    split
    · rw [activate_pads_ne _ _ _ hp, modify_pad_pads_ne _ _ _ _ hp, hr,
        modify_pad_pads_ne _ _ _ _ hp]
    · rw [hr, modify_pad_pads_ne _ _ _ _ hp]
    · rw [hr, modify_pad_pads_ne _ _ _ _ hp]
  · rfl

theorem wait_running_time_keeps_other (L : GstLib) (env : Env) (s : GstInputSelector)
    (pad p : PadId) (hp : p ≠ pad) (buf : GstBuffer) :
    (gst_input_selector_wait_running_time L env s pad buf).1.pads p = s.pads p := by
  unfold gst_input_selector_wait_running_time
  dsimp only
  split_ifs <;> (try split) <;> (try split_ifs) <;>
    first
    | rfl
    | exact activate_pads_ne _ _ _ hp

theorem chain_sync_keeps_other {α : Type} (g : GstSelectorPad → α) (L : GstLib) (env : Env)
    (chain : GstInputSelector → PadId → GstBuffer → ChainResult) (pad p : PadId) (hp : p ≠ pad)
    (hc : ∀ s b, g ((chain s pad b).sel.pads p) = g (s.pads p)) (fuel : Nat)
    (s : GstInputSelector) (buf : GstBuffer) (a : PadId) :
    g ((chain_sync L env chain fuel s pad buf a).1.pads p) = g (s.pads p) := by
  have hr := chain_replay_keeps_other g chain pad p hp hc fuel s a
  have hw : ∀ (s1 : GstInputSelector) (a1 : PadId),
      g ((if a1 ≠ pad then gst_input_selector_wait_running_time L env s1 pad buf
          else (s1, some false)).1.pads p) = g (s1.pads p) := by
    intro s1 a1
    split_ifs
    · rw [wait_running_time_keeps_other L env s1 pad p hp buf]
    · rfl
  unfold chain_sync
  split_ifs with h
  · dsimp only
    split
    · exact hr
    · exact hr
    · split
      · rw [hw, hr]
      · rw [hw, hr]
      · rw [activate_pads_ne _ _ _ hp, hw, hr]
  · rfl

theorem chain_forward_keeps_other {α : Type} (g : GstSelectorPad → α)
    (hg : ∀ x c, g { x with cached_buffers := c } = g x)
    (ha : ∀ x, g { x with active := true } = g x)
    (L : GstLib) (env : Env) (s : GstInputSelector) (pad p : PadId) (hp : p ≠ pad)
    (buf : GstBuffer) (n : Bool) :
    g ((chain_forward L env s pad buf n).1.pads p) = g (s.pads p) := by
  unfold chain_forward
  dsimp only
  have hc := fun s1 => cleanup_keeps g hg ha L env s1 pad p
  split_ifs <;> (try split) <;> (try split_ifs) <;>
    first
    | (rw [hc]; simp [hp])
    | simp [hp]

theorem chain_body_keeps_other {α : Type} (g : GstSelectorPad → α)
    (hg : ∀ x c, g { x with cached_buffers := c } = g x)
    (ha : ∀ x, g { x with active := true } = g x)
    (L : GstLib) (env : Env)
    (chain : GstInputSelector → PadId → GstBuffer → ChainResult) (pad p : PadId) (hp : p ≠ pad)
    (hc : ∀ s b, g ((chain s pad b).sel.pads p) = g (s.pads p)) (fuel : Nat)
    (s : GstInputSelector) (buf : GstBuffer) :
    g ((chain_body L env chain fuel s pad buf).sel.pads p) = g (s.pads p) := by
  have hs : g ((chain_sync L env chain fuel (gst_input_selector_activate_sinkpad s pad).1 pad buf
      (gst_input_selector_activate_sinkpad s pad).2).1.pads p) = g (s.pads p) := by
    rw [chain_sync_keeps_other g L env chain pad p hp hc, activate_pads_ne _ _ _ hp]
  unfold chain_body
  split
  · rfl
  · rfl
  · dsimp only
    split
    · exact hs
    · exact hs
    · exact hs
    · split_ifs
      all_goals first
        | (rw [chain_forward_keeps_other g hg ha L env _ pad p hp]; simp [hp, hs])
        | (unfold chain_ignore; simp [hp, hs])

/-- A chain call on one pad changes the record of another pad in its queue only. -/
theorem chain_keeps_other {α : Type} (g : GstSelectorPad → α)
    (hg : ∀ x c, g { x with cached_buffers := c } = g x)
    (ha : ∀ x, g { x with active := true } = g x)
    (L : GstLib) (env : Env) (pad p : PadId) (hp : p ≠ pad) :
    ∀ fuel s buf, g ((gst_selector_pad_chain L env fuel s pad buf).sel.pads p) = g (s.pads p) := by
  intro fuel
  induction fuel with
  | zero => intro s buf; rfl
  | succ n ih =>
    intro s buf
    exact chain_body_keeps_other g hg ha L env _ pad p hp ih n s buf

/-- The active pad the sync branch hands on is the selector's active pad. -/
theorem chain_sync_active (L : GstLib) (env : Env)
    (chain : GstInputSelector → PadId → GstBuffer → ChainResult) (fuel : Nat)
    (s : GstInputSelector) (pad : PadId) (buf : GstBuffer) (a x : PadId)
    (h : s.active_sinkpad = some a)
    (hx : (chain_sync L env chain fuel s pad buf a).2.2 = Outcome.returned (some x)) :
    (chain_sync L env chain fuel s pad buf a).1.active_sinkpad = some x := by
  unfold chain_sync at hx ⊢
  split_ifs at hx ⊢ with hs
  · dsimp only at hx ⊢
    split at hx
    · cases hx
    · cases hx
    · rename_i active1 heq
      split at hx
      · cases hx
      · cases hx
      · rename_i hw
        simp only [Outcome.returned.injEq, Option.some.injEq] at hx
        rw [activate_active_sinkpad, ← hx, activate_snd]
  · simp only [Outcome.returned.injEq, Option.some.injEq] at hx
    rw [← hx]; exact h

/-- A chain call that returns without the pad being the active one, and not as flushing,
leaves the pad's `discont` mark set. -/
theorem chain_drop_discont (L : GstLib) (env : Env) (fuel : Nat) (sel : GstInputSelector)
    (pad : PadId) (buf : GstBuffer) (x : GstFlowReturn)
    (hout : (gst_selector_pad_chain L env fuel sel pad buf).outcome = Outcome.returned x)
    (hx : x ≠ GstFlowReturn.WRONG_STATE)
    (hact : (gst_selector_pad_chain L env fuel sel pad buf).sel.active_sinkpad ≠ some pad) :
    ((gst_selector_pad_chain L env fuel sel pad buf).sel.pads pad).discont = true := by
  cases fuel with
  | zero => cases hout
  | succ n =>
    have hbody : gst_selector_pad_chain L env (n + 1) sel pad buf =
        chain_body L env (gst_selector_pad_chain L env n) n sel pad buf := rfl
    rw [hbody] at hout hact ⊢
    have ha1 : (gst_input_selector_activate_sinkpad sel pad).1.active_sinkpad =
        some (gst_input_selector_activate_sinkpad sel pad).2 := by
      rw [activate_active_sinkpad, activate_snd]
    unfold chain_body at hout hact ⊢
    split at hout
    · cases hout
    · simp only [Outcome.returned.injEq] at hout
      exact absurd hout.symm hx
    · rename_i hw
      try simp only [hw] at hact ⊢
      dsimp only at hout hact ⊢
      split at hout
      · cases hout
      · cases hout
      · simp only [Outcome.returned.injEq] at hout
        exact absurd hout.symm hx
      · rename_i o active hsy
        try simp only [hsy] at hact ⊢
        have hsa := chain_sync_active L env _ n _ pad buf _ active ha1 hsy
        by_cases hpa : pad = active
        · exfalso
          simp only [hpa, ne_eq, not_true_eq_false, if_false] at hact
          apply hact
          rw [← hpa]
          apply chain_forward_active_sinkpad
          split_ifs
          · rw [modify_pad_active_sinkpad, hsa, hpa]
          · rw [hsa, hpa]
        · simp only [ne_eq, hpa, not_false_eq_true, if_true]
          unfold chain_ignore
          simp

theorem set_active_pad_discont (L : GstLib) (self : GstInputSelector) (pad : Option PadId)
    (stop_time start_time : Int) (p : PadId) :
    ((gst_input_selector_set_active_pad L self pad stop_time start_time).1.pads p).discont =
      (self.pads p).discont := by
  unfold gst_input_selector_set_active_pad
  by_cases h : pad = self.active_sinkpad
  · rw [if_pos h]
  · rw [if_neg h]
    cases self.active_sinkpad <;> cases pad <;> dsimp only <;> (try split_ifs) <;>
      simp only [modify_pad_pads] <;> (try split_ifs) <;> simp_all

theorem switch_discont (L : GstLib) (self : GstInputSelector) (pad : Option PadId)
    (stop_time start_time : Int) (p : PadId) :
    ((gst_input_selector_switch L self pad stop_time start_time).1.pads p).discont =
      (self.pads p).discont := by
  unfold gst_input_selector_switch
  split_ifs
  · rfl
  · exact set_active_pad_discont L self pad stop_time start_time p

theorem event_switch_discont (L : GstLib) (sel : GstInputSelector) (pad a : PadId)
    (forward : Bool) (e : GstEvent) (p : PadId)
    (h : ¬ (pad = p ∧ e = GstEvent.FLUSH_STOP)) :
    ((event_switch L sel pad a forward e).1.pads p).discont = (sel.pads p).discont := by
  unfold event_switch
  cases e with
  | FLUSH_START => simp only [modify_pad_pads]; split_ifs with hq <;> simp_all
  | FLUSH_STOP =>
    have hne : p ≠ pad := fun hq => h ⟨hq.symm, rfl⟩
    show ((sel.modify_pad pad (gst_selector_pad_reset L)).pads p).discont = _
    rw [modify_pad_pads_ne _ _ _ _ hne]
  | NEWSEGMENT update rate arate format start stop time =>
    dsimp only
    split_ifs <;> simp only [modify_pad_pads] <;> (try split_ifs) <;> simp_all
  | TAG tags => simp only [modify_pad_pads]; split_ifs with hq <;> simp_all
  | EOS =>
    dsimp only
    split_ifs <;> simp only [modify_pad_pads] <;> (try split_ifs) <;> simp_all
  | OTHER id => rfl

theorem event_discont (L : GstLib) (env : Env) (sel : GstInputSelector) (pad : PadId)
    (e : GstEvent) (p : PadId) (h : ¬ (pad = p ∧ e = GstEvent.FLUSH_STOP)) :
    ((gst_selector_pad_event L env sel pad e).1.pads p).discont = (sel.pads p).discont := by
  have ha : ∀ s : GstInputSelector,
      ((gst_input_selector_activate_sinkpad s pad).1.pads p).discont = (s.pads p).discont := by
    intro s
    rw [activate_pads]
    split_ifs with hq
    · rw [hq]
    · rfl
  unfold gst_selector_pad_event
  dsimp only
  split_ifs <;> rw [event_switch_discont L _ pad _ _ e p h, ha, ha]

/-- Only a drop or a forward on the pad itself, or a flush-stop on it, changes a pad's
`discont` mark. -/
theorem step_discont (L : GstLib) (env : Env) (fuel : Nat) (sel : GstInputSelector) (op : Op)
    (p : PadId) (h1 : op ≠ Op.event p GstEvent.FLUSH_STOP) (h2 : ∀ buf, op ≠ Op.chain p buf) :
    ((step L env fuel sel op).1.pads p).discont = (sel.pads p).discont := by
  cases op with
  | event pad e =>
    apply event_discont
    rintro ⟨hp, he⟩
    exact h1 (by rw [hp, he])
  | chain pad buf =>
    have hp : p ≠ pad := fun hq => h2 buf (by rw [hq])
    exact chain_keeps_other (fun x => x.discont) (fun _ _ => rfl) (fun _ => rfl) L env pad p hp
      fuel sel buf
  | block =>
    simp only [step]
    unfold gst_input_selector_block
    dsimp only
    split <;> rfl
  | switch pad a b => exact switch_discont L sel pad a b p

theorem event_eos_active (L : GstLib) (env : Env) (sel : GstInputSelector) (pad : PadId)
    (h : sel.active_sinkpad = some pad) :
    eos_pushed (gst_selector_pad_event L env sel pad GstEvent.EOS).2.1 = 1 := by
  unfold gst_selector_pad_event
  dsimp only
  simp only [activate_snd, activate_active_sinkpad, h, Option.getD_some, ne_eq,
    not_true_eq_false, false_and, if_false, decide_True, event_switch, if_true,
    List.nil_append]
  rfl

theorem set_active_pad_active (L : GstLib) (self : GstInputSelector) (pad : Option PadId)
    (stop_time start_time : Int) :
    (gst_input_selector_set_active_pad L self pad stop_time start_time).1.active_sinkpad = pad := by
  unfold gst_input_selector_set_active_pad
  split
  · rename_i h; exact h.symm
  · rfl

theorem pushed_buffers_append (a b : List Action) :
    pushed_buffers (a ++ b) = pushed_buffers a ++ pushed_buffers b := by
  induction a with
  | nil => rfl
  | cons x a ih => cases x <;> simp [pushed_buffers, ih]

theorem chain_forward_pushed_buffers (L : GstLib) (env : Env) (s : GstInputSelector)
    (pad : PadId) (buf : GstBuffer) (n : Bool) :
    pushed_buffers (chain_forward L env s pad buf n).2 =
      [stamp_discont (s.pads pad).discont buf] := by
  unfold chain_forward
  simp only [pushed_buffers_append]
  have e1 : pushed_buffers (if n = true then [Action.notify_active_pad] else []) = [] := by
    split_ifs <;> rfl
  have e2 : ∀ (c : Prop) [Decidable c] (e : GstEvent),
      pushed_buffers (if c then [Action.push_event e] else []) = [] := by
    intro c _ e; split_ifs <;> rfl
  rw [e1, e2, e2]
  unfold stamp_discont
  by_cases hp : (s.pads pad).segment_pending = true ∧
      (s.pads pad).segment.format ≠ GstFormat.UNDEFINED
  · simp [hp, pushed_buffers]
  · simp [hp, pushed_buffers]

/-! ## The claims -/

/-- C1.  For every blocked selector and every input `target`, right after
`switch(target, stop_rt, start_rt)` the active input is `target` and the selector is not
blocked, whatever `stop_rt` and `start_rt` are. -/
theorem switch_makes_target_active (L : GstLib) (self : GstInputSelector) (target : PadId)
    (stop_rt start_rt : Int) (h : self.blocked = true) :
    (gst_input_selector_switch L self (some target) stop_rt start_rt).1.active_sinkpad
        = some target ∧
      (gst_input_selector_switch L self (some target) stop_rt start_rt).1.blocked = false := by
  rw [switch_state L self (some target) stop_rt start_rt h]
  exact ⟨set_active_pad_active L self (some target) stop_rt start_rt, rfl⟩

/-- Witness of C1: the switch to B in scenario S2. -/
theorem switch_makes_target_active_witness :
    (gst_input_selector_block spec_lib s2_before_block).1.blocked = true ∧
    (gst_input_selector_switch spec_lib (gst_input_selector_block spec_lib s2_before_block).1
        (some 1) (-1) (-1)).1.active_sinkpad = some 1 ∧
    (gst_input_selector_switch spec_lib (gst_input_selector_block spec_lib s2_before_block).1
        (some 1) (-1) (-1)).1.blocked = false :=
  ⟨by decide,
    switch_makes_target_active spec_lib (gst_input_selector_block spec_lib s2_before_block).1 1
      (-1) (-1) (by decide)⟩

/-- C2.  `block()` sets `blocked` and changes nothing else; it returns 0 when there is no
active input, when the active input was never touched or when its `last_stop` is negative,
and else the running time of the active input's segment at its `last_stop`. -/
theorem block_sets_blocked_returns_running_time (L : GstLib) (self : GstInputSelector) :
    (gst_input_selector_block L self).1 = { self with blocked := true } ∧
    (self.active_sinkpad = none → (gst_input_selector_block L self).2 = 0) ∧
    (∀ a, self.active_sinkpad = some a →
      ((self.pads a).active = false → (gst_input_selector_block L self).2 = 0) ∧
      ((self.pads a).segment.last_stop < 0 → (gst_input_selector_block L self).2 = 0) ∧
      ((self.pads a).active = true → 0 ≤ (self.pads a).segment.last_stop →
        (gst_input_selector_block L self).2 =
          L.gst_segment_to_running_time (self.pads a).segment GstFormat.TIME
            (self.pads a).segment.last_stop)) := by
  refine ⟨?_, ?_, ?_⟩
  · unfold gst_input_selector_block
    cases h : self.active_sinkpad <;> simp [h]
  · intro h
    unfold gst_input_selector_block
    simp [h]
  · intro a h
    unfold gst_input_selector_block gst_selector_pad_get_running_time
    simp only [h]
    refine ⟨?_, ?_, ?_⟩
    · intro ha; simp [ha]
    · intro hl
      have : ¬ (self.pads a).segment.last_stop ≥ 0 := by omega
      simp [this]
    · intro ha hl
      simp [ha, hl]

/-- Witness of C2: `block()` in scenario S2, where A is active with `last_stop` 40. -/
theorem block_sets_blocked_returns_running_time_witness :
    s2_before_block.active_sinkpad = some 0 ∧ (s2_before_block.pads 0).active = true ∧
    0 ≤ (s2_before_block.pads 0).segment.last_stop ∧
    (gst_input_selector_block spec_lib s2_before_block).2 =
      spec_lib.gst_segment_to_running_time (s2_before_block.pads 0).segment GstFormat.TIME
        (s2_before_block.pads 0).segment.last_stop :=
  ⟨by decide, by decide, by decide,
    ((block_sets_blocked_returns_running_time spec_lib s2_before_block).2.2 0 (by decide)).2.2
      (by decide) (by decide)⟩

/-- C5.  When a switch changes the active input, the closing segment is scheduled exactly
when there is an old active input, it has been seen, no close is pending and the effective
stop time is not negative: then the selector-wide segment is the old input's segment with
`stop` at the timestamp of the effective stop time and `last_stop` cleared, and
`pending_close` is set; else both are unchanged. -/
theorem switch_schedules_closing_segment (L : GstLib) (self : GstInputSelector)
    (pad : Option PadId) (stop_rt start_rt : Int)
    (hb : self.blocked = true) (hne : pad ≠ self.active_sinkpad) :
    (∀ o, self.active_sinkpad = some o → (self.pads o).active = true →
        self.pending_close = false → 0 ≤ effective_stop_time L self stop_rt →
        (gst_input_selector_switch L self pad stop_rt start_rt).1.segment =
          { (self.pads o).segment with
            stop := gst_segment_get_timestamp (self.pads o).segment
              (effective_stop_time L self stop_rt)
            last_stop := -1 } ∧
        (gst_input_selector_switch L self pad stop_rt start_rt).1.pending_close = true) ∧
    ((¬ ∃ o, self.active_sinkpad = some o ∧ (self.pads o).active = true ∧
          self.pending_close = false ∧ 0 ≤ effective_stop_time L self stop_rt) →
        (gst_input_selector_switch L self pad stop_rt start_rt).1.segment = self.segment ∧
        (gst_input_selector_switch L self pad stop_rt start_rt).1.pending_close =
          self.pending_close) := by
  have h := set_active_pad_close L self pad stop_rt start_rt hne
  rw [switch_state L self pad stop_rt start_rt hb]
  dsimp only
  rw [h.1, h.2]
  constructor
  · intro o ho hact hpc hstop
    rw [ho]
    simp only [hact, hpc, hstop, and_self, if_true]
    exact ⟨rfl, trivial⟩
  · intro hn
    cases ha : self.active_sinkpad with
    | none => exact ⟨rfl, rfl⟩
    | some o =>
      have hc : ¬ ((self.pads o).active = true ∧ self.pending_close = false ∧
          0 ≤ effective_stop_time L self stop_rt) := fun hc => hn ⟨o, ha, hc⟩
      simp only [hc, if_false]
      exact ⟨trivial, trivial⟩

/-- Witness of C5: the switch to B in scenario S2 schedules the close of A at 40. -/
theorem switch_schedules_closing_segment_witness :
    (gst_input_selector_switch spec_lib (gst_input_selector_block spec_lib s2_before_block).1
        (some 1) (-1) (-1)).1.segment =
      { ((gst_input_selector_block spec_lib s2_before_block).1.pads 0).segment with
        stop := gst_segment_get_timestamp
          ((gst_input_selector_block spec_lib s2_before_block).1.pads 0).segment
          (effective_stop_time spec_lib (gst_input_selector_block spec_lib s2_before_block).1
            (-1))
        last_stop := -1 } ∧
    (gst_input_selector_switch spec_lib (gst_input_selector_block spec_lib s2_before_block).1
        (some 1) (-1) (-1)).1.pending_close = true :=
  (switch_schedules_closing_segment spec_lib (gst_input_selector_block spec_lib s2_before_block).1
    (some 1) (-1) (-1) (by decide) (by decide)).1 0 (by decide) (by decide) (by decide)
    (by decide)

/-- C6.  When a switch changes the active input to a target that has been seen and the
effective start time is not negative, the target's segment becomes
`set_start(target.segment, s)` and its `segment_pending` is set, where `s` is the target's
own running time if `sync_streams` and `cache_buffers` are both on and the effective start
time otherwise; when the target has not been seen or the effective start time is negative,
the target's segment and `segment_pending` are unchanged. -/
theorem switch_opens_target_segment (L : GstLib) (self : GstInputSelector) (target : PadId)
    (stop_rt start_rt : Int)
    (hb : self.blocked = true) (hne : some target ≠ self.active_sinkpad) :
    ((self.pads target).active = true → 0 ≤ effective_start_time L self stop_rt start_rt →
        ((gst_input_selector_switch L self (some target) stop_rt start_rt).1.pads target).segment =
          gst_segment_set_start (self.pads target).segment
            (if self.sync_streams = true ∧ self.cache_buffers = true then
              gst_selector_pad_get_running_time L (self.pads target)
             else effective_start_time L self stop_rt start_rt) ∧
        ((gst_input_selector_switch L self (some target) stop_rt start_rt).1.pads
          target).segment_pending = true) ∧
    (((self.pads target).active = false ∨ effective_start_time L self stop_rt start_rt < 0) →
        ((gst_input_selector_switch L self (some target) stop_rt start_rt).1.pads target).segment =
          (self.pads target).segment ∧
        ((gst_input_selector_switch L self (some target) stop_rt start_rt).1.pads
          target).segment_pending = (self.pads target).segment_pending) := by
  have h := set_active_pad_target L self target stop_rt start_rt hne
  rw [switch_state L self (some target) stop_rt start_rt hb]
  dsimp only
  rw [h.1, h.2]
  constructor
  · intro hact hstart
    simp only [hact, hstart, and_self, if_true]
  · intro hn
    have hc : ¬ ((self.pads target).active = true ∧
        0 ≤ effective_start_time L self stop_rt start_rt) := by
      rintro ⟨h1, h2⟩
      rcases hn with hn | hn
      · rw [h1] at hn; cases hn
      · omega
    simp only [hc, if_false]
    exact ⟨trivial, trivial⟩

/-- Witness of C6: the switch to B in scenario S2 opens B's segment at running time 40. -/
theorem switch_opens_target_segment_witness :
    ((gst_input_selector_switch spec_lib (gst_input_selector_block spec_lib s2_before_block).1
        (some 1) (-1) (-1)).1.pads 1).segment =
      gst_segment_set_start ((gst_input_selector_block spec_lib s2_before_block).1.pads 1).segment
        (if (gst_input_selector_block spec_lib s2_before_block).1.sync_streams = true ∧
            (gst_input_selector_block spec_lib s2_before_block).1.cache_buffers = true then
          gst_selector_pad_get_running_time spec_lib
            ((gst_input_selector_block spec_lib s2_before_block).1.pads 1)
         else effective_start_time spec_lib
            (gst_input_selector_block spec_lib s2_before_block).1 (-1) (-1)) ∧
    ((gst_input_selector_switch spec_lib (gst_input_selector_block spec_lib s2_before_block).1
        (some 1) (-1) (-1)).1.pads 1).segment_pending = true :=
  (switch_opens_target_segment spec_lib (gst_input_selector_block spec_lib s2_before_block).1 1
    (-1) (-1) (by decide) (by decide)).1 (by decide) (by decide)

/-- Counterexample to C3: in sync-streams mode with caching, a chain call on the active
input that replays its cache pushes five items, two of them buffers, before it returns:
they are not a close, an open and the buffer. -/
theorem chain_items_replay_counterexample :
    replay_state.active_sinkpad = some 0 ∧
    (gst_selector_pad_chain spec_lib (clock_env 1000) 2 replay_state 0
        (plain_buffer 1 40 40)).outcome = Outcome.returned GstFlowReturn.OK ∧
    ¬ ∃ close_items open_items : List Action, close_items.length ≤ 1 ∧ open_items.length ≤ 1 ∧
        downstream (gst_selector_pad_chain spec_lib (clock_env 1000) 2 replay_state 0
          (plain_buffer 1 40 40)).trace =
          close_items ++ open_items ++ [Action.push_buffer (plain_buffer 1 40 40)] := by
  refine ⟨by decide, by decide, ?_⟩
  rintro ⟨c, o, hc, ho, h⟩
  have h5 : (downstream (gst_selector_pad_chain spec_lib (clock_env 1000) 2 replay_state 0
      (plain_buffer 1 40 40)).trace).length = 5 := by decide
  rw [h] at h5
  simp only [List.length_append, List.length_singleton] at h5
  omega

/-- C3, amended.  For every chain call on the active input (or on the first input touched)
of a selector that is not flushing and lets the call through its block gate (it is not
blocked, or the input is flushing), when the call does not replay the input's cache (sync-streams is off, or the input has pushed since it became active, or it
has no cache, or it is replaying already): the call returns what downstream answered to
the buffer, the items it pushed downstream are, in this order, the close segment update
(present iff `pending_close` was set, built from the selector-wide segment), the open
segment (present iff `segment_pending` was set and the input's segment format is not
UNDEFINED), then the buffer; afterwards `pending_close` is clear. -/
theorem chain_items_without_replay (L : GstLib) (env : Env) (fuel : Nat)
    (sel : GstInputSelector) (pad : PadId) (buf : GstBuffer)
    (hf : sel.flushing = false)
    (hb : sel.blocked = false ∨ (sel.pads pad).flushing = true)
    (ha : sel.active_sinkpad = some pad ∨ sel.active_sinkpad = none)
    (hr : sel.sync_streams = false ∨ (sel.pads pad).pushed = true ∨
      (sel.pads pad).cached_buffers = none ∨ (sel.pads pad).sending_cached_buffers = true) :
    (gst_selector_pad_chain L env (fuel + 1) sel pad buf).outcome =
      Outcome.returned env.push_result ∧
    downstream (gst_selector_pad_chain L env (fuel + 1) sel pad buf).trace =
      (if sel.pending_close = true then [Action.push_event (close_segment_update sel.segment)]
        else []) ++
      (if (sel.pads pad).segment_pending = true ∧
          (if GST_CLOCK_TIME_IS_VALID buf.timestamp = true then
            L.gst_segment_set_last_stop (sel.pads pad).segment (sel.pads pad).segment.format
              buf.timestamp
           else (sel.pads pad).segment).format ≠ GstFormat.UNDEFINED then
        [Action.push_event (open_segment
          (sel.sync_streams && sel.cache_buffers && (sel.pads pad).pushed &&
            (sel.pads pad).segment_update)
          (if GST_CLOCK_TIME_IS_VALID buf.timestamp = true then
            L.gst_segment_set_last_stop (sel.pads pad).segment (sel.pads pad).segment.format
              buf.timestamp
           else (sel.pads pad).segment))]
        else []) ++
      [Action.push_buffer (stamp_discont (sel.pads pad).discont buf)] ∧
    (gst_selector_pad_chain L env (fuel + 1) sel pad buf).sel.pending_close = false := by
  obtain ⟨s1, n, heq, h1, h2, h3, h4, h5⟩ := chain_no_replay L env fuel sel pad buf hf hb ha hr
  rw [heq]
  refine ⟨rfl, ?_, chain_forward_pending_close L env s1 pad buf n⟩
  show downstream (chain_forward L env s1 pad buf n).2 = _
  rw [chain_forward_downstream, h1, h2, h3, h4, h5]

/-- Witness of C3: the first buffer of B after the switch in scenario S2. -/
theorem chain_items_without_replay_witness :
    downstream (gst_selector_pad_chain spec_lib quiet_env 1
        (gst_input_selector_switch spec_lib (gst_input_selector_block spec_lib s2_before_block).1
          (some 1) (-1) (-1)).1 1 (plain_buffer 2 80 40)).trace =
      [Action.push_event
          (GstEvent.NEWSEGMENT true gdouble.one gdouble.one GstFormat.TIME 0 40 0),
        Action.push_event
          (GstEvent.NEWSEGMENT false gdouble.one gdouble.one GstFormat.TIME 40 (-1) 40),
        Action.push_buffer (plain_buffer 2 80 40)] :=
  (chain_items_without_replay spec_lib quiet_env 0
    (gst_input_selector_switch spec_lib (gst_input_selector_block spec_lib s2_before_block).1
      (some 1) (-1) (-1)).1 1 (plain_buffer 2 80 40) (by decide) (Or.inl (by decide))
    (Or.inl (by decide)) (Or.inl (by decide))).2.1.trans (by decide)

/-- Counterexample to C4: in scenario S3 two end-of-stream events reach downstream. -/
theorem eos_twice_in_s3 :
    ¬ eos_pushed (run spec_lib quiet_env 2 two_pad_selector s3_ops).2 ≤ 1 := by
  decide

/-- C4, amended.  Over every sequence of events, buffers, block and switch operations,
end-of-stream is pushed downstream at most once per end-of-stream event received (and never
by a buffer, a block or a switch); an end-of-stream received on the active input is always
pushed; in scenario S3 exactly two end-of-stream events reach downstream. -/
theorem eos_pushed_at_most_received (L : GstLib) (env : Env) (fuel : Nat)
    (sel : GstInputSelector) (ops : List Op) :
    eos_pushed (run L env fuel sel ops).2 ≤ eos_received ops ∧
    (∀ pad, sel.active_sinkpad = some pad →
      eos_pushed (gst_selector_pad_event L env sel pad GstEvent.EOS).2.1 = 1) ∧
    eos_pushed (run spec_lib quiet_env 2 two_pad_selector s3_ops).2 = 2 := by
  refine ⟨?_, fun pad h => event_eos_active L env sel pad h, by decide⟩
  induction ops generalizing sel with
  | nil => simp [run, eos_pushed, eos_received]
  | cons op ops ih =>
    rw [eos_received_cons]
    simp only [run, eos_pushed_append]
    have h1 := step_eos_pushed L env fuel sel op
    have h2 := ih (step L env fuel sel op).1
    omega

/-- Witness of C4: B, active after the switch of scenario S3, gets its end-of-stream
pushed although A's was pushed before. -/
theorem eos_pushed_at_most_received_witness :
    (run spec_lib quiet_env 2 two_pad_selector
        [Op.event 0 GstEvent.EOS, Op.block, Op.switch (some 1) (-1) (-1)]).1.active_sinkpad =
      some 1 ∧
    eos_pushed (gst_selector_pad_event spec_lib quiet_env
        (run spec_lib quiet_env 2 two_pad_selector
          [Op.event 0 GstEvent.EOS, Op.block, Op.switch (some 1) (-1) (-1)]).1 1
        GstEvent.EOS).2.1 = 1 :=
  ⟨by decide,
    (eos_pushed_at_most_received spec_lib quiet_env 2
      (run spec_lib quiet_env 2 two_pad_selector
        [Op.event 0 GstEvent.EOS, Op.block, Op.switch (some 1) (-1) (-1)]).1 []).2.1 1
      (by decide)⟩

/-- C7, the code at the failing input.  A is active at running time 40 and B, seen before,
stands at running time 20.  `switch(B, -1, -1)` moves the start of B's segment to 40, the
running time of the previously active input; `switch(B, 40, -1)` leaves B's segment as it
is, with start 0.  Neither opens the new segment at 20, the running time of the newly
active input. -/
theorem switch_start_unknown_not_at_new_running_time :
    behind_state.blocked = true ∧ behind_state.active_sinkpad = some 0 ∧
    (behind_state.pads 1).active = true ∧
    gst_selector_pad_get_running_time spec_lib (behind_state.pads 0) = 40 ∧
    gst_selector_pad_get_running_time spec_lib (behind_state.pads 1) = 20 ∧
    ((gst_input_selector_switch spec_lib behind_state (some 1) (-1) (-1)).1.pads
      1).segment.start = 40 ∧
    ((gst_input_selector_switch spec_lib behind_state (some 1) 40 (-1)).1.pads 1).segment =
      (behind_state.pads 1).segment ∧
    (behind_state.pads 1).segment.start = 0 := by
  decide

/-- Counterexample to C8: in scenario S2 `block()` does not return 80, and no segment with
stop 80 or start 80 is pushed. -/
theorem s2_block_returns_80_fails :
    ¬ ((gst_input_selector_block spec_lib s2_before_block).2 = 80 ∧
      (∃ r ar f st t,
        Action.push_event (GstEvent.NEWSEGMENT true r ar f st 80 t) ∈ s2_after_block.2) ∧
      (∃ u r ar f sp t,
        Action.push_event (GstEvent.NEWSEGMENT u r ar f 80 sp t) ∈ s2_after_block.2)) := by
  intro h
  exact absurd h.1 (by decide)

/-- C8, amended.  Scenario S2 (times in ms, rate 1, sync and cache off): after A is fed
`B(0,40)` and `B(40,40)`, `block()` returns 40, the running time at the timestamp of A's
last buffer; after `switch(B, -1, -1)` and B's buffers `B(80,40)` and `B(120,40)`, what is
pushed downstream is the closing segment update with stop 40, B's opening segment with
start 40, and the two buffers. -/
theorem s2_block_returns_40 :
    (gst_input_selector_block spec_lib s2_before_block).2 = 40 ∧
    downstream s2_after_block.2 =
      [Action.push_event
          (GstEvent.NEWSEGMENT true gdouble.one gdouble.one GstFormat.TIME 0 40 0),
        Action.push_event
          (GstEvent.NEWSEGMENT false gdouble.one gdouble.one GstFormat.TIME 40 (-1) 40),
        Action.push_buffer (plain_buffer 2 80 40),
        Action.push_buffer (plain_buffer 3 120 40)] := by
  decide

/-- C9, the code at the failing input.  Scenario S2: A is the active input, the controller
blocks and calls `switch(B, -1, -1)`, which makes B the active input and leaves B's `discont`
mark clear; B80, the first buffer forwarded from B after the switch, is pushed without
DISCONT, and so is B120. -/
theorem s2_first_buffer_after_switch_without_discont :
    s2_blocked.active_sinkpad = some 0 ∧ s2_switched.active_sinkpad = some 1 ∧
    (s2_blocked.pads 1).discont = false ∧ (s2_switched.pads 1).discont = false ∧
    pushed_buffers s2_after_block.2 = [plain_buffer 2 80 40, plain_buffer 3 120 40] ∧
    (plain_buffer 2 80 40).discont = false := by
  decide

/-- What the code does with the `discont` mark of an input.  (1) A chain call that
returns with the input not being the active one (and not as flushing) has dropped its
buffer and leaves the input's `discont` mark set.  (2) The mark of an input is kept by
every block, switch, event and buffer on any input, except a buffer on the input itself
and a flush-stop on it.  (3) A chain call on the active input that forwards its buffer
without replaying the cache pushes it with DISCONT exactly when the mark is set (or the
buffer came with the flag), and clears the mark.  (4) In scenario S2, where B never had a
buffer dropped, B80 and B120 are pushed without DISCONT. -/
theorem discont_follows_drops (L : GstLib) (env : Env) :
    (∀ fuel sel pad buf x,
      (gst_selector_pad_chain L env fuel sel pad buf).outcome = Outcome.returned x →
      x ≠ GstFlowReturn.WRONG_STATE →
      (gst_selector_pad_chain L env fuel sel pad buf).sel.active_sinkpad ≠ some pad →
      ((gst_selector_pad_chain L env fuel sel pad buf).sel.pads pad).discont = true) ∧
    (∀ fuel sel op p, op ≠ Op.event p GstEvent.FLUSH_STOP → (∀ buf, op ≠ Op.chain p buf) →
      ((step L env fuel sel op).1.pads p).discont = (sel.pads p).discont) ∧
    (∀ fuel sel pad buf, sel.flushing = false →
      (sel.blocked = false ∨ (sel.pads pad).flushing = true) →
      (sel.active_sinkpad = some pad ∨ sel.active_sinkpad = none) →
      (sel.sync_streams = false ∨ (sel.pads pad).pushed = true ∨
        (sel.pads pad).cached_buffers = none ∨
        (sel.pads pad).sending_cached_buffers = true) →
      pushed_buffers (gst_selector_pad_chain L env (fuel + 1) sel pad buf).trace =
        [stamp_discont (sel.pads pad).discont buf] ∧
      ((gst_selector_pad_chain L env (fuel + 1) sel pad buf).sel.pads pad).discont = false) ∧
    pushed_buffers s2_after_block.2 = [plain_buffer 2 80 40, plain_buffer 3 120 40] := by
  refine ⟨?_, ?_, ?_, by decide⟩
  · intro fuel sel pad buf x h1 h2 h3
    exact chain_drop_discont L env fuel sel pad buf x h1 h2 h3
  · intro fuel sel op p h1 h2
    exact step_discont L env fuel sel op p h1 h2
  · intro fuel sel pad buf hf hb ha hr
    obtain ⟨s1, n, heq, h1, h2, h3, h4, h5⟩ :=
      chain_no_replay L env fuel sel pad buf hf hb ha hr
    rw [heq]
    refine ⟨?_, chain_forward_discont L env s1 pad buf n⟩
    show pushed_buffers (chain_forward L env s1 pad buf n).2 = _
    rw [chain_forward_pushed_buffers, h5]

/-- An instance: in the state where B had a buffer dropped, the switch to B keeps B's mark
and B's next buffer is pushed with DISCONT. -/
theorem discont_follows_drops_witness :
    (behind_state.pads 1).discont = true ∧
    ((step spec_lib quiet_env 1 behind_state (Op.switch (some 1) (-1) (-1))).1.pads 1).discont =
      (behind_state.pads 1).discont ∧
    pushed_buffers (gst_selector_pad_chain spec_lib quiet_env 1
        (gst_input_selector_switch spec_lib behind_state (some 1) (-1) (-1)).1 1
        (plain_buffer 3 80 40)).trace =
      [{ plain_buffer 3 80 40 with discont := true }] :=
  ⟨by decide,
    (discont_follows_drops spec_lib quiet_env).2.1 1 behind_state (Op.switch (some 1) (-1) (-1)) 1
      (by decide) (by intro buf h; cases h),
    (((discont_follows_drops spec_lib quiet_env).2.2.1 0
      (gst_input_selector_switch spec_lib behind_state (some 1) (-1) (-1)).1 1
      (plain_buffer 3 80 40) (by decide) (Or.inl (by decide)) (Or.inl (by decide))
      (Or.inl (by decide))).1).trans (by decide)⟩

/-- With the selector itself flushing, a chain call drops its buffer: it leaves the state
as it is, pushes nothing and returns the flushing status. -/
theorem chain_selector_flushing (L : GstLib) (env : Env) (fuel : Nat) (sel : GstInputSelector)
    (pad : PadId) (buf : GstBuffer) (hf : sel.flushing = true) :
    (gst_selector_pad_chain L env (fuel + 1) sel pad buf).sel = sel ∧
    (gst_selector_pad_chain L env (fuel + 1) sel pad buf).trace = [] ∧
    (gst_selector_pad_chain L env (fuel + 1) sel pad buf).outcome =
      Outcome.returned GstFlowReturn.WRONG_STATE := by
  have hbody : gst_selector_pad_chain L env (fuel + 1) sel pad buf =
      chain_body L env (gst_selector_pad_chain L env fuel) fuel sel pad buf := rfl
  have hw : gst_input_selector_wait sel (sel.pads pad) = some true := by
    unfold gst_input_selector_wait
    simp [hf]
  rw [hbody]
  unfold chain_body
  rw [hw]
  exact ⟨rfl, rfl, rfl⟩

/-- C10, the code at the failing input.  The active input A has received a flush-start and
no flush-stop, the selector itself is not flushing: a chain call on A pushes its buffer
downstream and returns what downstream answered, not the flushing status. -/
theorem chain_on_flushing_pad_forwards :
    (flushing_pad_state.pads 0).flushing = true ∧ flushing_pad_state.flushing = false ∧
    flushing_pad_state.active_sinkpad = some 0 ∧
    (gst_selector_pad_chain spec_lib quiet_env 1 flushing_pad_state 0
        (plain_buffer 1 40 40)).outcome = Outcome.returned GstFlowReturn.OK ∧
    downstream (gst_selector_pad_chain spec_lib quiet_env 1 flushing_pad_state 0
        (plain_buffer 1 40 40)).trace = [Action.push_buffer (plain_buffer 1 40 40)] := by
  decide

/-! ### The pruner, entry by entry -/

theorem cleanup_queue_cons (L : GstLib) (seg : GstSegment) (cur : Int)
    (acc : List GstSelectorPadCachedBuffer) (c : GstSelectorPadCachedBuffer)
    (rest : List GstSelectorPadCachedBuffer) :
    cleanup_queue L seg cur acc (c :: rest) =
      if c.has_timestamp = false then cleanup_queue L seg cur (acc ++ [c]) rest
      else if not_behind L seg cur c then acc ++ c :: rest
      else cleanup_queue L seg cur [] rest := by
  rw [cleanup_queue]
  unfold GstSelectorPadCachedBuffer.has_timestamp not_behind
  by_cases h : GST_CLOCK_TIME_IS_VALID c.buffer.timestamp = true
  · simp [h]
  · simp [h]

/-- The pruner keeps the last entry of a queue when that entry has no timestamp or is not
behind the reference. -/
theorem cleanup_queue_keeps_last (L : GstLib) (seg : GstSegment) (cur : Int)
    (x : GstSelectorPadCachedBuffer) (hx : x.has_timestamp = true → not_behind L seg cur x) :
    ∀ (q acc : List GstSelectorPadCachedBuffer),
      ∃ q1, cleanup_queue L seg cur acc (q ++ [x]) = q1 ++ [x] ∧ q1.Sublist (acc ++ q) := by
  intro q
  induction q with
  | nil =>
    intro acc
    rw [List.nil_append, cleanup_queue_cons]
    by_cases h1 : x.has_timestamp = false
    · rw [if_pos h1]
      exact ⟨acc, by simp [cleanup_queue], by simp⟩
    · rw [if_neg h1, if_pos (hx (by simpa using h1))]
      exact ⟨acc, rfl, by simp⟩
  | cons c rest ih =>
    intro acc
    rw [List.cons_append, cleanup_queue_cons]
    by_cases h1 : c.has_timestamp = false
    · rw [if_pos h1]
      obtain ⟨q1, h2, h3⟩ := ih (acc ++ [c])
      exact ⟨q1, h2, by simpa using h3⟩
    · rw [if_neg h1]
      by_cases h2 : not_behind L seg cur c
      · rw [if_pos h2]
        exact ⟨acc ++ c :: rest, by simp, List.Sublist.refl _⟩
      · rw [if_neg h2]
        obtain ⟨q1, h3, h4⟩ := ih []
        refine ⟨q1, h3, ?_⟩
        rw [List.nil_append] at h4
        exact h4.trans ((List.sublist_cons_self c rest).trans (List.sublist_append_right acc _))

theorem cleanup_pad_ends_with (L : GstLib) (cur : Int) (seg : GstSegment)
    (x : GstSelectorPadCachedBuffer) (q0 : List GstSelectorPadCachedBuffer)
    (hx : x.has_timestamp = true → not_behind L seg cur x) (p : GstSelectorPad)
    (h : ends_with seg x q0 p) : ends_with seg x q0 (cleanup_pad L cur p) := by
  obtain ⟨hs, q1, hq, hsub⟩ := h
  obtain ⟨q2, h2, h3⟩ := cleanup_queue_keeps_last L seg cur x hx q1 []
  refine ⟨?_, q2, ?_, ?_⟩
  · unfold cleanup_pad
    rw [hq]
    exact hs
  · unfold cleanup_pad
    rw [hq]
    dsimp only
    rw [hs, h2]
    simp
  · rw [List.nil_append] at h3
    exact h3.trans hsub

theorem foldl_modify_pad_inv (f : GstSelectorPad → GstSelectorPad) (P : GstSelectorPad → Prop)
    (hP : ∀ x, P x → P (f x)) (p : PadId) :
    ∀ (l : List PadId) (s : GstInputSelector), P (s.pads p) →
      P ((l.foldl (fun s p => s.modify_pad p f) s).pads p) := by
  intro l
  induction l with
  | nil => intro s h; exact h
  | cons a l ih =>
    intro s h
    simp only [List.foldl_cons]
    apply ih
    rw [modify_pad_pads]
    split_ifs with hq
    · rw [← hq]; exact hP _ h
    · exact h

theorem foldl_modify_pad_sync_mode (f : GstSelectorPad → GstSelectorPad) :
    ∀ (l : List PadId) (s : GstInputSelector),
      (l.foldl (fun s p => s.modify_pad p f) s).sync_mode = s.sync_mode ∧
      (l.foldl (fun s p => s.modify_pad p f) s).sinkpads = s.sinkpads := by
  intro l
  induction l with
  | nil => intro s; exact ⟨rfl, rfl⟩
  | cons a l ih =>
    intro s
    simp only [List.foldl_cons]
    have := ih (s.modify_pad a f)
    simpa using this

/-- The pruner leaves the selector's own fields alone. -/
theorem cleanup_fields (L : GstLib) (env : Env) (s : GstInputSelector) (pad : PadId) :
    (gst_input_selector_cleanup_old_cached_buffers L env s pad).flushing = s.flushing ∧
    (gst_input_selector_cleanup_old_cached_buffers L env s pad).blocked = s.blocked ∧
    (gst_input_selector_cleanup_old_cached_buffers L env s pad).sync_streams = s.sync_streams ∧
    (gst_input_selector_cleanup_old_cached_buffers L env s pad).cache_buffers =
      s.cache_buffers ∧
    (gst_input_selector_cleanup_old_cached_buffers L env s pad).sync_mode = s.sync_mode ∧
    (gst_input_selector_cleanup_old_cached_buffers L env s pad).sinkpads = s.sinkpads := by
  unfold gst_input_selector_cleanup_old_cached_buffers
  dsimp only
  split_ifs <;>
    simp [(foldl_modify_pad_frame _ _ _).2.2.2.1, (foldl_modify_pad_frame _ _ _).2.2.2.2.1,
      (foldl_modify_pad_frame _ _ _).2.2.2.2.2.1, (foldl_modify_pad_frame _ _ _).2.2.2.2.2.2,
      (foldl_modify_pad_sync_mode _ _ _).1, (foldl_modify_pad_sync_mode _ _ _).2]

/-- The pruner, in terms of the reference running time. -/
theorem cleanup_eq (L : GstLib) (env : Env) (sel : GstInputSelector) (pad : PadId) :
    ∃ s0 : GstInputSelector, s0.sinkpads = sel.sinkpads ∧
      (∀ p, (s0.pads p).segment = (sel.pads p).segment ∧
        (s0.pads p).cached_buffers = (sel.pads p).cached_buffers) ∧
      gst_input_selector_cleanup_old_cached_buffers L env sel pad =
        (if reference_running_time L env sel (sel.active_sinkpad.getD pad) = -1 then s0
         else s0.sinkpads.foldl (fun s p => s.modify_pad p (cleanup_pad L
           (reference_running_time L env sel (sel.active_sinkpad.getD pad)))) s0) := by
  have hv : ∀ t : Int, GST_CLOCK_TIME_IS_VALID t = true ↔ ¬ t = -1 := by
    intro t; simp [GST_CLOCK_TIME_IS_VALID, GST_CLOCK_TIME_NONE]
  have hact : ∀ p, ((gst_input_selector_activate_sinkpad sel pad).1.pads p).segment =
        (sel.pads p).segment ∧
      ((gst_input_selector_activate_sinkpad sel pad).1.pads p).cached_buffers =
        (sel.pads p).cached_buffers := by
    intro p
    rw [activate_pads]
    split_ifs with h
    · rw [h]; exact ⟨rfl, rfl⟩
    · exact ⟨rfl, rfl⟩
  unfold gst_input_selector_cleanup_old_cached_buffers reference_running_time segment_reference
  by_cases hm : sel.sync_mode = GstInputSelectorSyncMode.CLOCK
  · refine ⟨sel, rfl, fun p => ⟨rfl, rfl⟩, ?_⟩
    simp only [hm, if_true, hv, not_not]
  · refine ⟨(gst_input_selector_activate_sinkpad sel pad).1, activate_sinkpads sel pad, hact, ?_⟩
    simp only [hm, if_false, activate_snd, (hact _).1, hv, not_not]
    by_cases hf : (sel.pads (sel.active_sinkpad.getD pad)).segment.format = GstFormat.TIME
    · simp only [hf, if_true]
    · simp only [hf, if_false, GST_CLOCK_TIME_NONE, if_true]

/-- The pruner keeps the last entry of a pad's queue when that entry has no timestamp, or the
reference is unknown, or the entry is not behind the reference. -/
theorem cleanup_keeps_tail (L : GstLib) (env : Env) (s : GstInputSelector) (pad p : PadId)
    (x : GstSelectorPadCachedBuffer) (q0 : List GstSelectorPadCachedBuffer)
    (hq : (s.pads p).cached_buffers = some (q0 ++ [x]))
    (hx : x.has_timestamp = true →
      reference_running_time L env s (s.active_sinkpad.getD pad) ≠ -1 →
      not_behind L (s.pads p).segment
        (reference_running_time L env s (s.active_sinkpad.getD pad)) x) :
    ends_with (s.pads p).segment x q0
      ((gst_input_selector_cleanup_old_cached_buffers L env s pad).pads p) := by
  obtain ⟨s0, _, hpads, heq⟩ := cleanup_eq L env s pad
  have h0 : ends_with (s.pads p).segment x q0 (s0.pads p) :=
    ⟨(hpads p).1, q0, by rw [(hpads p).2, hq], List.Sublist.refl _⟩
  rw [heq]
  by_cases href : reference_running_time L env s (s.active_sinkpad.getD pad) = -1
  · rw [if_pos href]; exact h0
  · rw [if_neg href]
    exact foldl_modify_pad_inv _ _
      (fun y hy => cleanup_pad_ends_with L _ _ x q0 (fun ht => hx ht href) y hy) p _ s0 h0

theorem cache_buffer_fields (x : GstSelectorPad) (b : GstBuffer) :
    (gst_selector_pad_cache_buffer x b).flushing = x.flushing ∧
    (gst_selector_pad_cache_buffer x b).sending_cached_buffers = x.sending_cached_buffers ∧
    (gst_selector_pad_cache_buffer x b).segment = x.segment ∧
    (gst_selector_pad_cache_buffer x b).cached_buffers =
      (if x.segment.format = GstFormat.TIME then
        some (x.cached_buffers.getD [] ++ [⟨b, x.segment, x.segment_update⟩])
      else x.cached_buffers) := by
  unfold gst_selector_pad_cache_buffer gst_selector_pad_new_cached_buffer
  by_cases h : x.segment.format = GstFormat.TIME
  · simp [h]
  · simp [h]

theorem cleanup_queue_sublist (L : GstLib) (seg : GstSegment) (cur : Int) :
    ∀ (q acc : List GstSelectorPadCachedBuffer),
      (cleanup_queue L seg cur acc q).Sublist (acc ++ q) := by
  intro q
  induction q with
  | nil => intro acc; simp [cleanup_queue]
  | cons c rest ih =>
    intro acc
    rw [cleanup_queue_cons]
    by_cases h1 : c.has_timestamp = false
    · rw [if_pos h1]
      have := ih (acc ++ [c])
      simpa using this
    · rw [if_neg h1]
      by_cases h2 : not_behind L seg cur c
      · rw [if_pos h2]
      · rw [if_neg h2]
        have := ih []
        simp only [List.nil_append] at this
        exact this.trans ((List.sublist_cons_self c rest).trans
          (List.sublist_append_right acc _))

theorem cleanup_queue_first (L : GstLib) (seg : GstSegment) (cur : Int) :
    ∀ (q acc : List GstSelectorPadCachedBuffer),
      (∀ x ∈ acc, x.has_timestamp = false) → ∀ e,
      (cleanup_queue L seg cur acc q).find? (fun x => x.has_timestamp) = some e →
      not_behind L seg cur e := by
  intro q
  induction q with
  | nil =>
    intro acc hacc e he
    simp only [cleanup_queue] at he
    have := List.find?_some he
    have hm := List.mem_of_find?_eq_some he
    rw [hacc e hm] at this
    cases this
  | cons c rest ih =>
    intro acc hacc e he
    rw [cleanup_queue_cons] at he
    by_cases h1 : c.has_timestamp = false
    · rw [if_pos h1] at he
      apply ih (acc ++ [c]) _ e he
      intro x hx
      rcases List.mem_append.1 hx with hm | hm
      · exact hacc x hm
      · rw [List.mem_singleton.1 hm]
        exact h1
    · rw [if_neg h1] at he
      have hc : c.has_timestamp = true := by simpa using h1
      by_cases h2 : not_behind L seg cur c
      · rw [if_pos h2] at he
        have hnone : acc.find? (fun x => x.has_timestamp) = none := by
          rw [List.find?_eq_none]
          intro x hx
          rw [hacc x hx]
          simp
        rw [List.find?_append, hnone, List.find?_cons_of_pos _ hc] at he
        simp only [Option.none_or, Option.some.injEq] at he
        rw [← he]
        exact h2
      · rw [if_neg h2] at he
        exact ih [] (fun x hx => by cases hx) e he

theorem cleanup_queue_all (L : GstLib) (seg : GstSegment) (cur : Int) :
    ∀ (q acc : List GstSelectorPadCachedBuffer),
      (∀ x ∈ acc, x.has_timestamp = false) →
      q.Pairwise (fun x y => x.has_timestamp = true → y.has_timestamp = true →
        u64 (buffer_end_running_time L seg x.buffer) ≤
          u64 (buffer_end_running_time L seg y.buffer)) →
      ∀ e ∈ cleanup_queue L seg cur acc q, e.has_timestamp = true → not_behind L seg cur e := by
  intro q
  induction q with
  | nil =>
    intro acc hacc _ e he ht
    simp only [cleanup_queue] at he
    rw [hacc e he] at ht
    cases ht
  | cons c rest ih =>
    intro acc hacc hp e he ht
    rw [List.pairwise_cons] at hp
    rw [cleanup_queue_cons] at he
    by_cases h1 : c.has_timestamp = false
    · rw [if_pos h1] at he
      apply ih (acc ++ [c]) _ hp.2 e he ht
      intro x hx
      rcases List.mem_append.1 hx with hm | hm
      · exact hacc x hm
      · rw [List.mem_singleton.1 hm]
        exact h1
    · rw [if_neg h1] at he
      have hc : c.has_timestamp = true := by simpa using h1
      by_cases h2 : not_behind L seg cur c
      · rw [if_pos h2] at he
        rcases List.mem_append.1 he with hm | hm
        · rw [hacc e hm] at ht
          cases ht
        · rcases List.mem_cons.1 hm with hm | hm
          · rw [hm]; exact h2
          · have := hp.1 e hm hc ht
            unfold not_behind at h2 ⊢
            omega
      · rw [if_neg h2] at he
        exact ih [] (fun x hx => by cases hx) hp.2 e he ht

theorem cleanup_pad_segment (L : GstLib) (cur : Int) (x : GstSelectorPad) :
    (cleanup_pad L cur x).segment = x.segment :=
  cleanup_pad_keeps (fun x => x.segment) (fun _ _ => rfl) L cur x

theorem cleanup_pad_cache (L : GstLib) (cur : Int) (x : GstSelectorPad)
    (q : List GstSelectorPadCachedBuffer) (h : (cleanup_pad L cur x).cached_buffers = some q) :
    ∃ q0, x.cached_buffers = some q0 ∧ q = cleanup_queue L x.segment cur [] q0 := by
  unfold cleanup_pad at h
  split at h
  · rename_i hn
    rw [hn] at h; cases h
  · rename_i q0 hq0
    refine ⟨q0, hq0, ?_⟩
    dsimp only at h
    split_ifs at h
    simp only [Option.some.injEq] at h
    exact h.symm

theorem cleanup_pad_pruned (L : GstLib) (cur : Int) (x : GstSelectorPad) :
    pruned_against L cur (time_ordered L x) (cleanup_pad L cur x) := by
  intro q hq
  obtain ⟨q0, hq0, he⟩ := cleanup_pad_cache L cur x q hq
  rw [cleanup_pad_segment, he]
  refine ⟨fun e h => cleanup_queue_first L x.segment cur q0 [] (fun y hy => by cases hy) e h, ?_⟩
  intro ho e hm ht
  exact cleanup_queue_all L x.segment cur q0 [] (fun y hy => by cases hy) (ho q0 hq0) e hm ht

theorem cleanup_pad_ordered (L : GstLib) (cur : Int) (x : GstSelectorPad)
    (h : time_ordered L x) : time_ordered L (cleanup_pad L cur x) := by
  intro q hq
  obtain ⟨q0, hq0, he⟩ := cleanup_pad_cache L cur x q hq
  rw [cleanup_pad_segment, he]
  have hs := cleanup_queue_sublist L x.segment cur q0 []
  rw [List.nil_append] at hs
  exact (h q0 hq0).sublist hs

theorem foldl_modify_pad_notin (f : GstSelectorPad → GstSelectorPad) (p : PadId) :
    ∀ (l : List PadId) (s : GstInputSelector), p ∉ l →
      (l.foldl (fun s p => s.modify_pad p f) s).pads p = s.pads p := by
  intro l
  induction l with
  | nil => intro s _; rfl
  | cons a l ih =>
    intro s hp
    simp only [List.foldl_cons]
    rw [ih _ (fun h => hp (List.mem_cons_of_mem _ h))]
    exact modify_pad_pads_ne _ _ _ _ (fun h => hp (by rw [h]; exact List.mem_cons_self _ _))

theorem foldl_cleanup_pruned (L : GstLib) (cur : Int) (seg : GstSegment) (ordered : Prop)
    (p : PadId) :
    ∀ (l : List PadId) (s : GstInputSelector), p ∈ l →
      (s.pads p).segment = seg → (ordered → time_ordered L (s.pads p)) →
      ((l.foldl (fun s p => s.modify_pad p (cleanup_pad L cur)) s).pads p).segment = seg ∧
      pruned_against L cur ordered
        ((l.foldl (fun s p => s.modify_pad p (cleanup_pad L cur)) s).pads p) := by
  intro l
  induction l with
  | nil => intro s hp; cases hp
  | cons a l ih =>
    intro s hp hseg hord
    simp only [List.foldl_cons]
    by_cases hl : p ∈ l
    · apply ih _ hl
      · rw [modify_pad_pads]
        split_ifs with h
        · rw [cleanup_pad_segment, ← h, hseg]
        · exact hseg
      · intro ho
        rw [modify_pad_pads]
        split_ifs with h
        · have := cleanup_pad_ordered L cur (s.pads p) (hord ho)
          rw [h] at this
          exact this
        · exact hord ho
    · have hpa : p = a := by
        rcases List.mem_cons.1 hp with h | h
        · exact h
        · exact absurd h hl
      rw [foldl_modify_pad_notin _ p l _ hl, ← hpa, modify_pad_pads_same]
      refine ⟨by rw [cleanup_pad_segment, hseg], ?_⟩
      intro q hq
      have := cleanup_pad_pruned L cur (s.pads p) q hq
      exact ⟨this.1, fun ho => this.2 (hord ho)⟩

/-! ### The forwarding block and the cache -/

/-- The forwarding block, split at the point where the lock is taken again (line 1194):
`s4` is the state and `b1` the buffer as pushed at that point. -/
theorem chain_forward_stages (L : GstLib) (env : Env) (s : GstInputSelector) (pad : PadId)
    (buf : GstBuffer) (n : Bool) :
    ∃ (s4 : GstInputSelector) (b1 : GstBuffer),
      (chain_forward L env s pad buf n).1 =
        (if s4.sync_streams = true ∧ s4.cache_buffers = true then
          gst_input_selector_cleanup_old_cached_buffers L env
            ((if (gst_input_selector_activate_sinkpad s4 pad).2 = pad then
                (gst_input_selector_activate_sinkpad s4 pad).1.modify_pad pad
                  (fun p => { p with pushed := true })
              else (gst_input_selector_activate_sinkpad s4 pad).1).modify_pad pad
              (fun p => gst_selector_pad_cache_buffer p b1)) pad
        else s4.modify_pad pad (fun p => { p with pushed := true })) ∧
      b1 = stamp_discont (s.pads pad).discont buf ∧
      s4.flushing = s.flushing ∧ s4.blocked = s.blocked ∧ s4.sync_streams = s.sync_streams ∧
      s4.cache_buffers = s.cache_buffers ∧ s4.sync_mode = s.sync_mode ∧
      s4.active_sinkpad = s.active_sinkpad ∧
      (s4.pads pad).flushing = (s.pads pad).flushing ∧
      (s4.pads pad).sending_cached_buffers = (s.pads pad).sending_cached_buffers ∧
      (s4.pads pad).segment = (s.pads pad).segment ∧
      (s4.pads pad).segment_update = (s.pads pad).segment_update ∧
      (s4.pads pad).cached_buffers = (s.pads pad).cached_buffers := by
  unfold chain_forward
  refine ⟨_, _, rfl, ?_⟩
  dsimp only
  unfold stamp_discont
  split_ifs <;> (try split) <;> (try split_ifs) <;> first | (simp; done) | simp_all

/-- With sync-streams and caching on, the forwarding block ends with the pruner, run on a
state in which the pad's queue has the forwarded buffer at its tail if the pad's segment is
in `TIME` format, and is as before if not. -/
theorem chain_forward_caching (L : GstLib) (env : Env) (s : GstInputSelector) (pad : PadId)
    (buf : GstBuffer) (n : Bool) (hs : s.sync_streams = true) (hc : s.cache_buffers = true) :
    ∃ s2, (chain_forward L env s pad buf n).1 =
        gst_input_selector_cleanup_old_cached_buffers L env s2 pad ∧
      s2.flushing = s.flushing ∧ s2.blocked = s.blocked ∧ s2.sync_streams = s.sync_streams ∧
      s2.cache_buffers = s.cache_buffers ∧ s2.sync_mode = s.sync_mode ∧
      s2.active_sinkpad = some (s.active_sinkpad.getD pad) ∧
      (s2.pads pad).flushing = (s.pads pad).flushing ∧
      (s2.pads pad).sending_cached_buffers = (s.pads pad).sending_cached_buffers ∧
      (s2.pads pad).segment = (s.pads pad).segment ∧
      (s2.pads pad).cached_buffers =
        (if (s.pads pad).segment.format = GstFormat.TIME then
          some ((s.pads pad).cached_buffers.getD [] ++
            [⟨stamp_discont (s.pads pad).discont buf, (s.pads pad).segment,
              (s.pads pad).segment_update⟩])
        else (s.pads pad).cached_buffers) := by
  obtain ⟨s4, b1, heq, hb1, h1, h2, h3, h4, h5, h6, h7, h8, h9, h10, h11⟩ :=
    chain_forward_stages L env s pad buf n
  rw [heq, if_pos ⟨h3.trans hs, h4.trans hc⟩]
  refine ⟨_, rfl, ?_⟩
  have hcb := cache_buffer_fields
  by_cases ha : (gst_input_selector_activate_sinkpad s4 pad).2 = pad
  · simp only [ha, if_true, modify_pad_flushing, modify_pad_blocked, modify_pad_sync_streams,
      modify_pad_cache_buffers, modify_pad_sync_mode, modify_pad_active_sinkpad,
      activate_flushing, activate_blocked, activate_sync_streams, activate_cache_buffers,
      activate_sync_mode, activate_active_sinkpad, modify_pad_pads_same, activate_pads_same,
      hcb, h1, h2, h3, h4, h5, h6, h7, h8, h9, h10, h11, hb1, and_self]
  · simp only [ha, if_false, modify_pad_flushing, modify_pad_blocked, modify_pad_sync_streams,
      modify_pad_cache_buffers, modify_pad_sync_mode, modify_pad_active_sinkpad,
      activate_flushing, activate_blocked, activate_sync_streams, activate_cache_buffers,
      activate_sync_mode, activate_active_sinkpad, modify_pad_pads_same, activate_pads_same,
      hcb, h1, h2, h3, h4, h5, h6, h7, h8, h9, h10, h11, hb1, and_self]

/-- A chain call on the active pad that does not replay is the forwarding block run on the
state after activation and the update of `last_stop`; the selector's own fields are as
before. -/
theorem chain_no_replay_fields (L : GstLib) (env : Env) (fuel : Nat) (sel : GstInputSelector)
    (pad : PadId) (buf : GstBuffer)
    (hf : sel.flushing = false)
    (hb : sel.blocked = false ∨ (sel.pads pad).flushing = true)
    (ha : sel.active_sinkpad = some pad ∨ sel.active_sinkpad = none)
    (hr : sel.sync_streams = false ∨ (sel.pads pad).pushed = true ∨
      (sel.pads pad).cached_buffers = none ∨ (sel.pads pad).sending_cached_buffers = true) :
    ∃ s1 n, gst_selector_pad_chain L env (fuel + 1) sel pad buf =
        ⟨(chain_forward L env s1 pad buf n).1, (chain_forward L env s1 pad buf n).2,
          Outcome.returned env.push_result⟩ ∧
      s1.flushing = sel.flushing ∧ s1.blocked = sel.blocked ∧
      s1.sync_streams = sel.sync_streams ∧ s1.cache_buffers = sel.cache_buffers ∧
      s1.sync_mode = sel.sync_mode ∧ s1.active_sinkpad = some pad ∧
      s1.pads pad =
        { sel.pads pad with
          active := true
          segment :=
            if GST_CLOCK_TIME_IS_VALID buf.timestamp = true then
              L.gst_segment_set_last_stop (sel.pads pad).segment (sel.pads pad).segment.format
                buf.timestamp
            else (sel.pads pad).segment } := by
  have hgd : sel.active_sinkpad.getD pad = pad := by
    rcases ha with h | h <;> simp [h]
  have ha1 : (gst_input_selector_activate_sinkpad sel pad).1.active_sinkpad = some pad := by
    rw [activate_active_sinkpad, hgd]
  have hr1 : (gst_input_selector_activate_sinkpad sel pad).1.sync_streams = false ∨
      ((gst_input_selector_activate_sinkpad sel pad).1.pads pad).pushed = true ∨
      ((gst_input_selector_activate_sinkpad sel pad).1.pads pad).cached_buffers = none ∨
      ((gst_input_selector_activate_sinkpad sel pad).1.pads pad).sending_cached_buffers =
        true := by
    simpa using hr
  have hsy := chain_sync_no_replay L env (gst_selector_pad_chain L env fuel) fuel
    (gst_input_selector_activate_sinkpad sel pad).1 pad buf ha1 hr1
  have hbody : gst_selector_pad_chain L env (fuel + 1) sel pad buf =
      chain_body L env (gst_selector_pad_chain L env fuel) fuel sel pad buf := rfl
  rw [hbody]
  unfold chain_body
  rw [wait_not_blocked sel _ hf hb]
  dsimp only
  rw [activate_snd, hgd]
  rcases hsy with hsy | hsy <;> rw [hsy] <;> dsimp only <;>
    simp only [ne_eq, not_true_eq_false, if_false, List.nil_append] <;>
    refine ⟨_, _, rfl, ?_⟩ <;>
    by_cases hv : GST_CLOCK_TIME_IS_VALID buf.timestamp = true <;>
    simp [hv, hgd]

/-! ### A chain call on a pad that is not the active one -/

theorem inactive_frame_refl (pad a : PadId) (s : GstInputSelector)
    (h : s.active_sinkpad = some a) : inactive_frame pad a s s :=
  ⟨h, rfl, rfl, rfl⟩

theorem inactive_frame_trans (pad a : PadId) (s s1 s2 : GstInputSelector)
    (h1 : inactive_frame pad a s s1) (h2 : inactive_frame pad a s1 s2) :
    inactive_frame pad a s s2 :=
  ⟨h2.1, h2.2.1.trans h1.2.1, h2.2.2.1.trans h1.2.2.1, h2.2.2.2.trans h1.2.2.2⟩

theorem inactive_frame_modify (pad a : PadId) (hne : a ≠ pad) (s s1 : GstInputSelector)
    (f : GstSelectorPad → GstSelectorPad) (hf : ∀ x, chain_fixed (f x) = chain_fixed x)
    (h : inactive_frame pad a s s1) : inactive_frame pad a s (s1.modify_pad pad f) := by
  obtain ⟨h1, h2, h3, h4⟩ := h
  refine ⟨h1, h2, ?_, ?_⟩
  · rw [modify_pad_pads_same, hf, h3]
  · rw [modify_pad_pads_ne _ _ _ _ hne, h4]

theorem inactive_frame_activate (pad a : PadId) (hne : a ≠ pad) (s s1 : GstInputSelector)
    (h : inactive_frame pad a s s1) :
    inactive_frame pad a s (gst_input_selector_activate_sinkpad s1 pad).1 := by
  obtain ⟨h1, h2, h3, h4⟩ := h
  refine ⟨?_, ?_, ?_, ?_⟩
  · rw [activate_active_sinkpad, h1]; rfl
  · rw [activate_flushing, h2]
  · rw [activate_pads_same]; exact h3
  · rw [activate_pads_ne _ _ _ hne, h4]

theorem replay_inactive (pad a : PadId) (hne : a ≠ pad)
    (chain : GstInputSelector → PadId → GstBuffer → ChainResult)
    (hc : ∀ s b, s.active_sinkpad = some a →
      inactive_frame pad a s (chain s pad b).sel ∧ (chain s pad b).trace = []) :
    ∀ fuel s, s.active_sinkpad = some a →
      inactive_frame pad a s (replay_cached_buffers chain pad fuel s).1 ∧
      (replay_cached_buffers chain pad fuel s).2.1 = [] := by
  intro fuel
  induction fuel with
  | zero => intro s h; exact ⟨inactive_frame_refl pad a s h, rfl⟩
  | succ n ih =>
    intro s h
    have hm : ∀ (c : GstSelectorPadCachedBuffer) (rest : List GstSelectorPadCachedBuffer),
        inactive_frame pad a s (s.modify_pad pad (fun p =>
          { p with
            cached_buffers := some rest
            segment := c.segment
            segment_update := c.segment_update
            segment_pending := true })) :=
      fun c rest => inactive_frame_modify pad a hne s s _ (fun _ => rfl)
        (inactive_frame_refl pad a s h)
    unfold replay_cached_buffers
    split_ifs with h1
    · exact ⟨inactive_frame_refl pad a s h, rfl⟩
    · split
      · exact ⟨inactive_frame_refl pad a s h, rfl⟩
      · exact ⟨inactive_frame_refl pad a s h, rfl⟩
      · rename_i c rest hq
        have hr := hc _ c.buffer (hm c rest).1
        have hfr := inactive_frame_trans pad a _ _ _ (hm c rest) hr.1
        dsimp only
        split
        · split_ifs
          · exact ⟨hfr, hr.2⟩
          · have h2 := ih _ hr.1.1
            refine ⟨inactive_frame_trans pad a _ _ _ hfr h2.1, ?_⟩
            rw [hr.2, h2.2]; rfl
        · exact ⟨hfr, hr.2⟩
        · exact ⟨hfr, hr.2⟩

theorem chain_replay_inactive (pad a : PadId) (hne : a ≠ pad)
    (chain : GstInputSelector → PadId → GstBuffer → ChainResult)
    (hc : ∀ s b, s.active_sinkpad = some a →
      inactive_frame pad a s (chain s pad b).sel ∧ (chain s pad b).trace = [])
    (fuel : Nat) (s : GstInputSelector) (h : s.active_sinkpad = some a) :
    inactive_frame pad a s (chain_replay chain fuel s pad a).1 ∧
    (chain_replay chain fuel s pad a).2.1 = [] ∧
    ∀ x, (chain_replay chain fuel s pad a).2.2 = Outcome.returned x → x = a := by
  have hm : inactive_frame pad a s
      (s.modify_pad pad (fun p => { p with sending_cached_buffers := true })) :=
    inactive_frame_modify pad a hne s s _ (fun _ => rfl) (inactive_frame_refl pad a s h)
  have hr := replay_inactive pad a hne chain hc fuel _ hm.1
  have hfr := inactive_frame_trans pad a _ _ _ hm hr.1
  unfold chain_replay
  split_ifs with hcnd
  · dsimp only
    split
    · refine ⟨inactive_frame_activate pad a hne _ _
        (inactive_frame_modify pad a hne _ _ _ (fun _ => rfl) hfr), hr.2, ?_⟩
      intro x hx
      simp only [Outcome.returned.injEq] at hx
      rw [← hx, activate_snd, modify_pad_active_sinkpad, hfr.1]
      rfl
    · refine ⟨hfr, hr.2, ?_⟩
      intro x hx; cases hx
    · refine ⟨hfr, hr.2, ?_⟩
      intro x hx; cases hx
  · refine ⟨inactive_frame_refl pad a s h, rfl, ?_⟩
    intro x hx
    simp only [Outcome.returned.injEq] at hx
    exact hx.symm

theorem wait_running_time_inactive (L : GstLib) (env : Env) (pad a : PadId) (hne : a ≠ pad)
    (s : GstInputSelector) (buf : GstBuffer) (h : s.active_sinkpad = some a) :
    inactive_frame pad a s (gst_input_selector_wait_running_time L env s pad buf).1 ∧
    ((gst_input_selector_wait_running_time L env s pad buf).2 = some true →
      s.flushing = true ∨ (s.pads pad).flushing = true) := by
  have hact := inactive_frame_activate pad a hne s s (inactive_frame_refl pad a s h)
  unfold gst_input_selector_wait_running_time
  dsimp only
  split_ifs
  all_goals first
    | exact ⟨inactive_frame_refl pad a s h, fun hx => by cases hx⟩
    | exact ⟨hact, fun hx => by cases hx⟩
    | (split <;> first
        | exact ⟨hact, fun hx => by cases hx⟩
        | (split_ifs <;> first
            | exact ⟨hact, fun hx => by cases hx⟩
            | (refine ⟨hact, fun hx => ?_⟩
               simp only [Option.some.injEq, Bool.or_eq_true, activate_flushing,
                 activate_pads_same] at hx
               exact hx)))

theorem chain_sync_inactive (L : GstLib) (env : Env) (pad a : PadId) (hne : a ≠ pad)
    (chain : GstInputSelector → PadId → GstBuffer → ChainResult)
    (hc : ∀ s b, s.active_sinkpad = some a →
      inactive_frame pad a s (chain s pad b).sel ∧ (chain s pad b).trace = [])
    (fuel : Nat) (s : GstInputSelector) (buf : GstBuffer) (h : s.active_sinkpad = some a) :
    inactive_frame pad a s (chain_sync L env chain fuel s pad buf a).1 ∧
    (chain_sync L env chain fuel s pad buf a).2.1 = [] ∧
    ((chain_sync L env chain fuel s pad buf a).2.2 = Outcome.returned none →
      s.flushing = true ∨ (s.pads pad).flushing = true) ∧
    ∀ x, (chain_sync L env chain fuel s pad buf a).2.2 = Outcome.returned (some x) → x = a := by
  have hrp := chain_replay_inactive pad a hne chain hc fuel s h
  have hw := wait_running_time_inactive L env pad a hne (chain_replay chain fuel s pad a).1 buf
    hrp.1.1
  have hfw := inactive_frame_trans pad a _ _ _ hrp.1 hw.1
  have hflags : ∀ s1 : GstInputSelector, inactive_frame pad a s s1 →
      (s1.flushing = true ∨ (s1.pads pad).flushing = true) →
      (s.flushing = true ∨ (s.pads pad).flushing = true) := by
    intro s1 hf1 hor
    have h3 : (s1.pads pad).flushing = (s.pads pad).flushing := congrArg Prod.fst hf1.2.2.1
    rw [hf1.2.1, h3] at hor
    exact hor
  unfold chain_sync
  split_ifs with hs
  · dsimp only
    split
    · refine ⟨hrp.1, hrp.2.1, ?_, ?_⟩
      · intro hx; cases hx
      · intro x hx; cases hx
    · refine ⟨hrp.1, hrp.2.1, ?_, ?_⟩
      · intro hx; cases hx
      · intro x hx; cases hx
    · rename_i active1 hret
      have ha1 : active1 = a := hrp.2.2 active1 hret
      have hne1 : active1 ≠ pad := by rw [ha1]; exact hne
      simp only [ne_eq, hne1, not_false_eq_true, if_true]
      split
      · refine ⟨hfw, hrp.2.1, ?_, ?_⟩
        · intro hx; cases hx
        · intro x hx; cases hx
      · rename_i hwt
        refine ⟨hfw, hrp.2.1, fun _ => hflags _ hrp.1 (hw.2 hwt), ?_⟩
        intro x hx; cases hx
      · refine ⟨inactive_frame_activate pad a hne _ _ hfw, hrp.2.1, ?_, ?_⟩
        · intro hx; cases hx
        · intro x hx
          simp only [Outcome.returned.injEq, Option.some.injEq] at hx
          rw [← hx, activate_snd, hfw.1]
          rfl
  · refine ⟨inactive_frame_refl pad a s h, rfl, ?_, ?_⟩
    · intro hx; cases hx
    · intro x hx
      simp only [Outcome.returned.injEq, Option.some.injEq] at hx
      exact hx.symm

theorem ignore_verdict_frame (pad a : PadId) (s s1 : GstInputSelector)
    (h : inactive_frame pad a s s1) : ignore_verdict s1 pad a = ignore_verdict s pad a := by
  have h3 : (s1.pads pad).always_ok = (s.pads pad).always_ok :=
    congrArg (fun t => t.2.1) h.2.2.1
  unfold ignore_verdict
  rw [h3, h.2.2.2]

theorem chain_body_inactive (L : GstLib) (env : Env) (pad a : PadId) (hne : a ≠ pad)
    (chain : GstInputSelector → PadId → GstBuffer → ChainResult)
    (hc : ∀ s b, s.active_sinkpad = some a →
      inactive_frame pad a s (chain s pad b).sel ∧ (chain s pad b).trace = [])
    (fuel : Nat) (s : GstInputSelector) (buf : GstBuffer) (h : s.active_sinkpad = some a) :
    inactive_frame pad a s (chain_body L env chain fuel s pad buf).sel ∧
    (chain_body L env chain fuel s pad buf).trace = [] ∧
    ∀ x, (chain_body L env chain fuel s pad buf).outcome = Outcome.returned x →
      (x = GstFlowReturn.WRONG_STATE ∧ (s.flushing = true ∨ (s.pads pad).flushing = true)) ∨
      (x = ignore_verdict s pad a ∧
        ((chain_body L env chain fuel s pad buf).sel.pads pad).discont = true) := by
  have hact := inactive_frame_activate pad a hne s s (inactive_frame_refl pad a s h)
  have hsnd : (gst_input_selector_activate_sinkpad s pad).2 = a := by
    rw [activate_snd, h]; rfl
  have hsy := chain_sync_inactive L env pad a hne chain hc fuel
    (gst_input_selector_activate_sinkpad s pad).1 buf hact.1
  have hfs := inactive_frame_trans pad a _ _ _ hact hsy.1
  have hflags : (gst_input_selector_activate_sinkpad s pad).1.flushing = true ∨
      ((gst_input_selector_activate_sinkpad s pad).1.pads pad).flushing = true →
      s.flushing = true ∨ (s.pads pad).flushing = true := by
    intro hor
    simpa using hor
  unfold chain_body
  split
  · refine ⟨inactive_frame_refl pad a s h, rfl, ?_⟩
    intro x hx
    cases hx
  · rename_i hw
    refine ⟨inactive_frame_refl pad a s h, rfl, fun x hx => Or.inl ⟨?_, ?_⟩⟩
    · simp only [Outcome.returned.injEq] at hx
      exact hx.symm
    · left
      unfold gst_input_selector_wait at hw
      split_ifs at hw
      simp only [Option.some.injEq] at hw
      exact hw
  · dsimp only
    rw [hsnd]
    split
    · refine ⟨hfs, hsy.2.1, ?_⟩
      intro x hx
      cases hx
    · refine ⟨hfs, hsy.2.1, ?_⟩
      intro x hx
      cases hx
    · rename_i hout
      refine ⟨hfs, hsy.2.1, fun x hx => Or.inl ⟨?_, hflags (hsy.2.2.1 hout)⟩⟩
      simp only [Outcome.returned.injEq] at hx
      exact hx.symm
    · rename_i active hout
      have hae : active = a := hsy.2.2.2 active hout
      have hpa : pad ≠ active := by rw [hae]; exact fun hh => hne hh.symm
      simp only [ne_eq, hpa, not_false_eq_true, if_true]
      have hfl : inactive_frame pad a s
          (if GST_CLOCK_TIME_IS_VALID buf.timestamp = true then
            (chain_sync L env chain fuel (gst_input_selector_activate_sinkpad s pad).1 pad buf
              a).1.modify_pad pad (fun p =>
                { p with segment :=
                    L.gst_segment_set_last_stop p.segment p.segment.format buf.timestamp })
           else (chain_sync L env chain fuel (gst_input_selector_activate_sinkpad s pad).1 pad
              buf a).1) := by
        split_ifs
        · exact inactive_frame_modify pad a hne _ _ _ (fun _ => rfl) hfs
        · exact hfs
      rw [hae]
      unfold chain_ignore
      dsimp only
      refine ⟨inactive_frame_modify pad a hne _ _ _ (fun _ => rfl) hfl, hsy.2.1, ?_⟩
      intro x hx
      right
      simp only [Outcome.returned.injEq] at hx
      refine ⟨?_, by rw [modify_pad_pads_same]⟩
      rw [← hx, ← ignore_verdict_frame pad a s _ hfl]
      unfold ignore_verdict
      simp only [modify_pad_pads_same, Bool.not_eq_true]

theorem chain_inactive (L : GstLib) (env : Env) (pad a : PadId) (hne : a ≠ pad) :
    ∀ fuel s buf, s.active_sinkpad = some a →
      inactive_frame pad a s (gst_selector_pad_chain L env fuel s pad buf).sel ∧
      (gst_selector_pad_chain L env fuel s pad buf).trace = [] ∧
      ∀ x, (gst_selector_pad_chain L env fuel s pad buf).outcome = Outcome.returned x →
        (x = GstFlowReturn.WRONG_STATE ∧
          (s.flushing = true ∨ (s.pads pad).flushing = true)) ∨
        (x = ignore_verdict s pad a ∧
          ((gst_selector_pad_chain L env fuel s pad buf).sel.pads pad).discont = true) := by
  intro fuel
  induction fuel with
  | zero =>
    intro s buf h
    refine ⟨inactive_frame_refl pad a s h, rfl, ?_⟩
    intro x hx
    cases hx
  | succ n ih =>
    intro s buf h
    exact chain_body_inactive L env pad a hne _
      (fun s1 b h1 => ⟨(ih s1 b h1).1, (ih s1 b h1).2.1⟩) n s buf h

/-! ### A replay that cannot end -/

theorem buffer_end_running_time_restamped (seg : GstSegment) (f : GstFormat) (t : Int)
    (d : Bool) (b : GstBuffer) :
    buffer_end_running_time spec_lib (spec_segment_set_last_stop seg f t) (stamp_discont d b) =
      buffer_end_running_time spec_lib seg b := by
  cases d <;> rfl

theorem replays_forever_restamped (c : GstSelectorPadCachedBuffer) (d : Bool) (u : Bool)
    (h : replays_forever c) :
    replays_forever ⟨stamp_discont d c.buffer,
      spec_segment_set_last_stop c.segment c.segment.format c.buffer.timestamp, u⟩ := by
  obtain ⟨h1, h2, h3⟩ := h
  have hts : (stamp_discont d c.buffer).timestamp = c.buffer.timestamp := by
    cases d <;> rfl
  refine ⟨h1, by rw [hts]; exact h2, ?_⟩
  unfold not_behind at h3 ⊢
  dsimp only
  rw [hts, buffer_end_running_time_restamped]
  exact h3

/-- One round of a replay loop that cannot end: the nested chain call returns, has pushed one
buffer, and leaves the loop in the same kind of state. -/
theorem replay_stuck_step (env : Env) (k : Nat) (p : PadId) (s : GstInputSelector)
    (c : GstSelectorPadCachedBuffer) (rest : List GstSelectorPadCachedBuffer)
    (hinv : replay_stuck p s) (hq : (s.pads p).cached_buffers = some (c :: rest)) :
    (gst_selector_pad_chain spec_lib env (k + 1)
      (s.modify_pad p (fun x =>
        { x with
          cached_buffers := some rest
          segment := c.segment
          segment_update := c.segment_update
          segment_pending := true })) p c.buffer).outcome =
      Outcome.returned env.push_result ∧
    replay_stuck p (gst_selector_pad_chain spec_lib env (k + 1)
      (s.modify_pad p (fun x =>
        { x with
          cached_buffers := some rest
          segment := c.segment
          segment_update := c.segment_update
          segment_pending := true })) p c.buffer).sel ∧
    (pushed_buffers (gst_selector_pad_chain spec_lib env (k + 1)
      (s.modify_pad p (fun x =>
        { x with
          cached_buffers := some rest
          segment := c.segment
          segment_update := c.segment_update
          segment_pending := true })) p c.buffer).trace).length = 1 := by
  obtain ⟨i1, i2, i3, i4, i5, i6, i7, i8, q, i9, _, i11⟩ := hinv
  have hqe : q = c :: rest := Option.some.inj (i9.symm.trans hq)
  have hc : replays_forever c := i11 c (by rw [hqe]; exact List.mem_cons_self _ _)
  have hrest : ∀ e ∈ rest, replays_forever e :=
    fun e he => i11 e (by rw [hqe]; exact List.mem_cons_of_mem _ he)
  have hv : GST_CLOCK_TIME_IS_VALID c.buffer.timestamp = true := by
    simp [GST_CLOCK_TIME_IS_VALID, GST_CLOCK_TIME_NONE, hc.2.1]
  obtain ⟨s1, n, heq, a1, a2, a3, a4, a5, a6, a7⟩ :=
    chain_no_replay_fields spec_lib env k
      (s.modify_pad p (fun x =>
        { x with
          cached_buffers := some rest
          segment := c.segment
          segment_update := c.segment_update
          segment_pending := true })) p c.buffer
      (by simpa using i1) (Or.inl (by simpa using i3)) (Or.inl (by simpa using i7))
      (Or.inr (Or.inr (Or.inr (by simpa using i8))))
  simp only [modify_pad_flushing, modify_pad_blocked, modify_pad_sync_streams,
    modify_pad_cache_buffers, modify_pad_sync_mode, modify_pad_pads_same, hv, if_true]
    at a1 a2 a3 a4 a5 a7
  obtain ⟨s2, hfin, b1, b2, b3, b4, b5, b6, b7, b8, b9, b10⟩ :=
    chain_forward_caching spec_lib env s1 p c.buffer n (a3.trans i4) (a4.trans i5)
  have hseg : (s1.pads p).segment =
      spec_segment_set_last_stop c.segment c.segment.format c.buffer.timestamp := by
    rw [a7]; rfl
  have hfmt : (s1.pads p).segment.format = GstFormat.TIME := by
    rw [hseg]; exact hc.1
  have hcache : (s1.pads p).cached_buffers = some rest := by rw [a7]
  have hupd : (s1.pads p).segment_update = c.segment_update := by rw [a7]
  rw [if_pos hfmt, hcache, hseg, hupd] at b10
  simp only [Option.getD_some] at b10
  rw [hseg] at b9
  have hgd : s2.active_sinkpad.getD p = p := by rw [b6, a6]; rfl
  have href : reference_running_time spec_lib env s2 (s2.active_sinkpad.getD p) =
      spec_segment_to_running_time c.segment GstFormat.TIME c.buffer.timestamp := by
    have hf2 : (spec_segment_set_last_stop c.segment c.segment.format
        c.buffer.timestamp).format = GstFormat.TIME := hc.1
    unfold reference_running_time segment_reference
    rw [hgd, b5, a5, i6, b9, if_neg (by decide), if_pos hf2]
    rfl
  have hkeep := cleanup_keeps_tail spec_lib env s2 p p _ rest b10 (by
    intro _ hne
    rw [href] at hne ⊢
    rw [b9]
    rcases hc.2.2 with h | h
    · exact absurd h hne
    · unfold not_behind at h ⊢
      dsimp only
      rw [buffer_end_running_time_restamped]
      exact h)
  obtain ⟨_, q1, hq1, hsub⟩ := hkeep
  have hcf := cleanup_fields spec_lib env s2 p
  rw [heq]
  refine ⟨rfl, ?_, ?_⟩
  · show replay_stuck p (chain_forward spec_lib env s1 p c.buffer n).1
    rw [hfin]
    refine ⟨?_, ?_, ?_, ?_, ?_, ?_, ?_, ?_, q1 ++ [_], hq1, by simp, ?_⟩
    · rw [hcf.1, b1, a1, i1]
    · rw [cleanup_keeps (fun x => x.flushing) (fun _ _ => rfl) (fun _ => rfl), b7, a7]
      exact i2
    · rw [hcf.2.1, b2, a2, i3]
    · rw [hcf.2.2.1, b3, a3, i4]
    · rw [hcf.2.2.2.1, b4, a4, i5]
    · rw [hcf.2.2.2.2.1, b5, a5, i6]
    · exact cleanup_active_sinkpad spec_lib env s2 p p (by rw [b6, a6]; rfl)
    · rw [cleanup_keeps (fun x => x.sending_cached_buffers) (fun _ _ => rfl) (fun _ => rfl),
        b8, a7]
      exact i8
    · intro e he
      rcases List.mem_append.1 he with hm | hm
      · exact hrest e (hsub.subset hm)
      · rw [List.mem_singleton.1 hm]
        exact replays_forever_restamped c _ _ hc
  · show (pushed_buffers (chain_forward spec_lib env s1 p c.buffer n).2).length = 1
    rw [chain_forward_pushed_buffers]
    rfl

/-- A replay loop in such a state uses up any fuel, pushing one buffer per round. -/
theorem replay_stuck_diverges (env : Env) (p : PadId) (k : Nat) :
    ∀ (n : Nat) (s : GstInputSelector), replay_stuck p s →
      (replay_cached_buffers (gst_selector_pad_chain spec_lib env (k + 1)) p n s).2.2 =
        Outcome.diverged ∧
      (pushed_buffers
        (replay_cached_buffers (gst_selector_pad_chain spec_lib env (k + 1)) p n s).2.1).length =
        n := by
  intro n
  induction n with
  | zero => intro s _; exact ⟨rfl, rfl⟩
  | succ n ih =>
    intro s hinv
    have hinv2 := hinv
    obtain ⟨i1, i2, _, _, _, _, _, _, q, i9, i10, _⟩ := hinv2
    cases q with
    | nil => exact absurd rfl i10
    | cons c rest =>
      have hstep := replay_stuck_step env k p s c rest hinv i9
      have hnn : ((gst_selector_pad_chain spec_lib env (k + 1)
          (s.modify_pad p (fun x =>
            { x with
              cached_buffers := some rest
              segment := c.segment
              segment_update := c.segment_update
              segment_pending := true })) p c.buffer).sel.pads p).cached_buffers ≠ none := by
        obtain ⟨_, _, _, _, _, _, _, _, q2, h9, _, _⟩ := hstep.2.1
        rw [h9]
        exact fun h => by cases h
      have hrec := ih _ hstep.2.1
      unfold replay_cached_buffers
      rw [if_neg (by simp [i1, i2]), i9]
      dsimp only
      rw [hstep.1]
      dsimp only
      rw [if_neg hnn]
      refine ⟨hrec.1, ?_⟩
      show (pushed_buffers (_ ++ _)).length = n + 1
      rw [pushed_buffers_append, List.length_append, hstep.2.2, hrec.2]
      omega

/-- A chain call on the active pad that has not pushed since it became active and has a cache
of entries the pruner keeps, in `ACTIVE_SEGMENT` mode with sync-streams and caching on: the
replay loop never ends.  Whatever the fuel, the call does not return, and with fuel `n + 2` it
has pushed `n + 1` buffers. -/
theorem stuck_replay_diverges (env : Env) (p : PadId) (s : GstInputSelector) (buf : GstBuffer)
    (h1 : s.flushing = false) (h2 : (s.pads p).flushing = false) (h3 : s.blocked = false)
    (h4 : s.sync_streams = true) (h5 : s.cache_buffers = true)
    (h6 : s.sync_mode = GstInputSelectorSyncMode.ACTIVE_SEGMENT)
    (h7 : s.active_sinkpad = some p) (h8 : (s.pads p).pushed = false)
    (h9 : (s.pads p).sending_cached_buffers = false)
    (q : List GstSelectorPadCachedBuffer) (h10 : (s.pads p).cached_buffers = some q)
    (h11 : q ≠ []) (h12 : ∀ e ∈ q, replays_forever e) (fuel : Nat) :
    (gst_selector_pad_chain spec_lib env fuel s p buf).outcome = Outcome.diverged ∧
    (pushed_buffers (gst_selector_pad_chain spec_lib env fuel s p buf).trace).length =
      fuel - 1 := by
  cases fuel with
  | zero => exact ⟨rfl, rfl⟩
  | succ k =>
    have hbody : gst_selector_pad_chain spec_lib env (k + 1) s p buf =
        chain_body spec_lib env (gst_selector_pad_chain spec_lib env k) k s p buf := rfl
    have hstuck : replay_stuck p
        ((gst_input_selector_activate_sinkpad s p).1.modify_pad p
          (fun x => { x with sending_cached_buffers := true })) := by
      refine ⟨by simpa using h1, by simpa using h2, by simpa using h3, by simpa using h4,
        by simpa using h5, by simpa using h6, by simp [h7], by simp, q, by simp [h10], h11, h12⟩
    have hloop : (replay_cached_buffers (gst_selector_pad_chain spec_lib env k) p k
          ((gst_input_selector_activate_sinkpad s p).1.modify_pad p
            (fun x => { x with sending_cached_buffers := true }))).2.2 = Outcome.diverged ∧
        (pushed_buffers (replay_cached_buffers (gst_selector_pad_chain spec_lib env k) p k
          ((gst_input_selector_activate_sinkpad s p).1.modify_pad p
            (fun x => { x with sending_cached_buffers := true }))).2.1).length = k := by
      cases k with
      | zero => exact ⟨rfl, rfl⟩
      | succ j => exact replay_stuck_diverges env p j (j + 1) _ hstuck
    have hcond : (p ≠ p ∨ ¬ ((gst_input_selector_activate_sinkpad s p).1.pads p).pushed = true) ∧
        ((gst_input_selector_activate_sinkpad s p).1.pads p).cached_buffers.isSome = true ∧
        ¬ ((gst_input_selector_activate_sinkpad s p).1.pads p).sending_cached_buffers = true := by
      simp [h8, h9, h10]
    rw [hbody]
    unfold chain_body
    rw [wait_not_blocked s _ h1 (Or.inl h3)]
    dsimp only
    have hsnd : (gst_input_selector_activate_sinkpad s p).2 = p := by
      rw [activate_snd, h7]; rfl
    rw [hsnd]
    unfold chain_sync
    rw [if_neg (by simp [h4])]
    dsimp only
    unfold chain_replay
    rw [if_pos hcond]
    dsimp only
    rw [hloop.1]
    dsimp only
    exact ⟨rfl, by simpa using hloop.2⟩

/-! ### The latency query -/

theorem u64_le_none (x : Int) : u64 x ≤ u64 (-1) := by
  unfold u64
  have := Int.emod_lt_of_pos x (show (0 : Int) < 18446744073709551616 by norm_num)
  have h2 : (-1 : Int) % 18446744073709551616 = 18446744073709551615 := by decide
  omega

theorem u64_zero_le (x : Int) : u64 0 ≤ u64 x := by
  unfold u64
  have := Int.emod_nonneg x (show (18446744073709551616 : Int) ≠ 0 by norm_num)
  simpa using this

theorem latency_step_inv (peer_query : PadId → Option GstLatency) (l : List PadId)
    (st : LatencyState) (p : PadId) (h : latency_inv peer_query l st) :
    latency_inv peer_query (l ++ [p]) (latency_step peer_query st p) := by
  obtain ⟨h1, h2, h3, h4, h5⟩ := h
  unfold latency_step
  cases hq : peer_query p with
  | none =>
    refine ⟨?_, ?_, ?_, ?_, ?_⟩
    · rw [h1]
      constructor
      · rintro ⟨q, hq1, hq2⟩; exact ⟨q, List.mem_append_left _ hq1, hq2⟩
      · rintro ⟨q, hq1, hq2⟩
        rcases List.mem_append.1 hq1 with hm | hm
        · exact ⟨q, hm, hq2⟩
        · rw [List.mem_singleton.1 hm, hq] at hq2; cases hq2
    · rw [h2]
      constructor
      · rintro ⟨q, hq1, hq2⟩; exact ⟨q, List.mem_append_left _ hq1, hq2⟩
      · rintro ⟨q, hq1, x, hx, hl⟩
        rcases List.mem_append.1 hq1 with hm | hm
        · exact ⟨q, hm, x, hx, hl⟩
        · rw [List.mem_singleton.1 hm, hq] at hx; cases hx
    · intro q hq1 x hx hl
      rcases List.mem_append.1 hq1 with hm | hm
      · exact h3 q hm x hx hl
      · rw [List.mem_singleton.1 hm, hq] at hx; cases hx
    · rcases h4 with h | ⟨q, hq1, hq2⟩
      · exact Or.inl h
      · exact Or.inr ⟨q, List.mem_append_left _ hq1, hq2⟩
    · rcases h5 with h | ⟨q, hq1, hq2⟩
      · exact Or.inl h
      · exact Or.inr ⟨q, List.mem_append_left _ hq1, hq2⟩
  | some r =>
    dsimp only
    have hp : p ∈ l ++ [p] := List.mem_append_right _ (List.mem_singleton.2 rfl)
    by_cases hl : r.live = true
    · rw [if_pos hl]
      refine ⟨?_, ?_, ?_, ?_, ?_⟩
      · constructor
        · intro _; exact ⟨p, hp, by rw [hq]; rfl⟩
        · intro _; rfl
      · constructor
        · intro _; exact ⟨p, hp, r, hq, hl⟩
        · intro _
          by_cases hr : st.reslive = false
          · rw [if_pos hr]; exact hl
          · rw [if_neg hr]; simpa using hr
      · intro q hq1 x hx hxl
        have hmin : ∀ y : Int, u64 y ≤ u64 st.resmin →
            u64 y ≤ u64 (if u64 r.min > u64 st.resmin then r.min else st.resmin) := by
          intro y hy
          split_ifs with hc
          · omega
          · exact hy
        have hmax : ∀ y : Int, u64 st.resmax ≤ u64 y →
            u64 (if st.resmax = -1 then r.max
              else if u64 r.max < u64 st.resmax then r.max else st.resmax) ≤ u64 y := by
          intro y hy
          split_ifs with hc1 hc2
          · rw [hc1] at hy
            have h1 := u64_le_none y
            have h2 := u64_le_none r.max
            omega
          · omega
          · exact hy
        rcases List.mem_append.1 hq1 with hm | hm
        · exact ⟨hmin _ (h3 q hm x hx hxl).1, hmax _ (h3 q hm x hx hxl).2⟩
        · rw [List.mem_singleton.1 hm, hq] at hx
          cases hx
          have hmin2 : u64 r.min ≤
              u64 (if u64 r.min > u64 st.resmin then r.min else st.resmin) := by
            split_ifs with hc
            · exact le_refl _
            · omega
          have hmax2 : u64 (if st.resmax = -1 then r.max
              else if u64 r.max < u64 st.resmax then r.max else st.resmax) ≤ u64 r.max := by
            split_ifs with hc1 hc2
            · exact le_refl _
            · exact le_refl _
            · omega
          exact ⟨hmin2, hmax2⟩
      · show (if u64 r.min > u64 st.resmin then r.min else st.resmin) = 0 ∨
          ∃ q ∈ l ++ [p], ∃ x, peer_query q = some x ∧ x.live = true ∧
            (if u64 r.min > u64 st.resmin then r.min else st.resmin) = x.min
        split_ifs with hc
        · exact Or.inr ⟨p, hp, r, hq, hl, rfl⟩
        · rcases h4 with h | ⟨q, hq1, x, hx, hxl, he⟩
          · exact Or.inl h
          · exact Or.inr ⟨q, List.mem_append_left _ hq1, x, hx, hxl, he⟩
      · show (if st.resmax = -1 then r.max
            else if u64 r.max < u64 st.resmax then r.max else st.resmax) = -1 ∨
          ∃ q ∈ l ++ [p], ∃ x, peer_query q = some x ∧ x.live = true ∧
            (if st.resmax = -1 then r.max
              else if u64 r.max < u64 st.resmax then r.max else st.resmax) = x.max
        split_ifs with hc1 hc2
        · exact Or.inr ⟨p, hp, r, hq, hl, rfl⟩
        · exact Or.inr ⟨p, hp, r, hq, hl, rfl⟩
        · rcases h5 with h | ⟨q, hq1, x, hx, hxl, he⟩
          · exact Or.inl h
          · exact Or.inr ⟨q, List.mem_append_left _ hq1, x, hx, hxl, he⟩
    · rw [if_neg hl]
      refine ⟨?_, ?_, ?_, ?_, ?_⟩
      · constructor
        · intro _; exact ⟨p, hp, by rw [hq]; rfl⟩
        · intro _; rfl
      · show st.reslive = true ↔ _
        rw [h2]
        constructor
        · rintro ⟨q, hq1, hq2⟩; exact ⟨q, List.mem_append_left _ hq1, hq2⟩
        · rintro ⟨q, hq1, x, hx, hxl⟩
          rcases List.mem_append.1 hq1 with hm | hm
          · exact ⟨q, hm, x, hx, hxl⟩
          · rw [List.mem_singleton.1 hm, hq] at hx
            cases hx
            exact absurd hxl hl
      · intro q hq1 x hx hxl
        rcases List.mem_append.1 hq1 with hm | hm
        · exact h3 q hm x hx hxl
        · rw [List.mem_singleton.1 hm, hq] at hx
          cases hx
          exact absurd hxl hl
      · rcases h4 with h | ⟨q, hq1, hq2⟩
        · exact Or.inl h
        · exact Or.inr ⟨q, List.mem_append_left _ hq1, hq2⟩
      · rcases h5 with h | ⟨q, hq1, hq2⟩
        · exact Or.inl h
        · exact Or.inr ⟨q, List.mem_append_left _ hq1, hq2⟩

theorem latency_foldl_inv (peer_query : PadId → Option GstLatency) :
    ∀ (l l0 : List PadId) (st : LatencyState), latency_inv peer_query l0 st →
      latency_inv peer_query (l0 ++ l) (l.foldl (latency_step peer_query) st) := by
  intro l
  induction l with
  | nil => intro l0 st h; simpa using h
  | cons p l ih =>
    intro l0 st h
    have := ih (l0 ++ [p]) _ (latency_step_inv peer_query l0 st p h)
    simpa using this

/-! ## The claims, continued -/

/-- C11.  A chain call on an input while another input `a` is the active one, neither the
selector nor the input flushing: whenever the call returns, it has pushed nothing downstream
(and notified nothing), `a` is still the active input, the input's `discont` mark is set, and
the answer is `OK` if the input's `always_ok` is set or `a` has not pushed, and `NOT_LINKED`
otherwise.  Outside sync-streams mode, on a selector that is not blocked, the call does
return. -/
theorem chain_on_inactive_input_drops (L : GstLib) (env : Env) (fuel : Nat)
    (sel : GstInputSelector) (pad a : PadId) (buf : GstBuffer)
    (ha : sel.active_sinkpad = some a) (hne : a ≠ pad)
    (hf : sel.flushing = false) (hpf : (sel.pads pad).flushing = false) :
    (gst_selector_pad_chain L env (fuel + 1) sel pad buf).trace = [] ∧
    (gst_selector_pad_chain L env (fuel + 1) sel pad buf).sel.active_sinkpad = some a ∧
    (∀ x, (gst_selector_pad_chain L env (fuel + 1) sel pad buf).outcome = Outcome.returned x →
      x = (if (sel.pads pad).always_ok = true ∨ (sel.pads a).pushed = false then
            GstFlowReturn.OK
          else GstFlowReturn.NOT_LINKED) ∧
      ((gst_selector_pad_chain L env (fuel + 1) sel pad buf).sel.pads pad).discont = true) ∧
    (sel.blocked = false → sel.sync_streams = false →
      ∃ x, (gst_selector_pad_chain L env (fuel + 1) sel pad buf).outcome =
        Outcome.returned x) := by
  have h := chain_inactive L env pad a hne (fuel + 1) sel buf ha
  refine ⟨h.2.1, h.1.1, ?_, ?_⟩
  · intro x hx
    rcases h.2.2 x hx with ⟨_, hfl⟩ | hok
    · rw [hf, hpf] at hfl
      rcases hfl with hfl | hfl <;> cases hfl
    · exact hok
  · intro hb hs
    have hbody : gst_selector_pad_chain L env (fuel + 1) sel pad buf =
        chain_body L env (gst_selector_pad_chain L env fuel) fuel sel pad buf := rfl
    rw [hbody]
    unfold chain_body
    rw [wait_not_blocked sel _ hf (Or.inl hb)]
    dsimp only
    unfold chain_sync
    simp only [activate_sync_streams, hs, Bool.false_eq_true, not_false_eq_true, if_true]
    split_ifs <;> exact ⟨_, rfl⟩

/-- Witness of C11: in scenario S2 before the block, A is active and has pushed; a buffer on
B is dropped with nothing pushed, and once B's `always-ok` is turned off the answer is
`NOT_LINKED` and B's `discont` mark is set. -/
theorem chain_on_inactive_input_drops_witness :
    (gst_selector_pad_chain spec_lib quiet_env 1 s2_before_block 1
      (plain_buffer 2 80 40)).trace = [] ∧
    (gst_selector_pad_chain spec_lib quiet_env 1
      (gst_selector_pad_set_property s2_before_block 1 false) 1
      (plain_buffer 2 80 40)).outcome = Outcome.returned GstFlowReturn.NOT_LINKED ∧
    ((gst_selector_pad_chain spec_lib quiet_env 1
      (gst_selector_pad_set_property s2_before_block 1 false) 1
      (plain_buffer 2 80 40)).sel.pads 1).discont = true :=
  ⟨(chain_on_inactive_input_drops spec_lib quiet_env 0 s2_before_block 1 0
      (plain_buffer 2 80 40) (by decide) (by decide) (by decide) (by decide)).1,
    by decide,
    ((chain_on_inactive_input_drops spec_lib quiet_env 0
      (gst_selector_pad_set_property s2_before_block 1 false) 1 0
      (plain_buffer 2 80 40) (by decide) (by decide) (by decide) (by decide)).2.2.1
        GstFlowReturn.NOT_LINKED (by decide)).2⟩

/-- C12.  On a blocked selector whose active input is `target`, `switch(target, stop_rt,
start_rt)` clears `blocked` and changes nothing else, whatever the two times are: every other
field of the selector and every pad record is as before, and nothing is notified. -/
theorem switch_to_active_only_unblocks (L : GstLib) (self : GstInputSelector) (target : PadId)
    (stop_rt start_rt : Int) (hb : self.blocked = true)
    (ha : self.active_sinkpad = some target) :
    gst_input_selector_switch L self (some target) stop_rt start_rt =
      ({ self with blocked := false }, []) := by
  unfold gst_input_selector_switch gst_input_selector_set_active_pad
  simp [hb, ha]

/-- Witness of C12: in scenario S2 after `block()`, a switch to A, which is active. -/
theorem switch_to_active_only_unblocks_witness :
    s2_blocked.blocked = true ∧ s2_blocked.active_sinkpad = some 0 ∧
    gst_input_selector_switch spec_lib s2_blocked (some 0) 7 9 =
      ({ s2_blocked with blocked := false }, []) :=
  ⟨by decide, by decide,
    switch_to_active_only_unblocks spec_lib s2_blocked 0 7 9 (by decide) (by decide)⟩

/-- C13.  An end-of-stream event arriving on an input sets the input's `eos`, and what is
pushed downstream is the event alone when the input is the active one (by the first-touch
rule also when there was no active input), or when the active input has `eos` set and
`eos_sent` clear; otherwise nothing is pushed. -/
theorem eos_forwarded_iff_active_or_pending (L : GstLib) (env : Env) (sel : GstInputSelector)
    (pad : PadId) :
    ((gst_selector_pad_event L env sel pad GstEvent.EOS).1.pads pad).eos = true ∧
    downstream (gst_selector_pad_event L env sel pad GstEvent.EOS).2.1 =
      (if pad = sel.active_sinkpad.getD pad ∨
          ((sel.pads (sel.active_sinkpad.getD pad)).eos = true ∧
            (sel.pads (sel.active_sinkpad.getD pad)).eos_sent = false) then
        [Action.push_event GstEvent.EOS]
      else []) := by
  unfold gst_selector_pad_event
  dsimp only
  simp only [activate_snd, activate_active_sinkpad, Option.getD_some, event_switch]
  by_cases hp : pad = sel.active_sinkpad.getD pad
  · simp only [← hp, decide_True, if_true, true_or, downstream_append]
    constructor
    · simp
    · split_ifs <;> rfl
  · have hp2 : sel.active_sinkpad.getD pad ≠ pad := fun h => hp h.symm
    have hnot : ∀ b : Bool, ((!b) = true) = (b = false) := by
      intro b
      cases b <;> simp
    simp only [hp, decide_False, false_or, if_false, Bool.false_eq_true,
      modify_pad_pads_ne _ _ _ _ hp2, activate_pads_ne _ _ _ hp2,
      Bool.and_eq_true, hnot, List.nil_append]
    constructor
    · split_ifs <;> simp [modify_pad_pads_ne _ _ _ _ hp]
    · split_ifs <;> rfl

/-- Counterexample to C14: sync-streams mode, A is active, has pushed, and its segment is
`UNDEFINED`, so the reference running time is unknown; B is not active, not flushing, and
holds `B(0,40)` in a `TIME` segment.  B does not proceed: it goes to sleep, in the wait
function and so in its chain call. -/
theorem undefined_reference_keeps_waiting :
    no_reference_state.sync_streams = true ∧ no_reference_state.active_sinkpad = some 0 ∧
    (no_reference_state.pads 0).segment.format = GstFormat.UNDEFINED ∧
    reference_running_time spec_lib quiet_env no_reference_state 0 = -1 ∧
    (no_reference_state.pads 1).flushing = false ∧
    (no_reference_state.pads 1).segment.format = GstFormat.TIME ∧
    (gst_input_selector_wait_running_time spec_lib quiet_env no_reference_state 1
      (plain_buffer 1 0 40)).2 = none ∧
    (gst_selector_pad_chain spec_lib quiet_env 2 no_reference_state 1
      (plain_buffer 1 0 40)).outcome = Outcome.parked := by
  decide

/-- C14, amended.  In the sync wait, an input that is not the active one and not flushing
(nor is the selector), with a buffer that has a timestamp and a segment in `TIME` format,
goes to sleep exactly when all of this holds: the buffer's running time at timestamp +
duration (clamped to the segment's stop) is inside the segment; in `ACTIVE_SEGMENT` mode the
active input's segment is in `TIME` format or `UNDEFINED`; caching is on or the active input
has pushed; and the selector is blocked, or the reference running time is unknown (`-1`), or
the buffer's running time is not below the reference (unsigned).  Otherwise it proceeds, and
reports no flush.  So it proceeds on a running time strictly below a known reference only
when the selector is not blocked, and an unknown reference makes it wait, not proceed, except
when the active input's segment has a format other than `TIME` and `UNDEFINED`. -/
theorem sync_wait_sleeps_iff (L : GstLib) (env : Env) (sel : GstInputSelector)
    (pad a : PadId) (buf : GstBuffer)
    (ha : sel.active_sinkpad = some a) (hne : a ≠ pad)
    (hf : sel.flushing = false) (hpf : (sel.pads pad).flushing = false)
    (hts : buf.timestamp ≠ -1) (hfmt : (sel.pads pad).segment.format = GstFormat.TIME) :
    ((gst_input_selector_wait_running_time L env sel pad buf).2 = none ↔
      buffer_end_running_time L (sel.pads pad).segment buf ≠ -1 ∧
      (sel.sync_mode = GstInputSelectorSyncMode.CLOCK ∨
        (sel.pads a).segment.format = GstFormat.TIME ∨
        (sel.pads a).segment.format = GstFormat.UNDEFINED) ∧
      (sel.cache_buffers = true ∨ (sel.pads a).pushed = true) ∧
      (sel.blocked = true ∨ reference_running_time L env sel a = -1 ∨
        u64 (buffer_end_running_time L (sel.pads pad).segment buf) ≥
          u64 (reference_running_time L env sel a))) ∧
    ((gst_input_selector_wait_running_time L env sel pad buf).2 ≠ none →
      (gst_input_selector_wait_running_time L env sel pad buf).2 = some false) := by
  have hv : GST_CLOCK_TIME_IS_VALID buf.timestamp = true := by
    simp [GST_CLOCK_TIME_IS_VALID, GST_CLOCK_TIME_NONE, hts]
  have hne2 : pad ≠ a := fun h => hne h.symm
  unfold gst_input_selector_wait_running_time reference_running_time segment_reference
  simp only [hv, not_true_eq_false, if_false, activate_snd, ha, Option.getD_some,
    activate_pads_same, activate_pads_ne _ _ _ hne, hfmt, ne_eq, activate_sync_mode,
    activate_flushing, activate_cache_buffers, activate_blocked, hf, hpf, hne2,
    not_false_eq_true, true_and, Bool.false_eq_true, Bool.or_false, GST_CLOCK_TIME_NONE]
  by_cases hout : buffer_end_running_time L (sel.pads pad).segment buf = -1
  · simp [hout]
  · simp only [hout, if_false, not_false_eq_true, true_and]
    by_cases hm : sel.sync_mode = GstInputSelectorSyncMode.CLOCK
    · simp only [hm, if_true, true_or, true_and]
      constructor
      · split_ifs with hc
        · simp [hc]
        · simp [hc]
      · split_ifs with hc
        · simp
        · simp
    · simp only [hm, if_false, false_or]
      by_cases ht : (sel.pads a).segment.format = GstFormat.TIME
      · simp only [ht, not_true_eq_false, false_and, if_false, if_true, true_or, true_and]
        constructor
        · split_ifs with hc
          · simp [hc]
          · simp [hc]
        · split_ifs with hc
          · simp
          · simp
      · by_cases hu : (sel.pads a).segment.format = GstFormat.UNDEFINED
        · simp only [hu, not_true_eq_false, and_false, if_false, or_true, true_and,
            reduceCtorEq, true_or]
          constructor
          · split_ifs with hc
            · simp [hc]
            · simp [hc]
          · split_ifs with hc
            · simp
            · simp
        · simp [ht, hu]

/-- Witness of C14: sync-streams mode, A is active at running time 80 and has pushed; B,
not blocked, holds `B(0,40)`, which ends at 40, below the reference: B does not sleep, and
reports no flush. -/
theorem sync_wait_sleeps_iff_witness :
    (gst_input_selector_wait_running_time spec_lib quiet_env sync_state 1
      (plain_buffer 3 0 40)).2 = some false :=
  (sync_wait_sleeps_iff spec_lib quiet_env sync_state 1 0 (plain_buffer 3 0 40) (by decide)
    (by decide) (by decide) (by decide) (by decide) (by decide)).2 (by decide)

/-- Counterexample to C15: A has forwarded `B(100,40)`, `B(0,40)`, `B(50,40)` with caching in
`ACTIVE_SEGMENT` mode, so the reference is 50.  The pruner stops at the head of the queue,
which ends at 140, and keeps `B(0,40)`, which ends at running time 40, behind the
reference. -/
theorem pruner_keeps_entry_behind_reference :
    reference_running_time spec_lib quiet_env unordered_cache_state 0 = 50 ∧
    (((gst_input_selector_cleanup_old_cached_buffers spec_lib quiet_env
        unordered_cache_state 0).pads 0).cached_buffers.getD []).map
      (fun e => (e.buffer.timestamp, buffer_end_running_time spec_lib
        ((gst_input_selector_cleanup_old_cached_buffers spec_lib quiet_env
          unordered_cache_state 0).pads 0).segment e.buffer)) =
      [(100, 140), (0, 40), (50, 90)] ∧
    ¬ ∀ e ∈ ((gst_input_selector_cleanup_old_cached_buffers spec_lib quiet_env
        unordered_cache_state 0).pads 0).cached_buffers.getD [],
      not_behind spec_lib
        ((gst_input_selector_cleanup_old_cached_buffers spec_lib quiet_env
          unordered_cache_state 0).pads 0).segment
        (reference_running_time spec_lib quiet_env unordered_cache_state 0) e := by
  decide

/-- C15, amended.  When the pruner runs with a known reference running time (that of the
active input), then in the cache it leaves on every input of the element, the first entry
with a timestamp has a running time (at timestamp + duration, clamped to the stop of the
input's segment, compared unsigned) that is not behind the reference: the pruner stops at
that entry and does not look at the entries after it.  If the input's cache was in time
order, every entry with a timestamp that remains is not behind the reference.  Entries
without a timestamp may remain. -/
theorem pruner_stops_at_first_entry_not_behind (L : GstLib) (env : Env)
    (sel : GstInputSelector) (pad p : PadId)
    (href : reference_running_time L env sel (sel.active_sinkpad.getD pad) ≠ -1)
    (hp : p ∈ sel.sinkpads) (q : List GstSelectorPadCachedBuffer)
    (hq : ((gst_input_selector_cleanup_old_cached_buffers L env sel pad).pads p).cached_buffers =
      some q) :
    ((gst_input_selector_cleanup_old_cached_buffers L env sel pad).pads p).segment =
      (sel.pads p).segment ∧
    (∀ e, q.find? (fun y => y.has_timestamp) = some e →
      not_behind L (sel.pads p).segment
        (reference_running_time L env sel (sel.active_sinkpad.getD pad)) e) ∧
    (time_ordered L (sel.pads p) → ∀ e ∈ q, e.has_timestamp = true →
      not_behind L (sel.pads p).segment
        (reference_running_time L env sel (sel.active_sinkpad.getD pad)) e) := by
  obtain ⟨s0, hs, hpads, heq⟩ := cleanup_eq L env sel pad
  rw [heq, if_neg href] at hq ⊢
  have hord : time_ordered L (sel.pads p) → time_ordered L (s0.pads p) := by
    intro h q0 hq0
    rw [(hpads p).1]
    exact h q0 (by rw [← (hpads p).2]; exact hq0)
  have h := foldl_cleanup_pruned L
    (reference_running_time L env sel (sel.active_sinkpad.getD pad)) (sel.pads p).segment
    (time_ordered L (sel.pads p)) p s0.sinkpads s0 (by rw [hs]; exact hp) (hpads p).1 hord
  have h2 := h.2 q hq
  rw [h.1] at h2
  exact ⟨h.1, h2.1, h2.2⟩

/-- Witness of C15: scenario S5 after A has forwarded its three buffers; the reference is 80,
the pruner leaves `B(40,40)` and `B(80,40)`, and the first of them, which ends at 80, is not
behind the reference. -/
theorem pruner_stops_at_first_entry_not_behind_witness :
    reference_running_time spec_lib quiet_env s5_fed (s5_fed.active_sinkpad.getD 0) = 80 ∧
    not_behind spec_lib (s5_fed.pads 0).segment
      (reference_running_time spec_lib quiet_env s5_fed (s5_fed.active_sinkpad.getD 0))
      ⟨plain_buffer 1 40 40, segment_0_at 40, false⟩ :=
  ⟨by decide,
    (pruner_stops_at_first_entry_not_behind spec_lib quiet_env s5_fed 0 0 (by decide)
      (by decide)
      [⟨plain_buffer 1 40 40, segment_0_at 40, false⟩,
        ⟨plain_buffer 2 80 40, segment_0_at 80, false⟩]
      (by decide)).2.1 ⟨plain_buffer 1 40 40, segment_0_at 40, false⟩ (by decide)⟩

/-- Counterexample to C16: with sync-streams and caching on, A is active with a segment in
`BYTES` format; its buffer is forwarded downstream and nothing is cached. -/
theorem forwarded_buffer_not_cached_outside_time_format :
    bytes_state.sync_streams = true ∧ bytes_state.cache_buffers = true ∧
    bytes_state.active_sinkpad = some 0 ∧
    (bytes_state.pads 0).segment.format = GstFormat.BYTES ∧
    pushed_buffers (gst_selector_pad_chain spec_lib quiet_env 1 bytes_state 0
      (plain_buffer 0 0 40)).trace = [plain_buffer 0 0 40] ∧
    ((gst_selector_pad_chain spec_lib quiet_env 1 bytes_state 0
      (plain_buffer 0 0 40)).sel.pads 0).cached_buffers = none := by
  decide

/-- C16, amended.  With sync-streams and caching on, a chain call on the active input that
forwards its buffer without replaying the cache pushes the buffer (stamped with DISCONT if the
input's mark was set) and then caches it only if the input's segment is in `TIME` format: it
appends, at the tail of the input's queue, the buffer as pushed with the input's segment (its
`last_stop` at the buffer's timestamp) and `segment_update`; with another format the queue
is left as it was.  The pruner runs right after.  The new entry is still the tail of the
queue when the call returns if it has no timestamp, or the reference running time is unknown,
or the entry is not behind the reference. -/
theorem forwarded_buffer_cached_in_time_format (L : GstLib) (env : Env) (fuel : Nat)
    (sel : GstInputSelector) (pad : PadId) (buf : GstBuffer)
    (hf : sel.flushing = false)
    (hb : sel.blocked = false ∨ (sel.pads pad).flushing = true)
    (ha : sel.active_sinkpad = some pad ∨ sel.active_sinkpad = none)
    (hr : (sel.pads pad).pushed = true ∨ (sel.pads pad).cached_buffers = none ∨
      (sel.pads pad).sending_cached_buffers = true)
    (hs : sel.sync_streams = true) (hc : sel.cache_buffers = true) :
    pushed_buffers (gst_selector_pad_chain L env (fuel + 1) sel pad buf).trace =
      [(chained_entry L (sel.pads pad) buf).buffer] ∧
    (∃ s2, (gst_selector_pad_chain L env (fuel + 1) sel pad buf).sel =
        gst_input_selector_cleanup_old_cached_buffers L env s2 pad ∧
      (s2.pads pad).cached_buffers =
        (if (chained_segment L (sel.pads pad) buf).format = GstFormat.TIME then
          some ((sel.pads pad).cached_buffers.getD [] ++ [chained_entry L (sel.pads pad) buf])
        else (sel.pads pad).cached_buffers)) ∧
    ((chained_segment L (sel.pads pad) buf).format = GstFormat.TIME →
      ((chained_entry L (sel.pads pad) buf).has_timestamp = true →
        segment_reference L env sel.sync_mode (chained_segment L (sel.pads pad) buf) ≠ -1 →
        not_behind L (chained_segment L (sel.pads pad) buf)
          (segment_reference L env sel.sync_mode (chained_segment L (sel.pads pad) buf))
          (chained_entry L (sel.pads pad) buf)) →
      ∃ q1, ((gst_selector_pad_chain L env (fuel + 1) sel pad buf).sel.pads pad).cached_buffers =
          some (q1 ++ [chained_entry L (sel.pads pad) buf]) ∧
        q1.Sublist ((sel.pads pad).cached_buffers.getD [])) := by
  obtain ⟨s1, n, heq, _, _, h3, h4, h5, h6, h7⟩ :=
    chain_no_replay_fields L env fuel sel pad buf hf hb ha (Or.inr hr)
  have hs1 : (s1.pads pad).segment = chained_segment L (sel.pads pad) buf := by rw [h7]; rfl
  obtain ⟨s2, hfin, _, _, _, _, g5, g6, _, _, g9, g10⟩ :=
    chain_forward_caching L env s1 pad buf n (h3.trans hs) (h4.trans hc)
  have hd : (s1.pads pad).discont = (sel.pads pad).discont := by rw [h7]
  have hu : (s1.pads pad).segment_update = (sel.pads pad).segment_update := by rw [h7]
  have hcb : (s1.pads pad).cached_buffers = (sel.pads pad).cached_buffers := by rw [h7]
  have hent : (⟨stamp_discont (sel.pads pad).discont buf, chained_segment L (sel.pads pad) buf,
      (sel.pads pad).segment_update⟩ : GstSelectorPadCachedBuffer) =
      chained_entry L (sel.pads pad) buf := rfl
  rw [hs1, hd, hu, hcb, hent] at g10
  rw [hs1] at g9
  have hgd : s2.active_sinkpad.getD pad = pad := by rw [g6, h6]; rfl
  have href : reference_running_time L env s2 (s2.active_sinkpad.getD pad) =
      segment_reference L env sel.sync_mode (chained_segment L (sel.pads pad) buf) := by
    unfold reference_running_time
    rw [hgd, g5, h5, g9]
  rw [heq]
  refine ⟨?_, ⟨s2, hfin, g10⟩, ?_⟩
  · show pushed_buffers (chain_forward L env s1 pad buf n).2 = _
    rw [chain_forward_pushed_buffers, hd]
    rfl
  · intro hfmt hkeep
    show ∃ q1, ((chain_forward L env s1 pad buf n).1.pads pad).cached_buffers = _ ∧ _
    rw [hfin]
    rw [if_pos hfmt] at g10
    have := cleanup_keeps_tail L env s2 pad pad (chained_entry L (sel.pads pad) buf) _ g10
      (by rw [href, g9]; exact hkeep)
    exact this.2

/-- Witness of C16: with sync-streams and caching on, A is active with its segment in `TIME`
format and nothing cached; `B(0,40)` is pushed as it is, and is the one entry of A's cache
afterwards. -/
theorem forwarded_buffer_cached_in_time_format_witness :
    pushed_buffers (gst_selector_pad_chain spec_lib quiet_env 1 cache_ready_state 0
      (plain_buffer 0 0 40)).trace = [plain_buffer 0 0 40] ∧
    ((gst_selector_pad_chain spec_lib quiet_env 1 cache_ready_state 0
      (plain_buffer 0 0 40)).sel.pads 0).cached_buffers =
      some [chained_entry spec_lib (cache_ready_state.pads 0) (plain_buffer 0 0 40)] :=
  ⟨(forwarded_buffer_cached_in_time_format spec_lib quiet_env 0 cache_ready_state 0
      (plain_buffer 0 0 40) (by decide) (Or.inl (by decide)) (Or.inl (by decide))
      (Or.inr (Or.inl (by decide))) (by decide) (by decide)).1.trans (by decide),
    by decide⟩

/-- C17, the code at the failing input.  Scenario S5 (`ACTIVE_SEGMENT` mode): after the
switch back to A, A is active, has not pushed, has `B(40,40)` and `B(80,40)` in its cache, and
nothing is flushing or blocked.  The chain call for A's next buffer does not return, whatever
the fuel: each replayed buffer is cached again behind the others and the pruner keeps it, so
the replay loop goes round for ever, and with fuel `n + 2` it has pushed `n + 1` buffers
downstream. -/
theorem s5_replay_never_ends (fuel : Nat) :
    (gst_selector_pad_chain spec_lib quiet_env fuel s5_state 0
      (plain_buffer 3 120 40)).outcome = Outcome.diverged ∧
    (pushed_buffers (gst_selector_pad_chain spec_lib quiet_env fuel s5_state 0
      (plain_buffer 3 120 40)).trace).length = fuel - 1 :=
  stuck_replay_diverges quiet_env 0 s5_state (plain_buffer 3 120 40) (by decide) (by decide)
    (by decide) (by decide) (by decide) (by decide) (by decide) (by decide) (by decide)
    ((s5_state.pads 0).cached_buffers.getD []) (by decide) (by decide) (by decide) fuel

/-- C18.  An allocation request on an input that is not the active one notifies nothing and
leaves the active input as it is; it answers `OK` with a null buffer if the input's
`always_ok` is set, or the active input has not pushed, or `cache_buffers` is on, and
`NOT_LINKED` (the caller's buffer pointer untouched) otherwise. -/
theorem bufferalloc_on_inactive_input (sel : GstInputSelector) (pad a : PadId)
    (alloc : GstFlowReturn × Option GstBuffer) (buf : Option GstBuffer)
    (ha : sel.active_sinkpad = some a) (hne : a ≠ pad) :
    (gst_selector_pad_bufferalloc sel pad alloc buf).2 =
      (if (sel.pads pad).always_ok = true ∨ (sel.pads a).pushed = false ∨
          sel.cache_buffers = true then
        ([], GstFlowReturn.OK, none)
      else ([], GstFlowReturn.NOT_LINKED, buf)) ∧
    (gst_selector_pad_bufferalloc sel pad alloc buf).1.active_sinkpad = some a := by
  have hne2 : pad ≠ a := fun h => hne h.symm
  unfold gst_selector_pad_bufferalloc
  dsimp only
  simp only [activate_snd, ha, Option.getD_some, ne_eq, hne2, not_false_eq_true, if_true,
    activate_pads_same, activate_pads_ne _ _ _ hne, activate_cache_buffers,
    Bool.not_eq_true]
  constructor
  · split_ifs <;> rfl
  · split_ifs <;> simp [activate_active_sinkpad, ha]

/-- Witness of C18: in scenario S2 before the block, A is active and has pushed; B, with
`always_ok` at its default, gets `OK` and a null buffer. -/
theorem bufferalloc_on_inactive_input_witness :
    (gst_selector_pad_bufferalloc s2_before_block 1
        (GstFlowReturn.OK, some (plain_buffer 9 0 0)) (some (plain_buffer 8 0 0))).2 =
      ([], GstFlowReturn.OK, none) :=
  (bufferalloc_on_inactive_input s2_before_block 1 0
    (GstFlowReturn.OK, some (plain_buffer 9 0 0)) (some (plain_buffer 8 0 0))
    (by decide) (by decide)).1.trans (by decide)

/-- Counterexample to C19: with one successful answer, from a peer that is not live (min 10,
max 20), the query succeeds and the combined answer has min 0 and max unknown, not 10 and
20. -/
theorem latency_ignores_not_live_answer :
    two_pad_selector.sinkpads = [0, 1] ∧
    gst_input_selector_query_latency two_pad_selector not_live_peers
        { live := true, min := 5, max := 6 } =
      (true, { live := false, min := 0, max := -1 }) := by
  decide

/-- C19, amended.  The latency query succeeds exactly when the peer of at least one input
answers, and a query that fails is left as it was.  When it succeeds: `live` says whether
some answer is live; `min` is the largest `min` among the live answers (0 when there is
none) and `max` is the smallest `max` among the live answers (unknown, `-1`, when there is
none), both compared as unsigned numbers; answers that are not live do not count. -/
theorem latency_combines_live_answers (sel : GstInputSelector)
    (peer_query : PadId → Option GstLatency) (query : GstLatency) :
    ((gst_input_selector_query_latency sel peer_query query).1 = true ↔
      ∃ p ∈ sel.sinkpads, (peer_query p).isSome = true) ∧
    ((gst_input_selector_query_latency sel peer_query query).1 = false →
      (gst_input_selector_query_latency sel peer_query query).2 = query) ∧
    ((gst_input_selector_query_latency sel peer_query query).1 = true →
      ((gst_input_selector_query_latency sel peer_query query).2.live = true ↔
        ∃ p ∈ sel.sinkpads, ∃ x, peer_query p = some x ∧ x.live = true) ∧
      (∀ p ∈ sel.sinkpads, ∀ x, peer_query p = some x → x.live = true →
        u64 x.min ≤ u64 (gst_input_selector_query_latency sel peer_query query).2.min ∧
        u64 (gst_input_selector_query_latency sel peer_query query).2.max ≤ u64 x.max) ∧
      ((gst_input_selector_query_latency sel peer_query query).2.min = 0 ∨
        ∃ p ∈ sel.sinkpads, ∃ x, peer_query p = some x ∧ x.live = true ∧
          (gst_input_selector_query_latency sel peer_query query).2.min = x.min) ∧
      ((gst_input_selector_query_latency sel peer_query query).2.max = -1 ∨
        ∃ p ∈ sel.sinkpads, ∃ x, peer_query p = some x ∧ x.live = true ∧
          (gst_input_selector_query_latency sel peer_query query).2.max = x.max)) := by
  have h0 : latency_inv peer_query []
      { res := false, reslive := false, resmin := 0, resmax := -1 } := by
    refine ⟨?_, ?_, ?_, Or.inl rfl, Or.inl rfl⟩
    · simp
    · simp
    · intro p hp; cases hp
  have h := latency_foldl_inv peer_query sel.sinkpads [] _ h0
  rw [List.nil_append] at h
  obtain ⟨h1, h2, h3, h4, h5⟩ := h
  unfold gst_input_selector_query_latency
  dsimp only
  by_cases hr : (sel.sinkpads.foldl (latency_step peer_query)
      { res := false, reslive := false, resmin := 0, resmax := -1 }).res = true
  · rw [if_pos hr]
    refine ⟨⟨fun _ => h1.1 hr, fun _ => rfl⟩, ?_, fun _ => ⟨h2, h3, h4, h5⟩⟩
    intro hc
    cases hc
  · rw [if_neg hr]
    refine ⟨⟨?_, fun hc => absurd (h1.2 hc) hr⟩, fun _ => rfl, ?_⟩
    · intro hc
      cases hc
    · intro hc
      cases hc

/-- Witness of C19: the peers of A and B are both live, with 10 to 50 and 30 to 40; the
combined `min` is at least A's 10 and the combined `max` at most A's 50 (they are 30 and
40). -/
theorem latency_combines_live_answers_witness :
    gst_input_selector_query_latency two_pad_selector live_peers
        { live := false, min := 0, max := 0 } =
      (true, { live := true, min := 30, max := 40 }) ∧
    (u64 10 ≤ u64 (gst_input_selector_query_latency two_pad_selector live_peers
        { live := false, min := 0, max := 0 }).2.min ∧
      u64 (gst_input_selector_query_latency two_pad_selector live_peers
        { live := false, min := 0, max := 0 }).2.max ≤ u64 50) :=
  ⟨by decide,
    ((latency_combines_live_answers two_pad_selector live_peers
      { live := false, min := 0, max := 0 }).2.2 (by decide)).2.1 0 (by decide)
      { live := true, min := 10, max := 50 } rfl rfl⟩

/-- Counterexample to C20: in scenario S2 after `block()`, setting `active-pad` to B leaves
the selector blocked, whereas `switch(B, -1, -1)` unblocks it: the two states differ. -/
theorem set_active_pad_property_differs_from_switch :
    s2_blocked.blocked = true ∧
    ¬ (gst_input_selector_set_property spec_lib s2_blocked
        (GstInputSelectorProperty.ACTIVE_PAD (some 1)) =
      (gst_input_selector_switch spec_lib s2_blocked (some 1) (-1) (-1)).1) := by
  refine ⟨by decide, fun h => ?_⟩
  have h2 := congrArg GstInputSelector.blocked h
  revert h2
  decide

/-- C20, amended.  On a blocked selector, setting `active-pad` to `target` keeps the selector
blocked, and `switch(target, -1, -1)` yields the state the property leaves with `blocked`
cleared: the two agree on the active input, on every other selector field and on every pad
record. -/
theorem set_active_pad_property_is_switch_but_blocked (L : GstLib) (self : GstInputSelector)
    (target : Option PadId) (hb : self.blocked = true) :
    (gst_input_selector_set_property L self
      (GstInputSelectorProperty.ACTIVE_PAD target)).blocked = true ∧
    (gst_input_selector_switch L self target (-1) (-1)).1 =
      { gst_input_selector_set_property L self (GstInputSelectorProperty.ACTIVE_PAD target) with
        blocked := false } := by
  constructor
  · show (gst_input_selector_set_active_pad L self target (-1) (-1)).1.blocked = true
    unfold gst_input_selector_set_active_pad
    by_cases h : target = self.active_sinkpad
    · rw [if_pos h]; exact hb
    · rw [if_neg h]
      cases self.active_sinkpad <;> cases target <;> dsimp only <;> (try split_ifs) <;>
        simp [hb]
  · rw [switch_state L self target (-1) (-1) hb]
    rfl

/-- Witness of C20: scenario S2 after `block()`, with target B. -/
theorem set_active_pad_property_is_switch_but_blocked_witness :
    (gst_input_selector_set_property spec_lib s2_blocked
      (GstInputSelectorProperty.ACTIVE_PAD (some 1))).blocked = true ∧
    (gst_input_selector_switch spec_lib s2_blocked (some 1) (-1) (-1)).1 =
      { gst_input_selector_set_property spec_lib s2_blocked
          (GstInputSelectorProperty.ACTIVE_PAD (some 1)) with
        blocked := false } :=
  set_active_pad_property_is_switch_but_blocked spec_lib s2_blocked (some 1) (by decide)

/-! ### The forwarding block, traces and pending segments -/

/-- The trace of the forwarding block: the notification, if any, and then what goes
downstream. -/
theorem chain_forward_trace (L : GstLib) (env : Env) (s : GstInputSelector) (pad : PadId)
    (buf : GstBuffer) (n : Bool) :
    (chain_forward L env s pad buf n).2 =
      (if n = true then [Action.notify_active_pad] else []) ++
        downstream (chain_forward L env s pad buf n).2 := by
  unfold chain_forward
  simp only [downstream_append]
  have h1 : ∀ (c : Prop) [Decidable c] (e : GstEvent),
      downstream (if c then [Action.push_event e] else []) =
        (if c then [Action.push_event e] else []) := by
    intro c _ e; split_ifs <;> rfl
  have h2 : ∀ b, downstream [Action.push_buffer b] = [Action.push_buffer b] := fun b => rfl
  have e1 : downstream (if n = true then [Action.notify_active_pad] else []) = [] := by
    split_ifs <;> rfl
  rw [e1, h1, h1, h2]
  simp

/-- After the forwarding block the pad's segment is pending only if it was and could not be
sent because its format is `UNDEFINED`. -/
theorem chain_forward_segment_pending (L : GstLib) (env : Env) (s : GstInputSelector)
    (pad : PadId) (buf : GstBuffer) (n : Bool)
    (h : (s.pads pad).segment_pending = true → (s.pads pad).segment.format ≠ GstFormat.UNDEFINED) :
    ((chain_forward L env s pad buf n).1.pads pad).segment_pending = false := by
  unfold chain_forward
  dsimp only
  have hc : ∀ s1 : GstInputSelector,
      ((gst_input_selector_cleanup_old_cached_buffers L env s1 pad).pads pad).segment_pending =
        (s1.pads pad).segment_pending :=
    fun s1 => cleanup_keeps (fun x => x.segment_pending) (fun _ _ => rfl) (fun _ => rfl)
      L env s1 pad pad
  have hcb : ∀ (x : GstSelectorPad) (b : GstBuffer),
      (gst_selector_pad_cache_buffer x b).segment_pending = x.segment_pending := by
    intro x b
    unfold gst_selector_pad_cache_buffer
    split_ifs <;> rfl
  by_cases h0 : (s.pads pad).segment_pending = true ∧
      (s.pads pad).segment.format ≠ GstFormat.UNDEFINED
  · simp only [h0, and_self, if_true, ne_eq, not_false_eq_true]
    split_ifs <;> (try split) <;> (try split_ifs) <;>
      first
      | (rw [hc]; simp [hcb])
      | (simp)
  · have hp2 : (s.pads pad).segment_pending = false := by
      by_cases hp : (s.pads pad).segment_pending = true
      · exact absurd ⟨hp, h hp⟩ h0
      · simpa using hp
    simp only [h0, if_false]
    split_ifs <;> (try split) <;> (try split_ifs) <;>
      first
      | (rw [hc]; simp [hcb, hp2])
      | (simp [hp2])

/-- A chain call that does not replay, with the test of line 1162 spelled out: the
notification is published exactly when the pad was not the active one before the call. -/
theorem chain_no_replay_notify (L : GstLib) (env : Env) (fuel : Nat) (sel : GstInputSelector)
    (pad : PadId) (buf : GstBuffer)
    (hf : sel.flushing = false)
    (hb : sel.blocked = false ∨ (sel.pads pad).flushing = true)
    (ha : sel.active_sinkpad = some pad ∨ sel.active_sinkpad = none)
    (hr : sel.sync_streams = false ∨ (sel.pads pad).pushed = true ∨
      (sel.pads pad).cached_buffers = none ∨ (sel.pads pad).sending_cached_buffers = true) :
    ∃ s1 n, gst_selector_pad_chain L env (fuel + 1) sel pad buf =
        ⟨(chain_forward L env s1 pad buf n).1, (chain_forward L env s1 pad buf n).2,
          Outcome.returned env.push_result⟩ ∧
      n = decide (sel.active_sinkpad = none) ∧
      s1.pending_close = sel.pending_close ∧ s1.segment = sel.segment ∧
      s1.sync_streams = sel.sync_streams ∧ s1.cache_buffers = sel.cache_buffers ∧
      s1.flushing = sel.flushing ∧ s1.blocked = sel.blocked ∧
      s1.active_sinkpad = some pad ∧
      s1.pads pad =
        { sel.pads pad with
          active := true
          segment := chained_segment L (sel.pads pad) buf } := by
  have hgd : sel.active_sinkpad.getD pad = pad := by
    rcases ha with h | h <;> simp [h]
  have ha1 : (gst_input_selector_activate_sinkpad sel pad).1.active_sinkpad = some pad := by
    rw [activate_active_sinkpad, hgd]
  have hr1 : (gst_input_selector_activate_sinkpad sel pad).1.sync_streams = false ∨
      ((gst_input_selector_activate_sinkpad sel pad).1.pads pad).pushed = true ∨
      ((gst_input_selector_activate_sinkpad sel pad).1.pads pad).cached_buffers = none ∨
      ((gst_input_selector_activate_sinkpad sel pad).1.pads pad).sending_cached_buffers =
        true := by
    simpa using hr
  have hsy := chain_sync_no_replay L env (gst_selector_pad_chain L env fuel) fuel
    (gst_input_selector_activate_sinkpad sel pad).1 pad buf ha1 hr1
  have hbody : gst_selector_pad_chain L env (fuel + 1) sel pad buf =
      chain_body L env (gst_selector_pad_chain L env fuel) fuel sel pad buf := rfl
  rw [hbody]
  unfold chain_body
  rw [wait_not_blocked sel _ hf hb]
  dsimp only
  rw [activate_snd, hgd]
  unfold chained_segment
  rcases hsy with hsy | hsy <;> rw [hsy] <;> dsimp only <;>
    simp only [ne_eq, not_true_eq_false, if_false, List.nil_append] <;>
    refine ⟨_, _, rfl, ?_⟩ <;>
    by_cases hv : GST_CLOCK_TIME_IS_VALID buf.timestamp = true <;>
    rcases ha with ha | ha <;>
    simp [hv, hgd, ha]

/-- A chain call with sync-streams off on the active input, or on the first input when there
is no active one: the call returns; downstream goes the closing update if one is pending, the
open segment event if the input's segment is pending and defined, and the buffer; afterwards
the input is the active one, no closing update is pending, the input's segment is pending
only if it could not be sent, and its `discont` mark is clear. -/
theorem chain_plain_result (L : GstLib) (env : Env) (fuel : Nat) (sel : GstInputSelector)
    (pad : PadId) (buf : GstBuffer)
    (hf : sel.flushing = false)
    (hb : sel.blocked = false ∨ (sel.pads pad).flushing = true)
    (ha : sel.active_sinkpad = some pad ∨ sel.active_sinkpad = none)
    (hs : sel.sync_streams = false) :
    (gst_selector_pad_chain L env (fuel + 1) sel pad buf).outcome =
      Outcome.returned env.push_result ∧
    downstream (gst_selector_pad_chain L env (fuel + 1) sel pad buf).trace =
      (if sel.pending_close = true then [Action.push_event (close_segment_update sel.segment)]
        else []) ++
      (if (sel.pads pad).segment_pending = true ∧
          (chained_segment L (sel.pads pad) buf).format ≠ GstFormat.UNDEFINED then
        [Action.push_event (open_segment false (chained_segment L (sel.pads pad) buf))]
       else []) ++
      [Action.push_buffer (stamp_discont (sel.pads pad).discont buf)] ∧
    (gst_selector_pad_chain L env (fuel + 1) sel pad buf).sel.flushing = false ∧
    (gst_selector_pad_chain L env (fuel + 1) sel pad buf).sel.blocked = sel.blocked ∧
    (gst_selector_pad_chain L env (fuel + 1) sel pad buf).sel.sync_streams = false ∧
    (gst_selector_pad_chain L env (fuel + 1) sel pad buf).sel.active_sinkpad = some pad ∧
    (gst_selector_pad_chain L env (fuel + 1) sel pad buf).sel.pending_close = false ∧
    (((sel.pads pad).segment_pending = true →
        (chained_segment L (sel.pads pad) buf).format ≠ GstFormat.UNDEFINED) →
      ((gst_selector_pad_chain L env (fuel + 1) sel pad buf).sel.pads pad).segment_pending =
        false) ∧
    ((gst_selector_pad_chain L env (fuel + 1) sel pad buf).sel.pads pad).discont = false := by
  obtain ⟨s1, n, heq, _, hpc, hseg, hsync, hcache, hflush, hblocked, hact, hpad⟩ :=
    chain_no_replay_notify L env fuel sel pad buf hf hb ha (Or.inl hs)
  have h1 : (s1.pads pad).segment_pending = (sel.pads pad).segment_pending := by rw [hpad]
  have h2 : (s1.pads pad).segment = chained_segment L (sel.pads pad) buf := by rw [hpad]
  have h5 : (s1.pads pad).discont = (sel.pads pad).discont := by rw [hpad]
  obtain ⟨s4, b1, heq4, _, g1, g2, g3, _, _, _, _⟩ := chain_forward_stages L env s1 pad buf n
  have hs4 : ¬ (s4.sync_streams = true ∧ s4.cache_buffers = true) := by
    rintro ⟨hx, _⟩
    rw [g3, hsync, hs] at hx
    cases hx
  rw [heq]
  dsimp only
  refine ⟨rfl, ?_, ?_, ?_, ?_, chain_forward_active_sinkpad L env s1 pad pad buf n hact,
    chain_forward_pending_close L env s1 pad buf n, ?_, chain_forward_discont L env s1 pad buf n⟩
  · rw [chain_forward_downstream, hpc, hseg, hsync, hs, h1, h2, h5]
    simp
  · rw [heq4, if_neg hs4, modify_pad_flushing, g1, hflush, hf]
  · rw [heq4, if_neg hs4, modify_pad_blocked, g2, hblocked]
  · rw [heq4, if_neg hs4, modify_pad_sync_streams, g3, hsync, hs]
  · intro hfmt
    exact chain_forward_segment_pending L env s1 pad buf n (by rw [h1, h2]; exact hfmt)

/-! ### First touch and the open segment event -/

/-- Counterexample to C21: on a fresh selector with two inputs and no active input, a buffer
arriving through chain on A makes A the active input, and the chain call publishes the
active-pad change notification before it pushes the buffer. -/
theorem first_touch_chain_notifies :
    two_pad_selector.active_sinkpad = none ∧
    (gst_selector_pad_chain spec_lib quiet_env 1 two_pad_selector 0
      (plain_buffer 0 0 40)).sel.active_sinkpad = some 0 ∧
    (gst_selector_pad_chain spec_lib quiet_env 1 two_pad_selector 0
      (plain_buffer 0 0 40)).trace =
        [Action.notify_active_pad, Action.push_buffer (plain_buffer 0 0 40)] := by
  decide

/-- C21, amended.  A chain call on `pad` while the selector is not flushing, lets the call
pass (not blocked, or the pad flushing) and has no active input or `pad` as its active input,
and that does not replay a cache: the call returns, `pad` is the active input afterwards, and
the trace of the call is the active-pad change notification, published exactly when there was
no active input before the call, followed by what the call pushes downstream. -/
theorem first_touch_chain_activates_and_notifies (L : GstLib) (env : Env) (fuel : Nat)
    (sel : GstInputSelector) (pad : PadId) (buf : GstBuffer)
    (hf : sel.flushing = false)
    (hb : sel.blocked = false ∨ (sel.pads pad).flushing = true)
    (ha : sel.active_sinkpad = some pad ∨ sel.active_sinkpad = none)
    (hr : sel.sync_streams = false ∨ (sel.pads pad).pushed = true ∨
      (sel.pads pad).cached_buffers = none ∨ (sel.pads pad).sending_cached_buffers = true) :
    (gst_selector_pad_chain L env (fuel + 1) sel pad buf).outcome =
      Outcome.returned env.push_result ∧
    (gst_selector_pad_chain L env (fuel + 1) sel pad buf).sel.active_sinkpad = some pad ∧
    (gst_selector_pad_chain L env (fuel + 1) sel pad buf).trace =
      (if sel.active_sinkpad = none then [Action.notify_active_pad] else []) ++
        downstream (gst_selector_pad_chain L env (fuel + 1) sel pad buf).trace ∧
    pushed_buffers (gst_selector_pad_chain L env (fuel + 1) sel pad buf).trace =
      [stamp_discont (sel.pads pad).discont buf] := by
  obtain ⟨s1, n, heq, hn, _, _, _, _, _, _, hact, hpad⟩ :=
    chain_no_replay_notify L env fuel sel pad buf hf hb ha hr
  rw [heq]
  refine ⟨rfl, chain_forward_active_sinkpad L env s1 pad pad buf n hact, ?_, ?_⟩
  · dsimp only
    have := chain_forward_trace L env s1 pad buf n
    rw [hn] at this ⊢
    simpa using this
  · dsimp only
    rw [chain_forward_pushed_buffers, hpad]

/-- Witness for C21, amended: the first buffer on A of a fresh selector. -/
theorem first_touch_chain_activates_and_notifies_witness :
    two_pad_selector.flushing = false ∧ two_pad_selector.active_sinkpad = none ∧
    (gst_selector_pad_chain spec_lib quiet_env 1 two_pad_selector 0
      (plain_buffer 0 0 40)).sel.active_sinkpad = some 0 :=
  ⟨by decide, by decide,
    (first_touch_chain_activates_and_notifies spec_lib quiet_env 0 two_pad_selector 0
      (plain_buffer 0 0 40) (by decide) (Or.inl (by decide)) (Or.inr (by decide))
      (Or.inl (by decide))).2.1⟩

/-- The open segment event at the level of a chain call.  A chain call on the active input
`pad` that forwards its buffer (selector not
flushing, call not held by the block, no replay of a cache), with the input's
`segment_pending` set and a segment whose format is not `UNDEFINED`: what the call pushes
downstream is the closing segment update if one is pending, then the open segment event, then
the buffer.  The open segment event carries rate, applied_rate, format, start, stop and time
of the input's segment, and its update flag is the input's recorded `segment_update` when
`sync_streams`, `cache_buffers` and the input's `pushed` are all true and false otherwise;
`segment_pending` is false when the call returns. -/
theorem chain_opens_pending_segment (L : GstLib) (env : Env) (fuel : Nat)
    (sel : GstInputSelector) (pad : PadId) (buf : GstBuffer)
    (hf : sel.flushing = false)
    (hb : sel.blocked = false ∨ (sel.pads pad).flushing = true)
    (ha : sel.active_sinkpad = some pad)
    (hr : sel.sync_streams = false ∨ (sel.pads pad).pushed = true ∨
      (sel.pads pad).cached_buffers = none ∨ (sel.pads pad).sending_cached_buffers = true)
    (hp : (sel.pads pad).segment_pending = true)
    (hfmt : (chained_segment L (sel.pads pad) buf).format ≠ GstFormat.UNDEFINED) :
    (gst_selector_pad_chain L env (fuel + 1) sel pad buf).outcome =
      Outcome.returned env.push_result ∧
    (gst_selector_pad_chain L env (fuel + 1) sel pad buf).trace =
      (if sel.pending_close = true then [Action.push_event (close_segment_update sel.segment)]
        else []) ++
      [Action.push_event (GstEvent.NEWSEGMENT
        (if sel.sync_streams = true ∧ sel.cache_buffers = true ∧ (sel.pads pad).pushed = true
          then (sel.pads pad).segment_update else false)
        (chained_segment L (sel.pads pad) buf).rate
        (chained_segment L (sel.pads pad) buf).applied_rate
        (chained_segment L (sel.pads pad) buf).format
        (chained_segment L (sel.pads pad) buf).start
        (chained_segment L (sel.pads pad) buf).stop
        (chained_segment L (sel.pads pad) buf).time),
       Action.push_buffer (stamp_discont (sel.pads pad).discont buf)] ∧
    ((gst_selector_pad_chain L env (fuel + 1) sel pad buf).sel.pads pad).segment_pending =
      false := by
  obtain ⟨s1, n, heq, hn, hpc, hseg, hsync, hcache, _, _, _, hpad⟩ :=
    chain_no_replay_notify L env fuel sel pad buf hf hb (Or.inl ha) hr
  have hn2 : n = false := by rw [hn, ha]; rfl
  have h1 : (s1.pads pad).segment_pending = true := by rw [hpad]; exact hp
  have h2 : (s1.pads pad).segment = chained_segment L (sel.pads pad) buf := by rw [hpad]
  have hfmt1 : (s1.pads pad).segment.format ≠ GstFormat.UNDEFINED := by rw [h2]; exact hfmt
  have ht := chain_forward_trace L env s1 pad buf n
  rw [hn2] at ht
  simp only [Bool.false_eq_true, if_false, List.nil_append] at ht
  rw [heq]
  refine ⟨rfl, ?_, ?_⟩
  · dsimp only
    rw [hn2, ht, chain_forward_downstream, hpc, hseg, hsync, hcache,
      if_pos (show (s1.pads pad).segment_pending = true ∧
        (s1.pads pad).segment.format ≠ GstFormat.UNDEFINED from ⟨h1, hfmt1⟩), h2]
    have h3 : (s1.pads pad).pushed = (sel.pads pad).pushed := by rw [hpad]
    have h4 : (s1.pads pad).segment_update = (sel.pads pad).segment_update := by rw [hpad]
    have h5 : (s1.pads pad).discont = (sel.pads pad).discont := by rw [hpad]
    rw [h3, h4, h5]
    unfold open_segment
    cases sel.sync_streams <;> cases sel.cache_buffers <;> cases (sel.pads pad).pushed <;> simp
  · dsimp only
    exact chain_forward_segment_pending L env s1 pad buf n (fun _ => hfmt1)

/-- The ways a chain call ends: with the forwarding block on a state in which the pad is the
active input, after whatever a replay pushed; parked; without returning; with `WRONG_STATE`;
or at the label `ignore` on an input that is not the active one. -/
theorem chain_call_cases (L : GstLib) (env : Env) (fuel : Nat) (sel : GstInputSelector)
    (pad : PadId) (buf : GstBuffer) :
    (∃ s1 pre n, s1.active_sinkpad = some pad ∧
      gst_selector_pad_chain L env fuel sel pad buf =
        ⟨(chain_forward L env s1 pad buf n).1, pre ++ (chain_forward L env s1 pad buf n).2,
          Outcome.returned env.push_result⟩) ∨
    (gst_selector_pad_chain L env fuel sel pad buf).outcome = Outcome.parked ∨
    (gst_selector_pad_chain L env fuel sel pad buf).outcome = Outcome.diverged ∨
    (gst_selector_pad_chain L env fuel sel pad buf).outcome =
      Outcome.returned GstFlowReturn.WRONG_STATE ∨
    (∃ s1 a, a ≠ pad ∧ s1.active_sinkpad = some a ∧
      (gst_selector_pad_chain L env fuel sel pad buf).sel = (chain_ignore s1 pad a).1 ∧
      (gst_selector_pad_chain L env fuel sel pad buf).outcome =
        Outcome.returned (chain_ignore s1 pad a).2) := by
  cases fuel with
  | zero => exact Or.inr (Or.inr (Or.inl rfl))
  | succ fuel =>
    have hbody : gst_selector_pad_chain L env (fuel + 1) sel pad buf =
        chain_body L env (gst_selector_pad_chain L env fuel) fuel sel pad buf := rfl
    rw [hbody]
    unfold chain_body
    split
    · exact Or.inr (Or.inl rfl)
    · exact Or.inr (Or.inr (Or.inr (Or.inl rfl)))
    · dsimp only
      have hact := chain_sync_active L env (gst_selector_pad_chain L env fuel) fuel
        (gst_input_selector_activate_sinkpad sel pad).1 pad buf
        (gst_input_selector_activate_sinkpad sel pad).2
      split
      · exact Or.inr (Or.inl rfl)
      · exact Or.inr (Or.inr (Or.inl rfl))
      · exact Or.inr (Or.inr (Or.inr (Or.inl rfl)))
      · rename_i x hsy
        have hx := hact x (by rw [activate_active_sinkpad, activate_snd]) hsy
        by_cases hpx : pad = x
        · rw [if_neg (by simpa using hpx)]
          refine Or.inl ⟨_, _, _, ?_, rfl⟩
          subst hpx
          split_ifs <;> simpa using hx
        · rw [if_pos hpx]
          refine Or.inr (Or.inr (Or.inr (Or.inr ⟨_, x, fun h => hpx h.symm, ?_, rfl, rfl⟩)))
          split_ifs <;> simpa using hx

/-- A chain call that replays its cache runs the forwarding block once per buffer.  In
`replay_update_state` the call with the buffer (40, 40) first forwards the cached buffer
(0, 40), whose open segment has update false because the input has not pushed yet, and then
its own buffer, whose open segment carries the recorded update because the input has pushed by
then. -/
theorem replay_opens_segment_per_buffer :
    replay_update_state.active_sinkpad = some 0 ∧
    (replay_update_state.pads 0).segment_pending = true ∧
    (replay_update_state.pads 0).pushed = false ∧
    (replay_update_state.pads 0).segment_update = true ∧
    downstream (gst_selector_pad_chain spec_lib (clock_env 1000) 3 replay_update_state 0
      (plain_buffer 1 40 40)).trace =
      [Action.push_event (GstEvent.NEWSEGMENT true ⟨1, 1⟩ ⟨1, 1⟩ GstFormat.TIME 0 0 0),
       Action.push_event (GstEvent.NEWSEGMENT false ⟨1, 1⟩ ⟨1, 1⟩ GstFormat.TIME 0 (-1) 0),
       Action.push_buffer (plain_buffer 0 0 40),
       Action.push_event (GstEvent.NEWSEGMENT true ⟨1, 1⟩ ⟨1, 1⟩ GstFormat.TIME 0 (-1) 0),
       Action.push_buffer (plain_buffer 1 40 40)] := by
  decide

/-- C22.  The forwarding block of `gst_selector_pad_chain` (lines 1112-1210): with the input's
`segment_pending` set and a segment whose format is not `UNDEFINED`, the block
publishes the notification if one is due, pushes the closing segment update if one is pending,
then the open segment event, then the buffer.  The open segment event carries rate,
applied_rate, format, start, stop and time of the input's segment, and its update flag is the
input's recorded `segment_update` when `sync_streams`, `cache_buffers` and the input's
`pushed` are all true and false otherwise; `segment_pending` is false afterwards.  Every chain
call, with or without a replay of the cache, that pushes its own buffer does so through this
block on a state in which the pad is the active input: a call parks, does not return, returns
`WRONG_STATE`, drops the buffer on an input that is not the active one, or ends with the
block. -/
theorem pending_segment_opened_before_buffer (L : GstLib) (env : Env) (s : GstInputSelector)
    (pad : PadId) (buf : GstBuffer) (n : Bool)
    (hp : (s.pads pad).segment_pending = true)
    (hfmt : (s.pads pad).segment.format ≠ GstFormat.UNDEFINED) :
    (chain_forward L env s pad buf n).2 =
      (if n = true then [Action.notify_active_pad] else []) ++
      (if s.pending_close = true then [Action.push_event (close_segment_update s.segment)]
        else []) ++
      [Action.push_event (GstEvent.NEWSEGMENT
        (if s.sync_streams = true ∧ s.cache_buffers = true ∧ (s.pads pad).pushed = true
          then (s.pads pad).segment_update else false)
        (s.pads pad).segment.rate (s.pads pad).segment.applied_rate
        (s.pads pad).segment.format (s.pads pad).segment.start
        (s.pads pad).segment.stop (s.pads pad).segment.time),
       Action.push_buffer (stamp_discont (s.pads pad).discont buf)] ∧
    ((chain_forward L env s pad buf n).1.pads pad).segment_pending = false ∧
    ∀ (fuel : Nat) (sel : GstInputSelector),
      (∃ s1 pre m, s1.active_sinkpad = some pad ∧
        gst_selector_pad_chain L env fuel sel pad buf =
          ⟨(chain_forward L env s1 pad buf m).1, pre ++ (chain_forward L env s1 pad buf m).2,
            Outcome.returned env.push_result⟩) ∨
      (gst_selector_pad_chain L env fuel sel pad buf).outcome = Outcome.parked ∨
      (gst_selector_pad_chain L env fuel sel pad buf).outcome = Outcome.diverged ∨
      (gst_selector_pad_chain L env fuel sel pad buf).outcome =
        Outcome.returned GstFlowReturn.WRONG_STATE ∨
      (∃ s1 a, a ≠ pad ∧ s1.active_sinkpad = some a ∧
        (gst_selector_pad_chain L env fuel sel pad buf).sel = (chain_ignore s1 pad a).1 ∧
        (gst_selector_pad_chain L env fuel sel pad buf).outcome =
          Outcome.returned (chain_ignore s1 pad a).2) := by
  refine ⟨?_, chain_forward_segment_pending L env s pad buf n (fun _ => hfmt),
    fun fuel sel => chain_call_cases L env fuel sel pad buf⟩
  rw [chain_forward_trace, chain_forward_downstream,
    if_pos (show (s.pads pad).segment_pending = true ∧
      (s.pads pad).segment.format ≠ GstFormat.UNDEFINED from ⟨hp, hfmt⟩)]
  unfold open_segment
  cases s.sync_streams <;> cases s.cache_buffers <;> cases (s.pads pad).pushed <;> simp

/-- Witness for C22: in scenario S2 right after the switch B is active with its segment
pending; once its first buffer has gone through the forwarding block the segment is no longer
pending. -/
theorem pending_segment_opened_before_buffer_witness :
    (s2_switched.pads 1).segment_pending = true ∧
    (s2_switched.pads 1).segment.format ≠ GstFormat.UNDEFINED ∧
    ((chain_forward spec_lib quiet_env s2_switched 1 (plain_buffer 2 80 40) false).1.pads
      1).segment_pending = false :=
  ⟨by decide, by decide,
    (pending_segment_opened_before_buffer spec_lib quiet_env s2_switched 1
      (plain_buffer 2 80 40) false (by decide) (by decide)).2.1⟩

/-! ### Calls that cannot replay a cache -/

theorem pad_frame_refl {α : Type} (g : GstSelectorPad → α) (s : GstInputSelector) :
    pad_frame g s s := ⟨rfl, rfl, fun _ => ⟨rfl, rfl⟩⟩

theorem pad_frame_trans {α : Type} (g : GstSelectorPad → α) (s s1 s2 : GstInputSelector)
    (h1 : pad_frame g s s1) (h2 : pad_frame g s1 s2) : pad_frame g s s2 :=
  ⟨h2.1.trans h1.1, h2.2.1.trans h1.2.1,
    fun q => ⟨(h2.2.2 q).1.trans (h1.2.2 q).1, (h2.2.2 q).2.trans (h1.2.2 q).2⟩⟩

theorem pad_frame_modify {α : Type} (g : GstSelectorPad → α) (s : GstInputSelector) (p : PadId)
    (f : GstSelectorPad → GstSelectorPad)
    (hf : ∀ x, (f x).cached_buffers = x.cached_buffers ∧ g (f x) = g x) :
    pad_frame g s (s.modify_pad p f) := by
  refine ⟨rfl, rfl, fun q => ?_⟩
  rw [modify_pad_pads]
  split_ifs with h
  · rw [h]; exact hf _
  · exact ⟨rfl, rfl⟩

theorem pad_frame_activate {α : Type} (L : GstLib) (g : GstSelectorPad → α)
    (hg : chain_blind L g) (s : GstInputSelector) (pad : PadId) :
    pad_frame g s (gst_input_selector_activate_sinkpad s pad).1 := by
  refine ⟨activate_sync_streams s pad, activate_cache_buffers s pad, fun q => ?_⟩
  rw [activate_pads]
  split_ifs with h
  · rw [h]; exact ⟨rfl, hg.1 _ _⟩
  · exact ⟨rfl, rfl⟩

theorem never_replays_frame {α : Type} (g : GstSelectorPad → α) (s s1 : GstInputSelector)
    (h : never_replays s) (hf : pad_frame g s s1) : never_replays s1 := by
  rcases h with h | ⟨h1, h2⟩
  · exact Or.inl (hf.1.trans h)
  · exact Or.inr ⟨hf.2.1.trans h1, fun q => (hf.2.2 q).1.trans (h2 q)⟩

theorem wait_running_time_pad_frame {α : Type} (L : GstLib) (g : GstSelectorPad → α)
    (hg : chain_blind L g) (env : Env) (s : GstInputSelector)
    (pad : PadId) (buf : GstBuffer) :
    pad_frame g s (gst_input_selector_wait_running_time L env s pad buf).1 := by
  have hact := pad_frame_activate L g hg s pad
  unfold gst_input_selector_wait_running_time
  dsimp only
  split_ifs
  all_goals first
    | exact pad_frame_refl g s
    | exact hact
    | (split <;> first
        | exact hact
        | (split_ifs <;> exact hact))

theorem chain_sync_pad_frame {α : Type} (L : GstLib) (g : GstSelectorPad → α)
    (hg : chain_blind L g) (env : Env)
    (chain : GstInputSelector → PadId → GstBuffer → ChainResult) (fuel : Nat)
    (s : GstInputSelector) (pad : PadId) (buf : GstBuffer) (a : PadId)
    (h : s.sync_streams = false ∨ (s.pads pad).cached_buffers = none) :
    pad_frame g s (chain_sync L env chain fuel s pad buf a).1 ∧
    (chain_sync L env chain fuel s pad buf a).2.1 = [] := by
  unfold chain_sync
  by_cases hs : s.sync_streams = true
  · have hc : (s.pads pad).cached_buffers = none := by
      rcases h with h | h
      · rw [hs] at h; cases h
      · exact h
    have hrp : chain_replay chain fuel s pad a = (s, [], Outcome.returned a) := by
      unfold chain_replay
      rw [if_neg]
      rw [hc]
      simp
    simp only [hs, not_true_eq_false, if_false, hrp]
    have hw := wait_running_time_pad_frame L g hg env s pad buf
    by_cases hap : a = pad
    · simp only [hap, ne_eq, not_true_eq_false, if_false]
      exact ⟨pad_frame_activate L g hg s pad, by trivial⟩
    · simp only [hap, ne_eq, not_false_eq_true, if_true]
      split
      · exact ⟨hw, by trivial⟩
      · exact ⟨hw, by trivial⟩
      · exact ⟨pad_frame_trans g _ _ _ hw (pad_frame_activate L g hg _ pad), by trivial⟩
  · rw [if_pos hs]
    exact ⟨pad_frame_refl g s, rfl⟩

theorem chain_forward_stages_frame {α : Type} (L : GstLib) (g : GstSelectorPad → α)
    (hg : chain_blind L g) (env : Env) (s : GstInputSelector)
    (pad : PadId) (buf : GstBuffer) (n : Bool) :
    ∃ (s4 : GstInputSelector) (b1 : GstBuffer),
      (chain_forward L env s pad buf n).1 =
        (if s4.sync_streams = true ∧ s4.cache_buffers = true then
          gst_input_selector_cleanup_old_cached_buffers L env
            ((if (gst_input_selector_activate_sinkpad s4 pad).2 = pad then
                (gst_input_selector_activate_sinkpad s4 pad).1.modify_pad pad
                  (fun p => { p with pushed := true })
              else (gst_input_selector_activate_sinkpad s4 pad).1).modify_pad pad
              (fun p => gst_selector_pad_cache_buffer p b1)) pad
        else s4.modify_pad pad (fun p => { p with pushed := true })) ∧
      pad_frame g s s4 := by
  unfold chain_forward
  refine ⟨_, _, rfl, ?_⟩
  dsimp only
  have h1 : pad_frame g s { s with pending_close := false } := ⟨rfl, rfl, fun _ => ⟨rfl, rfl⟩⟩
  have h3 : ∀ x : GstInputSelector, pad_frame g s x →
      pad_frame g s (x.modify_pad pad (fun p => { p with discont := false })) :=
    fun x hx => pad_frame_trans g _ _ _ hx
      (pad_frame_modify g _ pad _ (fun _ => ⟨rfl, hg.2.2.1 _ _⟩))
  have t1 := h3 _ (pad_frame_trans g _ _ _ h1
    (pad_frame_modify g _ pad (fun p => { p with segment_pending := false })
      (fun _ => ⟨rfl, hg.2.2.2.1 _ _⟩)))
  have t2 := h3 _ h1
  split_ifs <;> (try split) <;> (try split_ifs) <;>
    first
    | exact t1
    | exact t2

theorem chain_forward_pad_frame {α : Type} (L : GstLib) (g : GstSelectorPad → α)
    (hg : chain_blind L g) (env : Env) (s : GstInputSelector)
    (pad : PadId) (buf : GstBuffer) (n : Bool)
    (h : ¬ (s.sync_streams = true ∧ s.cache_buffers = true)) :
    pad_frame g s (chain_forward L env s pad buf n).1 := by
  obtain ⟨s4, b1, heq, hfr⟩ := chain_forward_stages_frame L g hg env s pad buf n
  rw [heq, if_neg (by rw [hfr.1, hfr.2.1]; exact h)]
  exact pad_frame_trans g _ _ _ hfr (pad_frame_modify g _ pad _ (fun _ => ⟨rfl, hg.2.1 _ _⟩))

/-- A chain call on a selector that cannot replay keeps the modes, the caches and every
reading of the pad records that is blind to what the call writes, and it pushes at most its
own buffer. -/
theorem chain_pad_frame {α : Type} (L : GstLib) (g : GstSelectorPad → α)
    (hg : chain_blind L g) (env : Env) (fuel : Nat) (sel : GstInputSelector)
    (pad : PadId) (buf : GstBuffer) (h : never_replays sel) :
    pad_frame g sel (gst_selector_pad_chain L env fuel sel pad buf).sel ∧
    (pushed_buffers (gst_selector_pad_chain L env fuel sel pad buf).trace = [] ∨
      ∃ d, pushed_buffers (gst_selector_pad_chain L env fuel sel pad buf).trace =
        [stamp_discont d buf]) := by
  cases fuel with
  | zero => exact ⟨pad_frame_refl g sel, Or.inl rfl⟩
  | succ n =>
    have hbody : gst_selector_pad_chain L env (n + 1) sel pad buf =
        chain_body L env (gst_selector_pad_chain L env n) n sel pad buf := rfl
    rw [hbody]
    have hact := pad_frame_activate L g hg sel pad
    have h1 := never_replays_frame g _ _ h hact
    have hcond : (gst_input_selector_activate_sinkpad sel pad).1.sync_streams = false ∨
        ((gst_input_selector_activate_sinkpad sel pad).1.pads pad).cached_buffers = none := by
      rcases h1 with h1 | h1
      · exact Or.inl h1
      · exact Or.inr (h1.2 pad)
    have hsy := chain_sync_pad_frame L g hg env (gst_selector_pad_chain L env n) n
      (gst_input_selector_activate_sinkpad sel pad).1 pad buf
      (gst_input_selector_activate_sinkpad sel pad).2 hcond
    have hfr := pad_frame_trans g _ _ _ hact hsy.1
    have hfrA := pad_frame_trans g _ _ _ hfr (pad_frame_modify g
      (chain_sync L env (gst_selector_pad_chain L env n) n
        (gst_input_selector_activate_sinkpad sel pad).1 pad buf
        (gst_input_selector_activate_sinkpad sel pad).2).1 pad
      (fun p =>
        { p with
          segment := L.gst_segment_set_last_stop p.segment p.segment.format buf.timestamp })
      (fun _ => ⟨rfl, hg.2.2.2.2 _ _ _⟩))
    have hnot : ∀ x : GstInputSelector, never_replays x →
        ¬ (x.sync_streams = true ∧ x.cache_buffers = true) := by
      rintro x hx ⟨ha, hb⟩
      rcases hx with hx | hx
      · rw [ha] at hx; cases hx
      · rw [hb] at hx; cases hx.1
    unfold chain_body
    split
    · exact ⟨pad_frame_refl g sel, Or.inl rfl⟩
    · exact ⟨pad_frame_refl g sel, Or.inl rfl⟩
    · dsimp only
      split
      · exact ⟨hfr, Or.inl (by rw [hsy.2]; rfl)⟩
      · exact ⟨hfr, Or.inl (by rw [hsy.2]; rfl)⟩
      · exact ⟨hfr, Or.inl (by rw [hsy.2]; rfl)⟩
      · split_ifs <;> dsimp only <;>
          first
          | (refine ⟨?_, Or.inl (by rw [hsy.2]; rfl)⟩
             unfold chain_ignore
             dsimp only
             first
             | exact pad_frame_trans g _ _ _ hfrA
                 (pad_frame_modify g _ pad _ (fun _ => ⟨rfl, hg.2.2.1 _ _⟩))
             | exact pad_frame_trans g _ _ _ hfr
                 (pad_frame_modify g _ pad _ (fun _ => ⟨rfl, hg.2.2.1 _ _⟩)))
          | (refine ⟨pad_frame_trans g _ _ _ hfrA (chain_forward_pad_frame L g hg env _ pad buf _
               (hnot _ (never_replays_frame g _ _ h hfrA))), Or.inr ?_⟩
             rw [pushed_buffers_append, hsy.2, chain_forward_pushed_buffers]
             exact ⟨_, rfl⟩)
          | (refine ⟨pad_frame_trans g _ _ _ hfr (chain_forward_pad_frame L g hg env _ pad buf _
               (hnot _ (never_replays_frame g _ _ h hfr))), Or.inr ?_⟩
             rw [pushed_buffers_append, hsy.2, chain_forward_pushed_buffers]
             exact ⟨_, rfl⟩)

/-- Every reading is blind when it reads nothing. -/
theorem chain_blind_unit (L : GstLib) : chain_blind L (fun _ : GstSelectorPad => ()) :=
  ⟨fun _ _ => rfl, fun _ _ => rfl, fun _ _ => rfl, fun _ _ => rfl, fun _ _ _ => rfl⟩

/-! ### Forwarded buffers against received buffers -/

theorem set_active_pad_cached_buffers (L : GstLib) (self : GstInputSelector)
    (pad : Option PadId) (stop_time start_time : Int) (p : PadId) :
    ((gst_input_selector_set_active_pad L self pad stop_time start_time).1.pads
        p).cached_buffers = (self.pads p).cached_buffers := by
  unfold gst_input_selector_set_active_pad
  by_cases h : pad = self.active_sinkpad
  · rw [if_pos h]
  · rw [if_neg h]
    cases self.active_sinkpad <;> cases pad <;> dsimp only <;> (try split_ifs) <;>
      simp only [modify_pad_pads] <;> (try split_ifs) <;> simp_all

theorem set_active_pad_modes (L : GstLib) (self : GstInputSelector) (pad : Option PadId)
    (stop_time start_time : Int) :
    (gst_input_selector_set_active_pad L self pad stop_time start_time).1.sync_streams =
      self.sync_streams ∧
    (gst_input_selector_set_active_pad L self pad stop_time start_time).1.cache_buffers =
      self.cache_buffers := by
  unfold gst_input_selector_set_active_pad
  by_cases h : pad = self.active_sinkpad
  · rw [if_pos h]
    exact ⟨rfl, rfl⟩
  · rw [if_neg h]
    cases self.active_sinkpad <;> cases pad <;> dsimp only <;> (try split_ifs) <;>
      exact ⟨rfl, rfl⟩

theorem switch_pad_frame (L : GstLib) (self : GstInputSelector) (pad : Option PadId)
    (stop_time start_time : Int) :
    pad_frame (fun _ => ()) self
      (gst_input_selector_switch L self pad stop_time start_time).1 := by
  unfold gst_input_selector_switch
  split_ifs
  · exact pad_frame_refl _ self
  · exact ⟨(set_active_pad_modes L self pad stop_time start_time).1,
      (set_active_pad_modes L self pad stop_time start_time).2,
      fun q => ⟨set_active_pad_cached_buffers L self pad stop_time start_time q, rfl⟩⟩

theorem block_pad_frame {α : Type} (g : GstSelectorPad → α) (L : GstLib)
    (self : GstInputSelector) : pad_frame g self (gst_input_selector_block L self).1 := by
  unfold gst_input_selector_block
  dsimp only
  split <;> exact ⟨rfl, rfl, fun _ => ⟨rfl, rfl⟩⟩

theorem event_switch_caches (L : GstLib) (sel : GstInputSelector) (pad a : PadId)
    (forward : Bool) (e : GstEvent) :
    (event_switch L sel pad a forward e).1.sync_streams = sel.sync_streams ∧
    (event_switch L sel pad a forward e).1.cache_buffers = sel.cache_buffers ∧
    ∀ q, ((event_switch L sel pad a forward e).1.pads q).cached_buffers = none ∨
      ((event_switch L sel pad a forward e).1.pads q).cached_buffers =
        (sel.pads q).cached_buffers := by
  unfold event_switch
  cases e with
  | FLUSH_START =>
    refine ⟨rfl, rfl, fun q => Or.inr ?_⟩
    simp only [modify_pad_pads]; split_ifs with hq <;> simp_all
  | FLUSH_STOP =>
    refine ⟨rfl, rfl, fun q => ?_⟩
    show ((sel.modify_pad pad (gst_selector_pad_reset L)).pads q).cached_buffers = none ∨
      ((sel.modify_pad pad (gst_selector_pad_reset L)).pads q).cached_buffers = _
    rw [modify_pad_pads]
    split_ifs with hq
    · left; rfl
    · right; rfl
  | NEWSEGMENT update rate arate format start stop time =>
    dsimp only
    refine ⟨?_, ?_, fun q => Or.inr ?_⟩
    · split_ifs <;> rfl
    · split_ifs <;> rfl
    · split_ifs <;> simp only [modify_pad_pads] <;> (try split_ifs) <;> simp_all
  | TAG tags =>
    refine ⟨rfl, rfl, fun q => Or.inr ?_⟩
    simp only [modify_pad_pads]; split_ifs with hq <;> simp_all
  | EOS =>
    dsimp only
    refine ⟨?_, ?_, fun q => Or.inr ?_⟩
    · split_ifs <;> rfl
    · split_ifs <;> rfl
    · split_ifs <;> simp only [modify_pad_pads] <;> (try split_ifs) <;> simp_all
  | OTHER id => exact ⟨rfl, rfl, fun q => Or.inr rfl⟩

theorem event_never_replays (L : GstLib) (env : Env) (sel : GstInputSelector) (pad : PadId)
    (e : GstEvent) (h : never_replays sel) :
    never_replays (gst_selector_pad_event L env sel pad e).1 := by
  have h2 := never_replays_frame _ _ _ h (pad_frame_trans _ _ _ _
    (pad_frame_activate L _ (chain_blind_unit L) sel pad)
    (pad_frame_activate L _ (chain_blind_unit L)
      (gst_input_selector_activate_sinkpad sel pad).1 pad))
  have key : ∀ a f, never_replays (event_switch L
      (gst_input_selector_activate_sinkpad (gst_input_selector_activate_sinkpad sel pad).1 pad).1
      pad a f e).1 := by
    intro a f
    obtain ⟨e1, e2, e3⟩ := event_switch_caches L
      (gst_input_selector_activate_sinkpad (gst_input_selector_activate_sinkpad sel pad).1 pad).1
      pad a f e
    rcases h2 with h2 | ⟨h3, h4⟩
    · exact Or.inl (e1.trans h2)
    · refine Or.inr ⟨e2.trans h3, fun q => ?_⟩
      rcases e3 q with hq | hq
      · exact hq
      · exact hq.trans (h4 q)
  unfold gst_selector_pad_event
  dsimp only
  split_ifs <;> exact key _ _

theorem step_never_replays (L : GstLib) (env : Env) (fuel : Nat) (sel : GstInputSelector)
    (op : Op) (h : never_replays sel) : never_replays (step L env fuel sel op).1 := by
  cases op with
  | event pad e => exact event_never_replays L env sel pad e h
  | chain pad buf =>
    exact never_replays_frame _ _ _ h
      (chain_pad_frame L _ (chain_blind_unit L) env fuel sel pad buf h).1
  | block => exact never_replays_frame _ _ _ h (block_pad_frame (fun _ => ()) L sel)
  | switch pad a b => exact never_replays_frame _ _ _ h (switch_pad_frame L sel pad a b)

theorem payload_stamp_discont (d : Bool) (buf : GstBuffer) :
    (stamp_discont d buf).payload = buf.payload := by
  unfold stamp_discont GstBuffer.payload
  split_ifs <;> rfl

/-- Counterexample to C23: in `CLOCK` mode with caching, A forwards and caches `B(0,40)` while
the clock reads 0, the controller switches to B and back to A, the clock moves on, and A
receives `B(40,40)`: the chain call first replays the cache, so `B(0,40)` is forwarded a second
time.  A received `B(0,40)`, `B(40,40)` and forwarded `B(0,40)`, `B(0,40)`, `B(40,40)`. -/
theorem replayed_buffer_forwarded_twice :
    replay_state = (run spec_lib (clock_env 0) 2 clock_cache_selector replay_ops).1 ∧
    forwarded_from spec_lib (clock_env 0) 2 0 clock_cache_selector replay_ops =
      [plain_buffer 0 0 40] ∧
    forwarded_from spec_lib (clock_env 1000) 3 0 replay_state
      [Op.chain 0 (plain_buffer 1 40 40)] = [plain_buffer 0 0 40, plain_buffer 1 40 40] ∧
    (gst_selector_pad_chain spec_lib (clock_env 1000) 3 replay_state 0
      (plain_buffer 1 40 40)).outcome = Outcome.returned GstFlowReturn.OK ∧
    received_on 0 (replay_ops ++ [Op.chain 0 (plain_buffer 1 40 40)]) =
      [plain_buffer 0 0 40, plain_buffer 1 40 40] :=
  ⟨rfl, by decide, by decide, by decide, by decide⟩

/-- C23, amended.  On a selector that cannot replay a cache (sync-streams mode off, or caching
off and no input holding a cache), for every input `p` and every sequence of operations the
buffers forwarded downstream from `p` are, up to the `DISCONT` flag the selector may set, a
subsequence of the buffers `p` received: in arrival order, each received buffer forwarded at
most once. -/
theorem forwarded_is_subsequence_without_replay (L : GstLib) (env : Env) (fuel : Nat)
    (p : PadId) (ops : List Op) (sel : GstInputSelector) (h : never_replays sel) :
    ((forwarded_from L env fuel p sel ops).map GstBuffer.payload).Sublist
      ((received_on p ops).map GstBuffer.payload) := by
  induction ops generalizing sel with
  | nil => exact List.Sublist.slnil
  | cons op ops ih =>
    have hnext := ih (step L env fuel sel op).1 (step_never_replays L env fuel sel op h)
    cases op with
    | event pad e => simpa [forwarded_from, received_on] using hnext
    | block => simpa [forwarded_from, received_on] using hnext
    | switch pad a b => simpa [forwarded_from, received_on] using hnext
    | chain pad buf =>
      by_cases hq : pad = p
      · subst hq
        have hc := (chain_pad_frame L _ (chain_blind_unit L) env fuel sel pad buf h).2
        have hst : (step L env fuel sel (Op.chain pad buf)).2 =
            (gst_selector_pad_chain L env fuel sel pad buf).trace := rfl
        simp only [forwarded_from, received_on, if_true, List.map_append, List.map_cons]
        rw [hst]
        rcases hc with hc | ⟨d, hc⟩
        · rw [hc]
          exact List.Sublist.cons _ (by simpa using hnext)
        · rw [hc]
          simp only [List.map_cons, List.map_nil, payload_stamp_discont, List.singleton_append]
          exact List.Sublist.cons₂ _ (by simpa using hnext)
      · simpa [forwarded_from, received_on, hq] using hnext

/-- Witness for C23, amended: scenario S2 (sync-streams off), input B. -/
theorem forwarded_is_subsequence_without_replay_witness :
    never_replays s2_blocked ∧
    ((forwarded_from spec_lib quiet_env 2 1 s2_blocked s2_feed_B).map GstBuffer.payload).Sublist
      ((received_on 1 s2_feed_B).map GstBuffer.payload) :=
  ⟨Or.inl (by decide),
    forwarded_is_subsequence_without_replay spec_lib quiet_env 2 1 s2_feed_B s2_blocked
      (Or.inl (by decide))⟩

/-! ### Segment events around a switch -/

theorem set_active_pad_flushing (L : GstLib) (self : GstInputSelector) (pad : Option PadId)
    (stop_time start_time : Int) :
    (gst_input_selector_set_active_pad L self pad stop_time start_time).1.flushing =
      self.flushing ∧
    (gst_input_selector_set_active_pad L self pad stop_time start_time).1.sync_streams =
      self.sync_streams := by
  unfold gst_input_selector_set_active_pad
  by_cases h : pad = self.active_sinkpad
  · rw [if_pos h]
    exact ⟨rfl, rfl⟩
  · rw [if_neg h]
    cases self.active_sinkpad <;> cases pad <;> dsimp only <;> (try split_ifs) <;>
      exact ⟨rfl, rfl⟩

/-- The switch with a valid stop time and start time -1 (the defect of the switch recorded
for claim C7): A and B have both been active and have pushed their open segments, A is active
again and the selector is blocked; after `switch(B, 120, -1)` the buffer `B(120,40)` of B goes
downstream right after the closing update of A's segment, and no segment is opened for B. -/
theorem switch_without_start_opens_no_segment :
    switched_back_state.active_sinkpad = some 0 ∧ switched_back_state.blocked = true ∧
    (run spec_lib quiet_env 2 switched_back_state
      [Op.switch (some 1) 120 (-1), Op.chain 1 (plain_buffer 3 120 40)]).1.active_sinkpad =
        some 1 ∧
    downstream (run spec_lib quiet_env 2 switched_back_state
      [Op.switch (some 1) 120 (-1), Op.chain 1 (plain_buffer 3 120 40)]).2 =
      [Action.push_event
        (GstEvent.NEWSEGMENT true gdouble.one gdouble.one GstFormat.TIME 40 120 40),
       Action.push_buffer (plain_buffer 3 120 40)] := by
  decide

/-- Counterexample to C24.  Scenario S2: after `switch(B, -1, -1)` has made B the active
input, B receives a segment update event, which is forwarded as it arrives, and then the
buffer `B(80,40)`, before which the chain call pushes the closing update of A's segment and
the open segment of B that the switch scheduled: two segment events from B precede B's first
buffer since the switch.  Without any switch, a segment event and a segment update event on
the active input A are both forwarded before A's buffer. -/
theorem two_segment_events_before_buffer :
    s2_blocked.active_sinkpad = some 0 ∧ s2_blocked.blocked = true ∧
    (run spec_lib quiet_env 2 s2_blocked
      [Op.switch (some 1) (-1) (-1), Op.event 1 segment_0_update,
        Op.chain 1 (plain_buffer 2 80 40)]).1.active_sinkpad = some 1 ∧
    downstream (run spec_lib quiet_env 2 s2_blocked
      [Op.switch (some 1) (-1) (-1), Op.event 1 segment_0_update,
        Op.chain 1 (plain_buffer 2 80 40)]).2 =
      [Action.push_event segment_0_update,
       Action.push_event
        (GstEvent.NEWSEGMENT true gdouble.one gdouble.one GstFormat.TIME 0 40 0),
       Action.push_event
        (GstEvent.NEWSEGMENT false gdouble.one gdouble.one GstFormat.TIME 0 (-1) 0),
       Action.push_buffer (plain_buffer 2 80 40)] ∧
    downstream (run spec_lib quiet_env 2 two_pad_selector
      [Op.event 0 segment_0, Op.event 0 segment_0_update, Op.chain 0 (plain_buffer 0 0 40)]).2 =
      [Action.push_event segment_0, Action.push_event segment_0_update,
       Action.push_buffer (plain_buffer 0 0 40)] := by
  decide

/-- C24, amended.  On a blocked selector with sync-streams off that is not flushing,
`switch(target, stop_rt, start_rt)` to an input `target` other than the active one, which has
been seen before and with an effective start time that is not negative; then two buffers
arrive on `target`, the segment being defined when the first is noted.  The first chain call
pushes the closing update of the old segment if one is pending, then exactly one open segment
event, with update false and the fields of `target`'s segment as the switch adjusted it, then
the buffer; the second chain call pushes its buffer only. -/
theorem switch_then_one_open_segment (L : GstLib) (env : Env) (fuel : Nat)
    (self : GstInputSelector) (target : PadId) (stop_rt start_rt : Int) (buf buf2 : GstBuffer)
    (hb : self.blocked = true) (hne : some target ≠ self.active_sinkpad)
    (hf : self.flushing = false) (hs : self.sync_streams = false)
    (hseen : (self.pads target).active = true)
    (hstart : 0 ≤ effective_start_time L self stop_rt start_rt)
    (hfmt : (chained_segment L
      ((gst_input_selector_switch L self (some target) stop_rt start_rt).1.pads target)
      buf).format ≠ GstFormat.UNDEFINED) :
    ((gst_input_selector_switch L self (some target) stop_rt start_rt).1.pads target).segment =
      gst_segment_set_start (self.pads target).segment
        (effective_start_time L self stop_rt start_rt) ∧
    downstream (gst_selector_pad_chain L env (fuel + 1)
      (gst_input_selector_switch L self (some target) stop_rt start_rt).1 target buf).trace =
      (if (gst_input_selector_switch L self (some target) stop_rt start_rt).1.pending_close = true
        then [Action.push_event (close_segment_update
          (gst_input_selector_switch L self (some target) stop_rt start_rt).1.segment)]
        else []) ++
      [Action.push_event (open_segment false (chained_segment L
        ((gst_input_selector_switch L self (some target) stop_rt start_rt).1.pads target) buf)),
       Action.push_buffer (stamp_discont (self.pads target).discont buf)] ∧
    downstream (gst_selector_pad_chain L env (fuel + 1)
      (gst_selector_pad_chain L env (fuel + 1)
        (gst_input_selector_switch L self (some target) stop_rt start_rt).1 target buf).sel
      target buf2).trace = [Action.push_buffer buf2] := by
  have hsw := switch_state L self (some target) stop_rt start_rt hb
  have htg := set_active_pad_target L self target stop_rt start_rt hne
  have hfl := set_active_pad_flushing L self (some target) stop_rt start_rt
  have hac := set_active_pad_active L self (some target) stop_rt start_rt
  have hdi := set_active_pad_discont L self (some target) stop_rt start_rt target
  have c1 : (gst_input_selector_switch L self (some target) stop_rt start_rt).1.flushing =
      false := by rw [hsw]; exact hfl.1.trans hf
  have c2 : (gst_input_selector_switch L self (some target) stop_rt start_rt).1.blocked =
      false := by rw [hsw]
  have c3 : (gst_input_selector_switch L self (some target) stop_rt start_rt).1.sync_streams =
      false := by rw [hsw]; exact hfl.2.trans hs
  have c4 : (gst_input_selector_switch L self (some target) stop_rt start_rt).1.active_sinkpad =
      some target := by rw [hsw]; exact hac
  have c5 : ((gst_input_selector_switch L self (some target) stop_rt start_rt).1.pads
      target).segment_pending = true := by
    rw [hsw]
    exact htg.2.trans (if_pos ⟨hseen, hstart⟩)
  have c6 : ((gst_input_selector_switch L self (some target) stop_rt start_rt).1.pads
      target).segment = gst_segment_set_start (self.pads target).segment
        (effective_start_time L self stop_rt start_rt) := by
    rw [hsw]
    refine htg.1.trans ?_
    rw [if_pos ⟨hseen, hstart⟩, if_neg (by rw [hs]; simp)]
  have c7 : ((gst_input_selector_switch L self (some target) stop_rt start_rt).1.pads
      target).discont = (self.pads target).discont := by rw [hsw]; exact hdi
  obtain ⟨_, d1, r1, r2, r3, r4, r5, r6, r7⟩ := chain_plain_result L env fuel
    (gst_input_selector_switch L self (some target) stop_rt start_rt).1 target buf c1
    (Or.inl c2) (Or.inl c4) c3
  have r6b := r6 (fun _ => hfmt)
  obtain ⟨_, d2, _⟩ := chain_plain_result L env fuel
    (gst_selector_pad_chain L env (fuel + 1)
      (gst_input_selector_switch L self (some target) stop_rt start_rt).1 target buf).sel
    target buf2 r1 (Or.inl (r2.trans c2)) (Or.inl r4) r3
  refine ⟨c6, ?_, ?_⟩
  · rw [d1, c7]
    simp only [c5, hfmt, ne_eq, not_false_eq_true, and_self, if_true, List.append_assoc,
      List.singleton_append]
  · rw [d2, r5, r6b, r7]
    simp [stamp_discont]

/-- Witness for C24, amended: scenario S2, the switch to B and B's two buffers. -/
theorem switch_then_one_open_segment_witness :
    s2_blocked.blocked = true ∧ 0 ≤ effective_start_time spec_lib s2_blocked (-1) (-1) ∧
    downstream (gst_selector_pad_chain spec_lib quiet_env (0 + 1)
      (gst_selector_pad_chain spec_lib quiet_env (0 + 1)
        (gst_input_selector_switch spec_lib s2_blocked (some 1) (-1) (-1)).1 1
        (plain_buffer 2 80 40)).sel
      1 (plain_buffer 3 120 40)).trace = [Action.push_buffer (plain_buffer 3 120 40)] :=
  ⟨by decide, by decide,
    (switch_then_one_open_segment spec_lib quiet_env 0 s2_blocked 1 (-1) (-1)
      (plain_buffer 2 80 40) (plain_buffer 3 120 40) (by decide) (by decide) (by decide)
      (by decide) (by decide) (by decide) (by decide)).2.2⟩

/-! ### Start and last position of a segment -/

/-- A change of the active pad leaves the segments of the pads other than the new one as they
are. -/
theorem set_active_pad_segment_other (L : GstLib) (self : GstInputSelector) (t : PadId)
    (stop_time start_time : Int) (q : PadId) (hq : q ≠ t) :
    ((gst_input_selector_set_active_pad L self (some t) stop_time start_time).1.pads q).segment =
      (self.pads q).segment := by
  unfold gst_input_selector_set_active_pad
  by_cases h : some t = self.active_sinkpad
  · rw [if_pos h]
  · rw [if_neg h]
    cases hact : self.active_sinkpad <;> dsimp only <;> (try split_ifs) <;>
      simp only [modify_pad_pads, hq, if_false] <;> (try split_ifs) <;>
      first | rfl | simp_all

/-- Counterexample to C29: B, not active, has a `TIME` segment with start 0 and its last
buffer at 20, while the active input A is at running time 40; after `switch(B, -1, -1)` the
segment of B starts at 40 and its `last_stop` is still 20. -/
theorem switch_moves_start_past_last_stop :
    behind_state.blocked = true ∧ behind_state.active_sinkpad = some 0 ∧
    (behind_state.pads 1).segment.format = GstFormat.TIME ∧
    (behind_state.pads 1).segment.start = 0 ∧ (behind_state.pads 1).segment.last_stop = 20 ∧
    ((gst_input_selector_switch spec_lib behind_state (some 1) (-1) (-1)).1.pads
      1).segment.format = GstFormat.TIME ∧
    ((gst_input_selector_switch spec_lib behind_state (some 1) (-1) (-1)).1.pads
      1).segment.start = 40 ∧
    ((gst_input_selector_switch spec_lib behind_state (some 1) (-1) (-1)).1.pads
      1).segment.last_stop = 20 := by
  decide

/-- C29, amended.  On a blocked selector, `switch(target, stop_rt, start_rt)` to an input other
than the active one leaves the segment of every other input as it is, and keeps the format
and `last_stop` of `target`'s segment; the start of `target`'s segment becomes the timestamp
of the effective start time (of `target`'s own running time when sync-streams and caching are
on) if `target` has been seen and that time is not negative, and stays as it is otherwise.  So
`start ≤ last_stop` holds for `target` after the switch exactly when that timestamp is not
past `last_stop`. -/
theorem switch_start_against_last_stop (L : GstLib) (self : GstInputSelector) (target : PadId)
    (stop_rt start_rt : Int) (hb : self.blocked = true)
    (hne : some target ≠ self.active_sinkpad) :
    (∀ q, q ≠ target →
      ((gst_input_selector_switch L self (some target) stop_rt start_rt).1.pads q).segment =
        (self.pads q).segment) ∧
    ((gst_input_selector_switch L self (some target) stop_rt start_rt).1.pads
      target).segment.format = (self.pads target).segment.format ∧
    ((gst_input_selector_switch L self (some target) stop_rt start_rt).1.pads
      target).segment.last_stop = (self.pads target).segment.last_stop ∧
    ((gst_input_selector_switch L self (some target) stop_rt start_rt).1.pads
      target).segment.start =
      (if (self.pads target).active = true ∧ 0 ≤ effective_start_time L self stop_rt start_rt
        then gst_segment_get_timestamp (self.pads target).segment
          (if self.sync_streams = true ∧ self.cache_buffers = true then
            gst_selector_pad_get_running_time L (self.pads target)
           else effective_start_time L self stop_rt start_rt)
        else (self.pads target).segment.start) ∧
    (((gst_input_selector_switch L self (some target) stop_rt start_rt).1.pads
        target).segment.start ≤
      ((gst_input_selector_switch L self (some target) stop_rt start_rt).1.pads
        target).segment.last_stop ↔
      (if (self.pads target).active = true ∧ 0 ≤ effective_start_time L self stop_rt start_rt
        then gst_segment_get_timestamp (self.pads target).segment
          (if self.sync_streams = true ∧ self.cache_buffers = true then
            gst_selector_pad_get_running_time L (self.pads target)
           else effective_start_time L self stop_rt start_rt)
        else (self.pads target).segment.start) ≤ (self.pads target).segment.last_stop) := by
  have hsw := switch_state L self (some target) stop_rt start_rt hb
  have htg := (set_active_pad_target L self target stop_rt start_rt hne).1
  have hseg : ((gst_input_selector_switch L self (some target) stop_rt start_rt).1.pads
      target).segment =
      (if (self.pads target).active = true ∧ 0 ≤ effective_start_time L self stop_rt start_rt
        then gst_segment_set_start (self.pads target).segment
          (if self.sync_streams = true ∧ self.cache_buffers = true then
            gst_selector_pad_get_running_time L (self.pads target)
           else effective_start_time L self stop_rt start_rt)
        else (self.pads target).segment) := by
    rw [hsw]; exact htg
  have hstart : ∀ (seg : GstSegment) (rt : Int),
      (gst_segment_set_start seg rt).start = gst_segment_get_timestamp seg rt := by
    intro seg rt
    show seg.start + (gst_segment_get_timestamp seg rt - seg.start) = _
    omega
  have h1 : ((gst_input_selector_switch L self (some target) stop_rt start_rt).1.pads
      target).segment.format = (self.pads target).segment.format := by
    rw [hseg]; split_ifs <;> rfl
  have h2 : ((gst_input_selector_switch L self (some target) stop_rt start_rt).1.pads
      target).segment.last_stop = (self.pads target).segment.last_stop := by
    rw [hseg]; split_ifs <;> rfl
  have h3 : ((gst_input_selector_switch L self (some target) stop_rt start_rt).1.pads
      target).segment.start =
      (if (self.pads target).active = true ∧ 0 ≤ effective_start_time L self stop_rt start_rt
        then gst_segment_get_timestamp (self.pads target).segment
          (if self.sync_streams = true ∧ self.cache_buffers = true then
            gst_selector_pad_get_running_time L (self.pads target)
           else effective_start_time L self stop_rt start_rt)
        else (self.pads target).segment.start) := by
    rw [hseg]
    by_cases hc : (self.pads target).active = true ∧
        0 ≤ effective_start_time L self stop_rt start_rt
    · rw [if_pos hc, if_pos hc, hstart]
    · rw [if_neg hc, if_neg hc]
  refine ⟨?_, h1, h2, h3, ?_⟩
  · intro q hq
    rw [hsw]
    exact set_active_pad_segment_other L self target stop_rt start_rt q hq
  · rw [h3, h2]

/-- Witness for C29, amended: the switch to B in `behind_state` keeps B's `last_stop`. -/
theorem switch_start_against_last_stop_witness :
    behind_state.blocked = true ∧
    ((gst_input_selector_switch spec_lib behind_state (some 1) (-1) (-1)).1.pads
      1).segment.last_stop = (behind_state.pads 1).segment.last_stop :=
  ⟨by decide,
    (switch_start_against_last_stop spec_lib behind_state 1 (-1) (-1) (by decide)
      (by decide)).2.2.1⟩

/-! ### Double arithmetic -/

theorem ilog2_aux_spec : ∀ (f n : Nat), n ≤ f → 1 ≤ n →
    2 ^ ilog2_aux f n ≤ n ∧ n < 2 ^ (ilog2_aux f n + 1) := by
  intro f
  induction f with
  | zero => intro n h1 h2; omega
  | succ f ih =>
    intro n h1 h2
    unfold ilog2_aux
    by_cases h : n < 2
    · rw [if_pos h]
      constructor
      · simpa using h2
      · simpa using h
    · rw [if_neg h]
      have h3 : n / 2 ≤ f := by omega
      have h4 : 1 ≤ n / 2 := by omega
      obtain ⟨i1, i2⟩ := ih (n / 2) h3 h4
      constructor
      · rw [pow_succ]
        omega
      · rw [pow_succ]
        omega

theorem ilog2_lt (n k : Nat) (h1 : 1 ≤ n) (h : n < 2 ^ k) : ilog2 n < k := by
  have hs := (ilog2_aux_spec n n (le_refl n) h1).1
  by_contra hc
  have hk : k ≤ ilog2 n := by omega
  have : 2 ^ k ≤ 2 ^ ilog2 n := Nat.pow_le_pow_right (by decide) hk
  have h5 : 2 ^ ilog2 n ≤ n := hs
  omega

/-- An integer below `2 ^ 53` in magnitude is a binary64 value: rounding keeps it. -/
theorem round_int_eq (n : Int) (den : Nat) (hd : den ≠ 0) (hn0 : n ≠ 0)
    (hb : n.natAbs < 2 ^ 53) :
    gdouble.round ⟨n * (den : Int), den⟩ =
      ⟨n * ((2 ^ (52 - ilog2 n.natAbs) : Nat) : Int), 2 ^ (52 - ilog2 n.natAbs)⟩ := by
  have hpos : 1 ≤ n.natAbs := Int.natAbs_pos.2 hn0
  have hL : ilog2 n.natAbs < 53 := ilog2_lt _ _ hpos hb
  have hnum : n * (den : Int) ≠ 0 := by
    intro h
    rcases Int.mul_eq_zero.1 h with h | h
    · exact hn0 h
    · exact hd (by exact_mod_cast h)
  have ha : (n * (den : Int)).natAbs = n.natAbs * den := by
    rw [Int.natAbs_mul, Int.natAbs_ofNat]
  have hdpos : 0 < den := Nat.pos_of_ne_zero hd
  have hexp : gdouble.exponent (n.natAbs * den) den = (ilog2 n.natAbs : Int) := by
    unfold gdouble.exponent
    rw [if_pos (Nat.le_mul_of_pos_left den hpos), Nat.mul_div_cancel _ hdpos]
  have hp : max ((ilog2 n.natAbs : Int)) (-1022) - 52 = (ilog2 n.natAbs : Int) - 52 := by
    rw [max_eq_left (by omega)]
  have hp1 : (-((ilog2 n.natAbs : Int) - 52)).toNat = 52 - ilog2 n.natAbs := by omega
  have hp2 : ((ilog2 n.natAbs : Int) - 52).toNat = 0 := by omega
  unfold gdouble.round
  dsimp only
  rw [if_neg hd, if_neg hnum, ha, hexp, hp, hp1, hp2]
  have hm0 : n.natAbs * den * 2 ^ (52 - ilog2 n.natAbs) / (den * 2 ^ 0) =
      n.natAbs * 2 ^ (52 - ilog2 n.natAbs) := by
    rw [pow_zero, Nat.mul_one, Nat.mul_right_comm, Nat.mul_div_cancel _ hdpos]
  have hr : n.natAbs * den * 2 ^ (52 - ilog2 n.natAbs) % (den * 2 ^ 0) = 0 := by
    rw [pow_zero, Nat.mul_one, Nat.mul_right_comm]
    exact Nat.mul_mod_left _ _
  rw [hm0, hr]
  have hd2 : 2 * 0 < den * 2 ^ 0 := by simpa using hdpos
  rw [if_pos hd2, if_neg (by omega)]
  have hsign : (n * (den : Int)).sign = n.sign := by
    rw [Int.sign_mul]
    have : (den : Int).sign = 1 := Int.sign_eq_one_of_pos (by exact_mod_cast hdpos)
    rw [this, Int.mul_one]
  rw [hsign]
  congr 1
  rw [pow_zero, Nat.mul_one]
  push_cast
  rw [← mul_assoc, Int.sign_mul_abs]

theorem round_is_int (x : gdouble) (n : Int) (h : x.is_int n) (hb : below_2_53 n) :
    (gdouble.round x).is_int n := by
  obtain ⟨hd, hn⟩ := h
  by_cases hn0 : n = 0
  · subst hn0
    have hx : x.num = 0 := by rw [hn]; simp
    unfold gdouble.round
    rw [if_neg hd, if_pos hx]
    exact ⟨by decide, by simp⟩
  · have hx : x = ⟨n * (x.den : Int), x.den⟩ := by
      cases x
      simp only [gdouble.mk.injEq, and_true]
      exact hn
    have hnat : n.natAbs < 2 ^ 53 := by
      unfold below_2_53 at hb
      omega
    rw [hx, round_int_eq n x.den hd hn0 hnat]
    refine ⟨?_, rfl⟩
    exact (pow_pos (by decide) _).ne'

theorem of_gint64_is_int (n : Int) (hb : below_2_53 n) : (gdouble.of_gint64 n).is_int n := by
  unfold gdouble.of_gint64
  have h : (⟨n, 1⟩ : gdouble).is_int n := ⟨Nat.one_ne_zero, by simp⟩
  exact round_is_int _ n h hb

theorem mul_is_int (a b : gdouble) (n m : Int) (ha : a.is_int n) (hb : b.is_int m)
    (hnm : below_2_53 (n * m)) : (gdouble.mul a b).is_int (n * m) := by
  unfold gdouble.mul
  rw [if_neg (by rintro (h | h); exact ha.1 h; exact hb.1 h)]
  apply round_is_int _ _ _ hnm
  refine ⟨Nat.mul_ne_zero ha.1 hb.1, ?_⟩
  show a.num * b.num = n * m * ((a.den * b.den : Nat) : Int)
  rw [ha.2, hb.2]
  push_cast
  ring

theorem add_is_int (a b : gdouble) (n m : Int) (ha : a.is_int n) (hb : b.is_int m)
    (hnm : below_2_53 (n + m)) : (gdouble.add a b).is_int (n + m) := by
  unfold gdouble.add
  rw [if_neg (by rintro ⟨h, _⟩; exact ha.1 h), if_neg ha.1, if_neg hb.1]
  apply round_is_int _ _ _ hnm
  refine ⟨Nat.mul_ne_zero ha.1 hb.1, ?_⟩
  show a.num * (b.den : Int) + b.num * (a.den : Int) = (n + m) * ((a.den * b.den : Nat) : Int)
  rw [ha.2, hb.2]
  push_cast
  ring

theorem to_gint64_is_int (a : gdouble) (n : Int) (ha : a.is_int n) (hb : below_2_53 n) :
    gdouble.to_gint64 a = n := by
  have ht : Int.tdiv a.num (a.den : Int) = n := by
    rw [ha.2]
    exact Int.mul_tdiv_cancel _ (by exact_mod_cast ha.1)
  unfold below_2_53 at hb
  unfold gdouble.to_gint64
  rw [if_neg ha.1, ht, if_pos (by constructor <;> omega)]

/-- Where the double arithmetic is exact, the timestamp of a running time past `accum` is
`(rt - accum) * abs_rate + start`. -/
theorem get_timestamp_exact (segment : GstSegment) (rt r : Int)
    (h : exact_in_double segment rt r) (hrt : segment.accum < rt) :
    gst_segment_get_timestamp segment rt = (rt - segment.accum) * r + segment.start := by
  obtain ⟨h1, h2, h3, h4, h5⟩ := h
  unfold gst_segment_get_timestamp
  rw [if_neg (by omega)]
  exact to_gint64_is_int _ _
    (add_is_int _ _ _ _ (mul_is_int _ _ _ _ (of_gint64_is_int _ h2) h1 h3)
      (of_gint64_is_int _ h4) h5) h5

/-! ### Segment arithmetic -/

/-- Counterexample to C25.  At rate 1 (an integer), with nothing accumulated and start 0, the
timestamp of running time `2 ^ 53 + 1` is `2 ^ 53`, not `2 ^ 53 + 1`: the conversion of the
difference to `gdouble` rounds.  At the rate nearest to 0.7, the timestamp of running time 10
is 7, while `(rt - accum) * abs_rate + start` is just below 7 and truncates toward zero
to 6: the product is rounded to 7 before the conversion. -/
theorem get_timestamp_is_rounded :
    gst_segment_get_timestamp (segment_0_at 0) (2 ^ 53 + 1) = 2 ^ 53 ∧
    rate_0_7 = ⟨6305039478318694, 2 ^ 53⟩ ∧
    gst_segment_get_timestamp (segment_0_rate rate_0_7) 10 = 7 ∧
    Int.tdiv ((10 - 0) * rate_0_7.num + 0 * (rate_0_7.den : Int)) (rate_0_7.den : Int) = 6 := by
  decide

/-- Values of the double computation: the rate nearest to 0.57 takes running time 100 to 56,
the rate nearest to 0.7 takes running time 10 to 7, rate 1 takes running time `2 ^ 53 + 1` to
`2 ^ 53`, and with start 1700000000000000001 at rate 1 running time 40 is taken to
1700000000000000000. -/
theorem get_timestamp_values :
    gst_segment_get_timestamp (segment_0_rate (gdouble.round ⟨57, 100⟩)) 100 = 56 ∧
    gst_segment_get_timestamp (segment_0_rate rate_0_7) 10 = 7 ∧
    gst_segment_get_timestamp (segment_0_at 0) (2 ^ 53 + 1) = 2 ^ 53 ∧
    gst_segment_get_timestamp
      { segment_0_at 0 with start := 1700000000000000001 } 40 = 1700000000000000000 := by
  decide

/-- C25, amended.  `gst_segment_get_timestamp` returns the segment's start for a running time
up to `accum`.  Beyond it, it returns `(rt - accum) * abs_rate + start` as computed in double
arithmetic (the difference and `start` converted to `gdouble`, the product and the sum each
rounded to binary64) and converted to `gint64` by truncation toward zero.  That is exactly
`(rt - accum) * abs_rate + start` when `abs_rate` is an integer and the difference, the
product, `start` and the sum are below `2 ^ 53` in magnitude. -/
theorem get_timestamp_formula (segment : GstSegment) (rt : Int) :
    (rt ≤ segment.accum → gst_segment_get_timestamp segment rt = segment.start) ∧
    (segment.accum < rt →
      gst_segment_get_timestamp segment rt =
        gdouble.to_gint64 (gdouble.add
          (gdouble.mul (gdouble.of_gint64 (rt - segment.accum)) segment.abs_rate)
          (gdouble.of_gint64 segment.start))) ∧
    (∀ r, segment.accum < rt → exact_in_double segment rt r →
      gst_segment_get_timestamp segment rt = (rt - segment.accum) * r + segment.start) := by
  refine ⟨?_, ?_, ?_⟩
  · intro h
    unfold gst_segment_get_timestamp
    rw [if_pos h]
  · intro h
    unfold gst_segment_get_timestamp
    rw [if_neg (by omega)]
  · intro r h hx
    exact get_timestamp_exact segment rt r hx h

/-- Witness of C25, amended: in the segment `[0, unknown, 0]` at rate 1 with nothing
accumulated, running time 40 is timestamp 40. -/
theorem get_timestamp_formula_witness :
    exact_in_double (segment_0_at 0) 40 1 ∧
    gst_segment_get_timestamp (segment_0_at 0) 40 = (40 - 0) * 1 + 0 :=
  ⟨by decide, (get_timestamp_formula (segment_0_at 0) 40).2.2 1 (by decide) (by decide)⟩

/-- Counterexample to C26: in the segment `[0, unknown, 0]` at rate 1 with nothing accumulated,
the timestamp of running time `2 ^ 53 + 1` is `2 ^ 53`, whose running time is `2 ^ 53`: the
round trip does not give the running time back. -/
theorem round_trip_fails_past_2_53 :
    (segment_0_at 0).format = GstFormat.TIME ∧ (segment_0_at 0).abs_rate = gdouble.one ∧
    (segment_0_at 0).accum ≤ 2 ^ 53 + 1 ∧
    spec_segment_to_running_time (segment_0_at 0) GstFormat.TIME
      (gst_segment_get_timestamp (segment_0_at 0) (2 ^ 53 + 1)) = 2 ^ 53 := by
  decide

/-- C26, amended.  Round trip in a `TIME` segment with `abs_rate = 1`, the running time of a
timestamp being `(t - start) / abs_rate + accum`, where the double arithmetic is exact (the
difference to `accum`, `start` and their sum below `2 ^ 53` in magnitude): the running time of
the timestamp of a running time `rt ≥ accum` is `rt`, and the timestamp of the running time
of a timestamp `t ≥ start` is `t`. -/
theorem timestamp_round_trip (segment : GstSegment) (hfmt : segment.format = GstFormat.TIME)
    (hrate : segment.abs_rate = gdouble.one) :
    (∀ rt, segment.accum ≤ rt → exact_in_double segment rt 1 →
      spec_segment_to_running_time segment GstFormat.TIME
        (gst_segment_get_timestamp segment rt) = rt) ∧
    (∀ t, segment.start ≤ t →
      exact_in_double segment (spec_segment_to_running_time segment GstFormat.TIME t) 1 →
      gst_segment_get_timestamp segment
        (spec_segment_to_running_time segment GstFormat.TIME t) = t) := by
  have hts : ∀ rt, exact_in_double segment rt 1 → gst_segment_get_timestamp segment rt =
      if rt ≤ segment.accum then segment.start else rt - segment.accum + segment.start := by
    intro rt hx
    split_ifs with h
    · unfold gst_segment_get_timestamp
      rw [if_pos h]
    · rw [get_timestamp_exact segment rt 1 hx (by omega)]
      omega
  have hrt : ∀ t, segment.start ≤ t →
      spec_segment_to_running_time segment GstFormat.TIME t = t - segment.start + segment.accum := by
    intro t h
    unfold spec_segment_to_running_time
    rw [if_neg (by rw [hfmt]; simp; omega)]
    simp [hrate, gdouble.div_gint64, gdouble.one]
  constructor
  · intro rt h hx
    rw [hts rt hx]
    split_ifs with h2
    · rw [hrt _ (le_refl _)]
      omega
    · rw [hrt _ (by omega)]
      omega
  · intro t h hx
    rw [hts _ hx, hrt t h]
    split_ifs with h2
    · omega
    · omega

/-- Witness of C26, amended: the segment `[0, unknown, 0]` at rate 1, running time 40 and
timestamp 40. -/
theorem timestamp_round_trip_witness :
    exact_in_double (segment_0_at 0) 40 1 ∧
    spec_segment_to_running_time (segment_0_at 0) GstFormat.TIME
        (gst_segment_get_timestamp (segment_0_at 0) 40) = 40 ∧
    gst_segment_get_timestamp (segment_0_at 0)
        (spec_segment_to_running_time (segment_0_at 0) GstFormat.TIME 40) = 40 :=
  ⟨by decide,
    (timestamp_round_trip (segment_0_at 0) (by decide) (by decide)).1 40 (by decide) (by decide),
    (timestamp_round_trip (segment_0_at 0) (by decide) (by decide)).2 40 (by decide)
      (by decide)⟩

/-- C27.  `gst_segment_set_start` adds one and the same amount, the timestamp of the running
time minus the old start, to `accum`, `time` and `start`, so that the new start is that
timestamp; it leaves `rate`, `applied_rate`, `abs_rate`, `format`, `stop` and `last_stop` as
they are; for a running time up to `accum` the segment is unchanged. -/
theorem set_start_shifts_by_one_amount (segment : GstSegment) (rt : Int) :
    (gst_segment_set_start segment rt).accum =
      segment.accum + (gst_segment_get_timestamp segment rt - segment.start) ∧
    (gst_segment_set_start segment rt).time =
      segment.time + (gst_segment_get_timestamp segment rt - segment.start) ∧
    (gst_segment_set_start segment rt).start =
      segment.start + (gst_segment_get_timestamp segment rt - segment.start) ∧
    (gst_segment_set_start segment rt).start = gst_segment_get_timestamp segment rt ∧
    (gst_segment_set_start segment rt).rate = segment.rate ∧
    (gst_segment_set_start segment rt).applied_rate = segment.applied_rate ∧
    (gst_segment_set_start segment rt).abs_rate = segment.abs_rate ∧
    (gst_segment_set_start segment rt).format = segment.format ∧
    (gst_segment_set_start segment rt).stop = segment.stop ∧
    (gst_segment_set_start segment rt).last_stop = segment.last_stop ∧
    (rt ≤ segment.accum → gst_segment_set_start segment rt = segment) := by
  refine ⟨rfl, rfl, rfl, ?_, rfl, rfl, rfl, rfl, rfl, rfl, ?_⟩
  · show segment.start + (gst_segment_get_timestamp segment rt - segment.start) = _
    omega
  · intro h
    have h0 : gst_segment_get_timestamp segment rt = segment.start := by
      unfold gst_segment_get_timestamp
      rw [if_pos h]
    unfold gst_segment_set_start
    simp [h0]

/-- Witness of C27: a running time of 0 leaves the segment `[0, unknown, 0]` with nothing
accumulated as it is. -/
theorem set_start_shifts_by_one_amount_witness :
    gst_segment_set_start (segment_0_at 20) 0 = segment_0_at 20 :=
  (set_start_shifts_by_one_amount (segment_0_at 20) 0).2.2.2.2.2.2.2.2.2.2 (by decide)

/-! ### The accumulated running time of a segment -/

/-- A change of the active pad leaves a pad's segment as it is or moves its start. -/
theorem set_active_pad_segment (L : GstLib) (self : GstInputSelector) (pad : Option PadId)
    (stop_time start_time : Int) (p : PadId) :
    ((gst_input_selector_set_active_pad L self pad stop_time start_time).1.pads p).segment =
        (self.pads p).segment ∨
    ∃ rt, ((gst_input_selector_set_active_pad L self pad stop_time start_time).1.pads
        p).segment = gst_segment_set_start (self.pads p).segment rt := by
  unfold gst_input_selector_set_active_pad
  by_cases h : pad = self.active_sinkpad
  · rw [if_pos h]
    exact Or.inl rfl
  · rw [if_neg h]
    cases hact : self.active_sinkpad <;> cases pad <;> dsimp only <;> (try split_ifs) <;>
      simp only [modify_pad_pads] <;> (try split_ifs) <;>
      first
      | exact Or.inl rfl
      | simp_all

theorem switch_segment (L : GstLib) (self : GstInputSelector) (pad : Option PadId)
    (stop_time start_time : Int) (p : PadId) :
    ((gst_input_selector_switch L self pad stop_time start_time).1.pads p).segment =
        (self.pads p).segment ∨
    ∃ rt, ((gst_input_selector_switch L self pad stop_time start_time).1.pads p).segment =
      gst_segment_set_start (self.pads p).segment rt := by
  unfold gst_input_selector_switch
  split_ifs
  · exact Or.inl rfl
  · exact set_active_pad_segment L self pad stop_time start_time p

/-- What an event does to a pad's segment: nothing, or the library notes a segment event in
it, or a flush-stop on the pad resets it. -/
theorem event_switch_segment (L : GstLib) (sel : GstInputSelector) (pad a : PadId)
    (forward : Bool) (e : GstEvent) (p : PadId) :
    ((event_switch L sel pad a forward e).1.pads p).segment = (sel.pads p).segment ∨
    (∃ u r ar f st sp t, ((event_switch L sel pad a forward e).1.pads p).segment =
      L.gst_segment_set_newsegment_full (sel.pads p).segment u r ar f st sp t) ∨
    (pad = p ∧ e = GstEvent.FLUSH_STOP) := by
  unfold event_switch
  cases e with
  | FLUSH_START =>
    left
    simp only [modify_pad_pads]; split_ifs with hq <;> simp_all
  | FLUSH_STOP =>
    by_cases hq : p = pad
    · exact Or.inr (Or.inr ⟨hq.symm, rfl⟩)
    · left
      show ((sel.modify_pad pad (gst_selector_pad_reset L)).pads p).segment = _
      rw [modify_pad_pads_ne _ _ _ _ hq]
  | NEWSEGMENT update rate arate format start stop time =>
    dsimp only
    by_cases hq : p = pad
    · right; left
      refine ⟨update, rate, arate, format, start, stop, time, ?_⟩
      subst hq
      split_ifs <;> simp
    · left
      split_ifs <;> simp [modify_pad_pads, hq]
  | TAG tags =>
    left
    simp only [modify_pad_pads]; split_ifs with hq <;> simp_all
  | EOS =>
    left
    dsimp only
    split_ifs <;> simp only [modify_pad_pads] <;> (try split_ifs) <;> simp_all
  | OTHER id => exact Or.inl rfl

theorem event_segment (L : GstLib) (env : Env) (sel : GstInputSelector) (pad : PadId)
    (e : GstEvent) (p : PadId) :
    ((gst_selector_pad_event L env sel pad e).1.pads p).segment = (sel.pads p).segment ∨
    (∃ u r ar f st sp t, ((gst_selector_pad_event L env sel pad e).1.pads p).segment =
      L.gst_segment_set_newsegment_full (sel.pads p).segment u r ar f st sp t) ∨
    (pad = p ∧ e = GstEvent.FLUSH_STOP) := by
  have ha : ∀ s : GstInputSelector,
      ((gst_input_selector_activate_sinkpad s pad).1.pads p).segment = (s.pads p).segment := by
    intro s
    rw [activate_pads]
    split_ifs with hq
    · rw [hq]
    · rfl
  have key : ∀ a f,
      ((event_switch L (gst_input_selector_activate_sinkpad
          (gst_input_selector_activate_sinkpad sel pad).1 pad).1 pad a f e).1.pads p).segment =
        (sel.pads p).segment ∨
      (∃ u r ar f2 st sp t, ((event_switch L (gst_input_selector_activate_sinkpad
          (gst_input_selector_activate_sinkpad sel pad).1 pad).1 pad a f e).1.pads p).segment =
        L.gst_segment_set_newsegment_full (sel.pads p).segment u r ar f2 st sp t) ∨
      (pad = p ∧ e = GstEvent.FLUSH_STOP) := by
    intro a f
    have := event_switch_segment L (gst_input_selector_activate_sinkpad
      (gst_input_selector_activate_sinkpad sel pad).1 pad).1 pad a f e p
    rw [ha, ha] at this
    exact this
  unfold gst_selector_pad_event
  dsimp only
  split_ifs <;> exact key _ _

theorem set_active_pad_none_segment (L : GstLib) (self : GstInputSelector)
    (stop_time start_time : Int) (q : PadId) :
    ((gst_input_selector_set_active_pad L self none stop_time start_time).1.pads q).segment =
      (self.pads q).segment := by
  unfold gst_input_selector_set_active_pad
  by_cases h : none = self.active_sinkpad
  · rw [if_pos h]
  · cases hact : self.active_sinkpad with
    | none => exact absurd hact.symm h
    | some o =>
      rw [if_neg (by simp)]
      dsimp only
      split_ifs <;> simp only [modify_pad_pads] <;> (try split_ifs) <;>
        first | rfl | simp_all

/-- A switch leaves the segment of `p` as it is, or it is a switch to `p` and moves the start
of its segment to the timestamp of the switch's start time. -/
theorem switch_segment_cases (L : GstLib) (self : GstInputSelector) (pad : Option PadId)
    (stop_time start_time : Int) (p : PadId) :
    ((gst_input_selector_switch L self pad stop_time start_time).1.pads p).segment =
        (self.pads p).segment ∨
    (pad = some p ∧
      ((gst_input_selector_switch L self pad stop_time start_time).1.pads p).segment =
        gst_segment_set_start (self.pads p).segment
          (switch_start_time L self p stop_time start_time)) := by
  unfold gst_input_selector_switch
  split_ifs with hb
  · exact Or.inl rfl
  · show ((gst_input_selector_set_active_pad L self pad stop_time start_time).1.pads p).segment
        = _ ∨ (pad = some p ∧
      ((gst_input_selector_set_active_pad L self pad stop_time start_time).1.pads p).segment
        = _)
    cases pad with
    | none => exact Or.inl (set_active_pad_none_segment L self stop_time start_time p)
    | some t =>
      by_cases htp : p = t
      · subst htp
        by_cases hne : some p = self.active_sinkpad
        · left
          unfold gst_input_selector_set_active_pad
          rw [if_pos hne]
        · have h := (set_active_pad_target L self p stop_time start_time hne).1
          rw [h]
          by_cases hc : (self.pads p).active = true ∧
              0 ≤ effective_start_time L self stop_time start_time
          · rw [if_pos hc]
            exact Or.inr ⟨rfl, rfl⟩
          · rw [if_neg hc]
            exact Or.inl rfl
      · exact Or.inl (set_active_pad_segment_other L self t stop_time start_time p htp)

/-- Where the double arithmetic is exact and the rate is not negative, moving the start of a
segment does not lower its `accum`. -/
theorem set_start_accum_ge (segment : GstSegment) (rt r : Int) (hr : 0 ≤ r)
    (hx : exact_in_double segment rt r) :
    segment.accum ≤ (gst_segment_set_start segment rt).accum := by
  show segment.accum ≤ segment.accum + (gst_segment_get_timestamp segment rt - segment.start)
  by_cases h : rt ≤ segment.accum
  · have : gst_segment_get_timestamp segment rt = segment.start := by
      unfold gst_segment_get_timestamp
      rw [if_pos h]
    omega
  · rw [get_timestamp_exact segment rt r hx (by omega)]
    have : 0 ≤ (rt - segment.accum) * r := Int.mul_nonneg (by omega) hr
    omega

theorem reset_pad_segment (L : GstLib) (sel : GstInputSelector) (p : PadId)
    (hp : p ∈ sel.sinkpads) :
    ((gst_input_selector_reset L sel).pads p).segment = L.gst_segment_init GstFormat.UNDEFINED := by
  unfold gst_input_selector_reset
  dsimp only
  have key : ∀ (l : List PadId) (s : GstInputSelector),
      ((l.foldl (fun s p => s.modify_pad p
        (fun selpad => { gst_selector_pad_reset L selpad with tags := none })) s).pads p).segment =
        if p ∈ l then L.gst_segment_init GstFormat.UNDEFINED else (s.pads p).segment := by
    intro l
    induction l with
    | nil => intro s; simp
    | cons a l ih =>
      intro s
      simp only [List.foldl_cons]
      rw [ih, modify_pad_pads]
      by_cases hpa : p = a
      · simp only [hpa, if_true, List.mem_cons, true_or]
        split_ifs <;> rfl
      · simp only [hpa, if_false, List.mem_cons, false_or]
  rw [key, if_pos hp]

/-- Counterexample to C28.  In scenario S2 the segment of B has accumulated 40 once B is the
active input; a flush-stop on B resets the pad, and the `accum` of its segment is 0 again;
so does the state change from PAUSED to READY.  And where the double arithmetic is not exact
a switch lowers `accum`: B's segment starts at 1700000000000000001 with nothing accumulated,
the switch at running time 40 moves its start to 1700000000000000000 and its `accum`
to -1. -/
theorem accum_decreases :
    (s2_after_block.1.pads 1).segment.accum = 40 ∧
    ((step spec_lib quiet_env 2 s2_after_block.1 (Op.event 1 GstEvent.FLUSH_STOP)).1.pads
      1).segment.accum = 0 ∧
    ((gst_input_selector_change_state spec_lib s2_after_block.1
      GstStateChange.PAUSED_TO_READY).pads 1).segment.accum = 0 ∧
    far_start_state.blocked = true ∧
    (far_start_state.pads 1).segment.start = 1700000000000000001 ∧
    (far_start_state.pads 1).segment.accum = 0 ∧
    switch_start_time spec_lib far_start_state 1 (-1) (-1) = 40 ∧
    ((step spec_lib quiet_env 2 far_start_state (Op.switch (some 1) (-1) (-1))).1.pads
      1).segment.start = 1700000000000000000 ∧
    ((step spec_lib quiet_env 2 far_start_state (Op.switch (some 1) (-1) (-1))).1.pads
      1).segment.accum = -1 := by
  decide

/-- C28, amended.  On a selector that cannot replay a cache, with a library whose
`gst_segment_set_last_stop` keeps `accum` and whose `gst_segment_set_newsegment_full` does not
lower it: every operation other than a flush-stop event on input `p` (segment and other
events, buffers, block, switch) leaves the `accum` of `p`'s segment at least as large as it
was, provided that for a switch to `p` the rate of its segment is not negative and the double
arithmetic is exact at the switch's start time.  The state changes other than PAUSED to READY
leave the segment as it is; PAUSED to READY resets the segment of every input of the
element. -/
theorem accum_never_decreases_without_reset (L : GstLib) (env : Env) (fuel : Nat)
    (sel : GstInputSelector) (op : Op) (p : PadId)
    (hnr : never_replays sel)
    (hls : ∀ seg f t, (L.gst_segment_set_last_stop seg f t).accum = seg.accum)
    (hns : ∀ seg u r ar f st sp t,
      seg.accum ≤ (L.gst_segment_set_newsegment_full seg u r ar f st sp t).accum)
    (hx : ∀ a b, op = Op.switch (some p) a b →
      ∃ r, 0 ≤ r ∧ exact_in_double (sel.pads p).segment (switch_start_time L sel p a b) r)
    (hop : op ≠ Op.event p GstEvent.FLUSH_STOP) :
    (sel.pads p).segment.accum ≤ ((step L env fuel sel op).1.pads p).segment.accum ∧
    ((gst_input_selector_change_state L sel GstStateChange.READY_TO_PAUSED).pads p).segment =
      (sel.pads p).segment ∧
    ((gst_input_selector_change_state L sel GstStateChange.OTHER).pads p).segment =
      (sel.pads p).segment ∧
    (p ∈ sel.sinkpads →
      ((gst_input_selector_change_state L sel GstStateChange.PAUSED_TO_READY).pads p).segment =
        L.gst_segment_init GstFormat.UNDEFINED) := by
  refine ⟨?_, rfl, rfl, ?_⟩
  · cases op with
    | event pad e =>
      rcases event_segment L env sel pad e p with h | ⟨u, r, ar, f, st, sp, t, h⟩ | ⟨h1, h2⟩
      · exact le_of_eq (congrArg GstSegment.accum h).symm
      · show _ ≤ ((gst_selector_pad_event L env sel pad e).1.pads p).segment.accum
        rw [h]
        exact hns _ _ _ _ _ _ _ _
      · exact absurd (by rw [h1, h2]) hop
    | chain pad buf =>
      have hg : chain_blind L (fun x : GstSelectorPad => x.segment.accum) :=
        ⟨fun _ _ => rfl, fun _ _ => rfl, fun _ _ => rfl, fun _ _ => rfl,
          fun x f t => hls x.segment f t⟩
      have := ((chain_pad_frame L _ hg env fuel sel pad buf hnr).1.2.2 p).2
      exact le_of_eq this.symm
    | block =>
      exact le_of_eq
        ((block_pad_frame (fun x : GstSelectorPad => x.segment.accum) L sel).2.2 p).2.symm
    | switch pad a b =>
      rcases switch_segment_cases L sel pad a b p with h | ⟨hpad, h⟩
      · exact le_of_eq (congrArg GstSegment.accum h).symm
      · show _ ≤ ((gst_input_selector_switch L sel pad a b).1.pads p).segment.accum
        rw [h]
        obtain ⟨r, hr, hex⟩ := hx a b (by rw [hpad])
        exact set_start_accum_ge _ _ r hr hex
  · intro hp
    exact reset_pad_segment L _ p hp

/-- Witness for C28, amended: the switch to B in scenario S2, at rate 1 and running
time 40. -/
theorem accum_never_decreases_without_reset_witness :
    never_replays s2_blocked ∧
    exact_in_double (s2_blocked.pads 1).segment (switch_start_time spec_lib s2_blocked 1 (-1) (-1))
      1 ∧
    (s2_blocked.pads 1).segment.accum ≤
      ((step spec_lib quiet_env 2 s2_blocked (Op.switch (some 1) (-1) (-1))).1.pads
        1).segment.accum :=
  ⟨Or.inl (by decide), by decide,
    (accum_never_decreases_without_reset spec_lib quiet_env 2 s2_blocked
      (Op.switch (some 1) (-1) (-1)) 1 (Or.inl (by decide)) (fun _ _ _ => rfl)
      (fun _ _ _ _ _ _ _ _ => le_refl _)
      (fun a b h => by cases h; exact ⟨1, by decide, by decide⟩) (by decide)).1⟩

/-! ### The pruner, exactly -/

theorem takeWhile_append_stop {α : Type} (p : α → Bool) (c : α) (hc : p c = false) :
    ∀ (A B : List α), (A ++ c :: B).takeWhile p = A.takeWhile p := by
  intro A
  induction A with
  | nil => intro B; simp [List.takeWhile, hc]
  | cons a A ih =>
    intro B
    simp only [List.cons_append, List.takeWhile_cons]
    split_ifs
    · rw [ih]
    · rfl

theorem trailing_invalid_all (l : List GstSelectorPadCachedBuffer)
    (h : ∀ x ∈ l, x.has_timestamp = false) : trailing_invalid l = l := by
  unfold trailing_invalid
  have : l.reverse.takeWhile (fun e => !e.has_timestamp) = l.reverse := by
    rw [List.takeWhile_eq_self_iff]
    intro x hx
    rw [h x (List.mem_reverse.1 hx)]
    rfl
  rw [this, List.reverse_reverse]

theorem trailing_invalid_after (A t : List GstSelectorPadCachedBuffer)
    (c : GstSelectorPadCachedBuffer) (hc : c.has_timestamp = true) :
    trailing_invalid (A ++ c :: t) = trailing_invalid t := by
  unfold trailing_invalid
  have h1 : (A ++ c :: t).reverse = t.reverse ++ c :: A.reverse := by simp
  rw [h1, takeWhile_append_stop _ c (by simp [hc])]

theorem trailing_invalid_suffix (l : List GstSelectorPadCachedBuffer) :
    trailing_invalid l <:+ l := by
  unfold trailing_invalid
  have h : List.takeWhile (fun e : GstSelectorPadCachedBuffer => !e.has_timestamp) l.reverse <+:
      l.reverse := List.takeWhile_prefix _
  have h2 := List.reverse_suffix.2 h
  rw [List.reverse_reverse] at h2
  exact h2

theorem first_kept_cons (L : GstLib) (seg : GstSegment) (cur : Int)
    (c : GstSelectorPadCachedBuffer) (rest : List GstSelectorPadCachedBuffer) :
    first_kept L seg cur (c :: rest) =
      if c.has_timestamp = true ∧ not_behind L seg cur c then 0
      else first_kept L seg cur rest + 1 := by
  unfold first_kept
  rw [List.findIdx_cons]
  by_cases h : c.has_timestamp = true ∧ not_behind L seg cur c
  · simp [h]
  · rw [if_neg h]
    have : (c.has_timestamp && decide (not_behind L seg cur c)) = false := by
      simpa using h
    rw [this]
    rfl

/-- The loop of the pruner on one queue leaves what the claim says, the entries collected in
`maybe_remove` counting as the head of the queue. -/
theorem cleanup_queue_pruned (L : GstLib) (seg : GstSegment) (cur : Int) :
    ∀ (q acc : List GstSelectorPadCachedBuffer), (∀ x ∈ acc, x.has_timestamp = false) →
      cleanup_queue L seg cur acc q =
        trailing_invalid (acc ++ q.take (first_kept L seg cur q)) ++
          q.drop (first_kept L seg cur q) := by
  intro q
  induction q with
  | nil =>
    intro acc hacc
    simp only [cleanup_queue, List.take_nil, List.append_nil, List.drop_nil]
    rw [trailing_invalid_all acc hacc]
  | cons c rest ih =>
    intro acc hacc
    rw [cleanup_queue_cons, first_kept_cons]
    by_cases h1 : c.has_timestamp = false
    · rw [if_pos h1, if_neg (by simp [h1])]
      rw [ih (acc ++ [c])]
      · simp
      · intro x hx
        rcases List.mem_append.1 hx with hm | hm
        · exact hacc x hm
        · rw [List.mem_singleton.1 hm]; exact h1
    · have hc : c.has_timestamp = true := by simpa using h1
      rw [if_neg h1]
      by_cases h2 : not_behind L seg cur c
      · rw [if_pos h2, if_pos ⟨hc, h2⟩]
        simp only [List.take_zero, List.append_nil, List.drop_zero]
        rw [trailing_invalid_all acc hacc]
      · rw [if_neg h2, if_neg (by simp [h2])]
        rw [ih [] (fun x hx => by cases hx)]
        simp only [List.nil_append, List.take_succ_cons, List.drop_succ_cons]
        rw [trailing_invalid_after acc _ c hc]

theorem pruned_cache_eq (L : GstLib) (seg : GstSegment) (cur : Int)
    (q : List GstSelectorPadCachedBuffer) :
    cleanup_queue L seg cur [] q = pruned_cache L seg cur q := by
  rw [cleanup_queue_pruned L seg cur q [] (fun x hx => by cases hx)]
  rfl

theorem cleanup_queue_skip_invalid (L : GstLib) (seg : GstSegment) (cur : Int)
    (tail : List GstSelectorPadCachedBuffer) :
    ∀ (A acc : List GstSelectorPadCachedBuffer), (∀ x ∈ A, x.has_timestamp = false) →
      cleanup_queue L seg cur acc (A ++ tail) = cleanup_queue L seg cur (acc ++ A) tail := by
  intro A
  induction A with
  | nil => intro acc _; simp
  | cons a A ih =>
    intro acc hA
    rw [List.cons_append, cleanup_queue_cons,
      if_pos (hA a (List.mem_cons_self _ _)),
      ih (acc ++ [a]) (fun x hx => hA x (List.mem_cons_of_mem _ hx))]
    simp

/-- Pruning a pruned queue changes nothing. -/
theorem cleanup_queue_idempotent (L : GstLib) (seg : GstSegment) (cur : Int) :
    ∀ (q acc : List GstSelectorPadCachedBuffer), (∀ x ∈ acc, x.has_timestamp = false) →
      cleanup_queue L seg cur [] (cleanup_queue L seg cur acc q) =
        cleanup_queue L seg cur acc q := by
  intro q
  induction q with
  | nil =>
    intro acc hacc
    simp only [cleanup_queue]
    have := cleanup_queue_skip_invalid L seg cur [] acc [] hacc
    simp only [List.append_nil, List.nil_append] at this
    rw [this]
    simp [cleanup_queue]
  | cons c rest ih =>
    intro acc hacc
    rw [cleanup_queue_cons]
    by_cases h1 : c.has_timestamp = false
    · rw [if_pos h1]
      apply ih
      intro x hx
      rcases List.mem_append.1 hx with hm | hm
      · exact hacc x hm
      · rw [List.mem_singleton.1 hm]; exact h1
    · rw [if_neg h1]
      by_cases h2 : not_behind L seg cur c
      · rw [if_pos h2]
        have := cleanup_queue_skip_invalid L seg cur (c :: rest) acc [] hacc
        rw [this, List.nil_append, cleanup_queue_cons, if_neg h1, if_pos h2]
      · rw [if_neg h2]
        exact ih [] (fun x hx => by cases hx)

theorem cleanup_pad_idempotent (L : GstLib) (cur : Int) (x : GstSelectorPad) :
    cleanup_pad L cur (cleanup_pad L cur x) = cleanup_pad L cur x := by
  unfold cleanup_pad
  cases hq : x.cached_buffers with
  | none => simp [hq]
  | some q =>
    dsimp only
    by_cases he : (cleanup_queue L x.segment cur [] q).isEmpty = true
    · simp [he]
    · simp only [he, Bool.false_eq_true, if_false]
      rw [cleanup_queue_idempotent L x.segment cur q [] (fun y hy => by cases hy)]
      simp [he]

theorem foldl_cleanup_pad (L : GstLib) (cur : Int) (p : PadId) :
    ∀ (l : List PadId) (s : GstInputSelector),
      (l.foldl (fun s p => s.modify_pad p (cleanup_pad L cur)) s).pads p =
        if p ∈ l then cleanup_pad L cur (s.pads p) else s.pads p := by
  intro l
  induction l with
  | nil => intro s; simp
  | cons a l ih =>
    intro s
    simp only [List.foldl_cons]
    rw [ih, modify_pad_pads]
    by_cases hpa : p = a
    · simp only [hpa, if_true, List.mem_cons, true_or]
      split_ifs
      · rw [cleanup_pad_idempotent]
      · rfl
    · simp only [hpa, if_false, List.mem_cons, false_or]

/-- No entry before the index `first_kept` has a timestamp and is not behind. -/
theorem first_kept_before (L : GstLib) (seg : GstSegment) (cur : Int) :
    ∀ (q : List GstSelectorPadCachedBuffer), ∀ e ∈ q.take (first_kept L seg cur q),
      e.has_timestamp = true → ¬ not_behind L seg cur e := by
  intro q
  induction q with
  | nil => intro e he; simp at he
  | cons c rest ih =>
    intro e he ht
    rw [first_kept_cons] at he
    by_cases h : c.has_timestamp = true ∧ not_behind L seg cur c
    · rw [if_pos h] at he
      simp at he
    · rw [if_neg h, List.take_succ_cons] at he
      rcases List.mem_cons.1 he with hm | hm
      · rw [hm] at ht ⊢
        exact fun hn => h ⟨ht, hn⟩
      · exact ih e hm ht

/-- The queue of a pad after `cleanup_pad`, as a list. -/
theorem cleanup_pad_queue (L : GstLib) (cur : Int) (x : GstSelectorPad) :
    (cleanup_pad L cur x).cached_buffers.getD [] =
      pruned_cache L x.segment cur (x.cached_buffers.getD []) := by
  unfold cleanup_pad
  cases hq : x.cached_buffers with
  | none =>
    simp only [hq, Option.getD_none]
    rfl
  | some q =>
    simp only [Option.getD_some]
    rw [← pruned_cache_eq]
    by_cases he : (cleanup_queue L x.segment cur [] q).isEmpty = true
    · rw [if_pos he]
      simp only [Option.getD_none]
      exact (List.isEmpty_iff.1 he).symm
    · rw [if_neg he]
      rfl

/-- What `pruned_cache` removes is a prefix whose timestamped entries are all behind. -/
theorem pruned_cache_removed (L : GstLib) (seg : GstSegment) (cur : Int)
    (q : List GstSelectorPadCachedBuffer) :
    ∃ removed, q = removed ++ pruned_cache L seg cur q ∧
      ∀ e ∈ removed, e.has_timestamp = true → ¬ not_behind L seg cur e := by
  obtain ⟨removed, hr⟩ := trailing_invalid_suffix (q.take (first_kept L seg cur q))
  refine ⟨removed, ?_, ?_⟩
  · unfold pruned_cache
    rw [← List.append_assoc, hr, List.take_append_drop]
  · intro e he
    apply first_kept_before L seg cur q e
    rw [← hr]
    exact List.mem_append_left _ he

/-- C30.  The pruner `gst_input_selector_cleanup_old_cached_buffers` on an input `p` of the
element: when the reference running time is unknown no cache is changed; when it is known the
cache of `p` afterwards is exactly `pruned_cache` of the cache before (the maximal run of
entries without a timestamp right before the index `k` of the first entry that has a timestamp
and is not behind the reference, followed by all entries from `k` on, in their order); in both
cases the cache before is a list `removed` followed by the cache afterwards, so the result is
a suffix, and every entry of `removed` that has a timestamp has an end running time strictly
below the reference (unsigned). -/
theorem pruner_leaves_exact_suffix (L : GstLib) (env : Env) (sel : GstInputSelector)
    (pad p : PadId) (hp : p ∈ sel.sinkpads) :
    (reference_running_time L env sel (sel.active_sinkpad.getD pad) = -1 →
      ∀ q, ((gst_input_selector_cleanup_old_cached_buffers L env sel pad).pads q).cached_buffers =
        (sel.pads q).cached_buffers) ∧
    (reference_running_time L env sel (sel.active_sinkpad.getD pad) ≠ -1 →
      ((gst_input_selector_cleanup_old_cached_buffers L env sel pad).pads p).cached_buffers.getD []
        = pruned_cache L (sel.pads p).segment
            (reference_running_time L env sel (sel.active_sinkpad.getD pad))
            ((sel.pads p).cached_buffers.getD [])) ∧
    (∃ removed, (sel.pads p).cached_buffers.getD [] = removed ++
        ((gst_input_selector_cleanup_old_cached_buffers L env sel pad).pads
          p).cached_buffers.getD [] ∧
      ∀ e ∈ removed, e.has_timestamp = true →
        u64 (buffer_end_running_time L (sel.pads p).segment e.buffer) <
          u64 (reference_running_time L env sel (sel.active_sinkpad.getD pad))) := by
  obtain ⟨s0, hs, hf, heq⟩ := cleanup_eq L env sel pad
  have hknown : reference_running_time L env sel (sel.active_sinkpad.getD pad) ≠ -1 →
      ((gst_input_selector_cleanup_old_cached_buffers L env sel pad).pads p).cached_buffers.getD []
        = pruned_cache L (sel.pads p).segment
            (reference_running_time L env sel (sel.active_sinkpad.getD pad))
            ((sel.pads p).cached_buffers.getD []) := by
    intro href
    rw [heq, if_neg href, foldl_cleanup_pad, if_pos (hs ▸ hp), cleanup_pad_queue,
      (hf p).1, (hf p).2]
  refine ⟨?_, hknown, ?_⟩
  · intro href q
    rw [heq, if_pos href]
    exact (hf q).2
  · by_cases href : reference_running_time L env sel (sel.active_sinkpad.getD pad) = -1
    · refine ⟨[], ?_, ?_⟩
      · rw [heq, if_pos href, (hf p).2]
        rfl
      · intro e he; cases he
    · rw [hknown href]
      obtain ⟨removed, h1, h2⟩ := pruned_cache_removed L (sel.pads p).segment
        (reference_running_time L env sel (sel.active_sinkpad.getD pad))
        ((sel.pads p).cached_buffers.getD [])
      refine ⟨removed, h1, ?_⟩
      intro e he ht
      have := h2 e he ht
      unfold not_behind at this
      exact not_le.1 this

/-- Witness for C30: A holds `B(40,40)` and `B(80,40)` and the clock reference is 100; the
pruner removes `B(40,40)`, which ends at 80, and leaves `B(80,40)`, which ends at 120. -/
theorem pruner_leaves_exact_suffix_witness :
    (0 : PadId) ∈ s5_fed_clock.sinkpads ∧
    reference_running_time spec_lib (clock_env 100) s5_fed_clock
      (s5_fed_clock.active_sinkpad.getD 0) = 100 ∧
    ((s5_fed_clock.pads 0).cached_buffers.getD []).map (fun e => e.buffer) =
      [plain_buffer 1 40 40, plain_buffer 2 80 40] ∧
    (pruned_cache spec_lib (s5_fed_clock.pads 0).segment 100
      ((s5_fed_clock.pads 0).cached_buffers.getD [])).map (fun e => e.buffer) =
      [plain_buffer 2 80 40] ∧
    ((gst_input_selector_cleanup_old_cached_buffers spec_lib (clock_env 100) s5_fed_clock
        0).pads 0).cached_buffers.getD [] =
      pruned_cache spec_lib (s5_fed_clock.pads 0).segment
        (reference_running_time spec_lib (clock_env 100) s5_fed_clock
          (s5_fed_clock.active_sinkpad.getD 0))
        ((s5_fed_clock.pads 0).cached_buffers.getD []) :=
  ⟨by decide, by decide, by decide, by decide,
    (pruner_leaves_exact_suffix spec_lib (clock_env 100) s5_fed_clock 0 0 (by decide)).2.1
      (by decide)⟩

end InputSelector
